import Mathlib

/-!
# GearGuard: downtime-cost Monte Carlo simulation and risk assessment

A shallow embedding of `backend/src/simulation/simulationService.js`
(class `SimulationService`) and of the statistics code shared with
`frontend/src/workers/monteCarloWorker.js`.

## Numbers

A JavaScript number is modelled by its exact value.  Finite numbers are
rationals (`ℚ`), every arithmetic operation on them is exact, and the three
non-finite values of a double are the extra constructors of `JsNum`.  The
per-trial arithmetic of the simulation only adds and multiplies finite numbers
and divides by the non-zero constant 8760, so it is carried out in `ℚ`; the
statistics, where a division by zero or an empty `Math.min()` can occur, are
carried out in `JsNum`.

The two zeros of a double are one value here: `JsNum.fin 0` stands for `0` and
for `-0`.  The code can produce `-0` (`parseFloat((-0.003).toFixed(2))`), and
one operation tells the zeros apart: a division by zero of a dividend that is
neither zero nor `NaN`, whose result is an infinity with the sign of the
dividend for `0` and the opposite sign for `-0`.  `JsNum.div` gives the result
for `0`; what is stated below about a division by a zero divisor holds for
the result at either zero.

## Platform functions

`Math.sqrt`, `Math.log`, `Math.cos` and `Math.PI` are parameters (`JsMath`);
`Math.random()` is the explicit list of the values it will return, threaded
through the code as state.
-/

namespace GearGuard

/-! ## JavaScript numbers -/

/-- A JavaScript number: a finite value, `Infinity`, `-Infinity` or `NaN`. -/
inductive JsNum where
  | fin (q : ℚ)
  | posInf
  | negInf
  | nan
  deriving DecidableEq, Repr

namespace JsNum

/-- Unary minus. -/
def neg : JsNum → JsNum
  | fin a => fin (-a)
  | posInf => negInf
  | negInf => posInf
  | nan => nan

/-- The operator `+` on numbers. -/
def add : JsNum → JsNum → JsNum
  | fin a, fin b => fin (a + b)
  | nan, _ => nan
  | _, nan => nan
  | posInf, negInf => nan
  | negInf, posInf => nan
  | posInf, _ => posInf
  | _, posInf => posInf
  | negInf, _ => negInf
  | _, negInf => negInf

/-- The operator `-` on numbers. -/
def sub (x y : JsNum) : JsNum := add x (neg y)

/-- The operator `*` on numbers. -/
def mul : JsNum → JsNum → JsNum
  | fin a, fin b => fin (a * b)
  | nan, _ => nan
  | _, nan => nan
  | posInf, fin b => if b = 0 then nan else if 0 < b then posInf else negInf
  | negInf, fin b => if b = 0 then nan else if 0 < b then negInf else posInf
  | fin a, posInf => if a = 0 then nan else if 0 < a then posInf else negInf
  | fin a, negInf => if a = 0 then nan else if 0 < a then negInf else posInf
  | posInf, posInf => posInf
  | negInf, negInf => posInf
  | posInf, negInf => negInf
  | negInf, posInf => negInf

/-- The operator `/` on numbers; `0 / 0` is `NaN`, and a non-zero value
divided by zero is an infinity.  The sign of that infinity is the one for the
divisor `0`; for the divisor `-0`, which `fin 0` also stands for, the code
gives the opposite infinity. -/
def div : JsNum → JsNum → JsNum
  | fin a, fin b =>
      if b = 0 then (if a = 0 then nan else if 0 < a then posInf else negInf)
      else fin (a / b)
  | nan, _ => nan
  | _, nan => nan
  | fin _, posInf => fin 0
  | fin _, negInf => fin 0
  | posInf, fin b => if b < 0 then negInf else posInf
  | negInf, fin b => if b < 0 then posInf else negInf
  | posInf, posInf => nan
  | posInf, negInf => nan
  | negInf, posInf => nan
  | negInf, negInf => nan

/-- The comparison `x < y`; false as soon as one side is `NaN`. -/
def lt : JsNum → JsNum → Bool
  | fin a, fin b => decide (a < b)
  | nan, _ => false
  | _, nan => false
  | negInf, negInf => false
  | negInf, _ => true
  | _, negInf => false
  | posInf, _ => false
  | fin _, posInf => true

/-- The comparison `x <= y`; false as soon as one side is `NaN`. -/
def le : JsNum → JsNum → Bool
  | fin a, fin b => decide (a ≤ b)
  | nan, _ => false
  | _, nan => false
  | negInf, _ => true
  | _, posInf => true
  | posInf, _ => false
  | fin _, negInf => false

/-- The function `Math.max(x, y)`: `NaN` as soon as one argument is `NaN`. -/
def max : JsNum → JsNum → JsNum
  | nan, _ => nan
  | _, nan => nan
  | x, y => if lt x y then y else x

/-- The function `Math.min(x, y)`: `NaN` as soon as one argument is `NaN`. -/
def min : JsNum → JsNum → JsNum
  | nan, _ => nan
  | _, nan => nan
  | x, y => if lt y x then y else x

/-- Truthiness of a number: everything but `0` and `NaN`. -/
def truthy : JsNum → Bool
  | fin q => decide (q ≠ 0)
  | posInf => true
  | negInf => true
  | nan => false

/-- Whether a number is finite. -/
def isFinite : JsNum → Bool
  | fin _ => true
  | _ => false

end JsNum

/-- The value of `x.toFixed(d)` read back as a number, for a finite `x`: the
multiple of `10^-d` nearest to `x`, a tie going away from zero (the sign is
split off first and of two nearest integers the larger is taken). -/
def roundTo (d : Nat) (q : ℚ) : ℚ :=
  if q < 0 then -(((Int.floor (-q * 10 ^ d + 1 / 2) : ℤ) : ℚ) / 10 ^ d)
  else ((Int.floor (q * 10 ^ d + 1 / 2) : ℤ) : ℚ) / 10 ^ d

/-- The expression `parseFloat(x.toFixed(d))`: non-finite values print as
`"Infinity"`, `"-Infinity"`, `"NaN"` and are read back unchanged.  A negative
value that rounds to zero prints as `"-0.00"` and is read back as `-0`, which
is `fin 0` here as well. -/
def JsNum.toFixed (d : Nat) : JsNum → JsNum
  | JsNum.fin q => JsNum.fin (roundTo d q)
  | x => x

/-- The function `Math.round` on a finite number: nearest integer, a tie going
up. -/
def jsRound (q : ℚ) : ℚ := ((Int.floor (q + 1 / 2) : ℤ) : ℚ)

/-- The expression `x || d` for an optional finite number `x`: `d` when `x` is
absent (`undefined`) or zero. -/
def orDefault (x : Option ℚ) (d : ℚ) : ℚ :=
  match x with
  | some v => if v = 0 then d else v
  | none => d

/-- The expression `x || d` for an optional number `x`: `d` when `x` is absent
(`undefined`), zero or `NaN`. -/
def orDefaultNum (x : Option JsNum) (d : JsNum) : JsNum :=
  match x with
  | some v => if v.truthy then v else d
  | none => d

/-! ## Platform functions and the random source -/

/-- The functions of `Math` the simulation calls, on finite arguments. -/
structure JsMath where
  sqrt : ℚ → ℚ
  log : ℚ → ℚ
  cos : ℚ → ℚ
  PI : ℚ

/-- The function `Math.sqrt` on a number. -/
def JsMath.sqrtNum (M : JsMath) : JsNum → JsNum
  | JsNum.fin q => if q < 0 then JsNum.nan else JsNum.fin (M.sqrt q)
  | JsNum.posInf => JsNum.posInf
  | JsNum.negInf => JsNum.nan
  | JsNum.nan => JsNum.nan

/-- The random source: the values the coming calls of `Math.random()`
return. -/
abbrev Rng := List ℚ

/-- The loop `while (u === 0) u = Math.random()` started at `u = 0`: the first
non-zero draw and the rest of the source; `none` when the source runs out. -/
def nextNonZero : Rng → Option (ℚ × Rng)
  | [] => none
  | x :: rest => if x = 0 then nextNonZero rest else some (x, rest)

/-- The number of non-zero draws left in the source. -/
def nonZeroCount : Rng → ℕ
  | [] => 0
  | x :: rest => if x = 0 then nonZeroCount rest else nonZeroCount rest + 1

/-- The method `randomNormal(mean, stdDev)` (Box-Muller transform). -/
def randomNormal (M : JsMath) (mean stdDev : ℚ) (rng : Rng) : Option (ℚ × Rng) :=
  match nextNonZero rng with
  | none => none
  | some (u, rng1) =>
    match nextNonZero rng1 with
    | none => none
    | some (v, rng2) =>
      let z := M.sqrt (-2 * M.log u) * M.cos (2 * M.PI * v)
      some (mean + z * stdDev, rng2)

/-! ## Simulation -/

/-- The simulation parameters (`this.defaultParams` merged with the custom
ones). -/
structure SimParams where
  iterations : ℤ
  revenueVariation : ℚ
  employeeVariation : ℚ
  wageVariation : ℚ
  equipmentValueVariation : ℚ
  deriving DecidableEq, Repr

/-- The field `this.defaultParams` set by the constructor. -/
def defaultParams : SimParams :=
  { iterations := 10000
    revenueVariation := 1 / 10
    employeeVariation := 15 / 100
    wageVariation := 5 / 100
    equipmentValueVariation := 2 / 10 }

/-- The argument `customParams`: an object with any of the parameter keys. -/
structure CustomParams where
  iterations : Option ℤ
  revenueVariation : Option ℚ
  employeeVariation : Option ℚ
  wageVariation : Option ℚ
  equipmentValueVariation : Option ℚ
  deriving DecidableEq, Repr

/-- The default value `{}` of `customParams`. -/
def CustomParams.empty : CustomParams :=
  { iterations := none
    revenueVariation := none
    employeeVariation := none
    wageVariation := none
    equipmentValueVariation := none }

/-- The object spread `{ ...this.defaultParams, ...customParams }`. -/
def mergeParams (d : SimParams) (c : CustomParams) : SimParams :=
  { iterations := c.iterations.getD d.iterations
    revenueVariation := c.revenueVariation.getD d.revenueVariation
    employeeVariation := c.employeeVariation.getD d.employeeVariation
    wageVariation := c.wageVariation.getD d.wageVariation
    equipmentValueVariation := c.equipmentValueVariation.getD d.equipmentValueVariation }

/-- The argument `baseParams`; `hourlyWage` and `equipmentValue` may be
absent. -/
structure BaseParams where
  revenuePerHour : ℚ
  affectedEmployees : ℚ
  hourlyWage : Option ℚ
  equipmentValue : Option ℚ
  deriving DecidableEq, Repr

/-- One entry of `results`. -/
structure Trial where
  revenue_loss : ℚ
  labor_cost : ℚ
  depreciation : ℚ
  total_cost : ℚ
  iteration : ℕ
  deriving DecidableEq, Repr

/-- The body of the loop of `runDowntimeSimulation` at index `i`. -/
def simulateTrial (M : JsMath) (downtimeHours : ℚ) (baseParams : BaseParams)
    (params : SimParams) (i : ℕ) (rng : Rng) : Option (Trial × Rng) :=
  match randomNormal M baseParams.revenuePerHour
      (baseParams.revenuePerHour * params.revenueVariation) rng with
  | none => none
  | some (r1, rng1) =>
    match randomNormal M baseParams.affectedEmployees
        (baseParams.affectedEmployees * params.employeeVariation) rng1 with
    | none => none
    | some (r2, rng2) =>
      match randomNormal M (orDefault baseParams.hourlyWage 50)
          (orDefault baseParams.hourlyWage 50 * params.wageVariation) rng2 with
      | none => none
      | some (r3, rng3) =>
        match randomNormal M (orDefault baseParams.equipmentValue 0)
            (orDefault baseParams.equipmentValue 0 * params.equipmentValueVariation) rng3 with
        | none => none
        | some (r4, rng4) =>
          let revenuePerHour := max 0 r1
          let affectedEmployees := max 0 (jsRound r2)
          let hourlyWage := max 0 r3
          let equipmentValue := max 0 r4
          let revenueLoss := downtimeHours * revenuePerHour
          let laborCost := downtimeHours * affectedEmployees * hourlyWage
          let depreciationCost := equipmentValue * (1 / 1000) * (downtimeHours / 8760)
          let totalCost := revenueLoss + laborCost + depreciationCost
          some ({ revenue_loss := revenueLoss
                  labor_cost := laborCost
                  depreciation := depreciationCost
                  total_cost := totalCost
                  iteration := i }, rng4)

/-- The loop `for (let i = ...; i < ...; i++)` of `runDowntimeSimulation`:
`count` further passes starting at index `i`. -/
def trialLoop (M : JsMath) (downtimeHours : ℚ) (baseParams : BaseParams)
    (params : SimParams) : ℕ → ℕ → Rng → Option (List Trial × Rng)
  | 0, _, rng => some ([], rng)
  | count + 1, i, rng =>
    match simulateTrial M downtimeHours baseParams params i rng with
    | none => none
    | some (t, rng1) =>
      match trialLoop M downtimeHours baseParams params count (i + 1) rng1 with
      | none => none
      | some (ts, rng2) => some (t :: ts, rng2)

/-- The call `results.sort((a, b) => a.total_cost - b.total_cost)`: a stable
sort, `a` staying before `b` unless the comparator is positive. -/
def sortByTotalCost (results : List Trial) : List Trial :=
  List.insertionSort (fun a b => a.total_cost ≤ b.total_cost) results

/-- The table `percentiles`. -/
structure Percentiles where
  p10 : JsNum
  p25 : JsNum
  p50 : JsNum
  p75 : JsNum
  p90 : JsNum
  p95 : JsNum
  p99 : JsNum
  deriving DecidableEq, Repr

/-- The object `stats`. -/
structure Stats where
  mean : JsNum
  median : JsNum
  min : JsNum
  max : JsNum
  stdDev : JsNum
  percentiles : Percentiles
  deriving DecidableEq, Repr

/-- The index `Math.floor(totalCosts.length * frac)`. -/
def percentileIndex (n : ℕ) (frac : ℚ) : ℤ := Int.floor ((n : ℚ) * frac)

/-- The element `arr[idx]`, `undefined` outside the array. -/
def elementAt (arr : List Trial) (idx : ℤ) : Option Trial :=
  if 0 ≤ idx then arr[idx.toNat]? else none

/-- The expression `sortedResults[Math.floor(totalCosts.length * frac)]?.total_cost || 0`. -/
def percentileAt (sortedResults : List Trial) (frac : ℚ) : ℚ :=
  orDefault ((elementAt sortedResults (percentileIndex sortedResults.length frac)).map
    Trial.total_cost) 0

/-- The call `Math.min(...totalCosts)`; `Infinity` without arguments. -/
def minOf (totalCosts : List ℚ) : JsNum :=
  totalCosts.foldl (fun acc x => JsNum.min acc (JsNum.fin x)) JsNum.posInf

/-- The call `Math.max(...totalCosts)`; `-Infinity` without arguments. -/
def maxOf (totalCosts : List ℚ) : JsNum :=
  totalCosts.foldl (fun acc x => JsNum.max acc (JsNum.fin x)) JsNum.negInf

/-- The statistics part of `runDowntimeSimulation` (and of the worker), from
the sorted results. -/
def computeStats (M : JsMath) (sortedResults : List Trial) : Stats :=
  let totalCosts := sortedResults.map Trial.total_cost
  let mean := JsNum.div (JsNum.fin (totalCosts.foldl (fun a b => a + b) 0))
    (JsNum.fin totalCosts.length)
  let stdDev := M.sqrtNum (JsNum.div
    (totalCosts.foldl
      (fun sq n => JsNum.add sq (JsNum.mul (JsNum.sub (JsNum.fin n) mean)
        (JsNum.sub (JsNum.fin n) mean))) (JsNum.fin 0))
    (JsNum.fin totalCosts.length))
  let percentiles : Percentiles :=
    { p10 := JsNum.fin (percentileAt sortedResults (1 / 10))
      p25 := JsNum.fin (percentileAt sortedResults (25 / 100))
      p50 := JsNum.fin (percentileAt sortedResults (5 / 10))
      p75 := JsNum.fin (percentileAt sortedResults (75 / 100))
      p90 := JsNum.fin (percentileAt sortedResults (9 / 10))
      p95 := JsNum.fin (percentileAt sortedResults (95 / 100))
      p99 := JsNum.fin (percentileAt sortedResults (99 / 100)) }
  { mean := mean.toFixed 2
    median := percentiles.p50.toFixed 2
    min := (minOf totalCosts).toFixed 2
    max := (maxOf totalCosts).toFixed 2
    stdDev := stdDev.toFixed 2
    percentiles := percentiles }

/-- The value `runDowntimeSimulation` resolves to (the timestamp left out). -/
structure SimulationResult where
  results : List Trial
  stats : Stats
  iterations : ℤ
  parameters : SimParams
  deriving DecidableEq, Repr

/-- The method `runDowntimeSimulation(downtimeHours, baseParams, customParams)`;
`none` only when the random source runs out. -/
def runDowntimeSimulation (M : JsMath) (downtimeHours : ℚ) (baseParams : BaseParams)
    (customParams : CustomParams) (rng : Rng) : Option (SimulationResult × Rng) :=
  let params := mergeParams defaultParams customParams
  match trialLoop M downtimeHours baseParams params params.iterations.toNat 0 rng with
  | none => none
  | some (results, rng1) =>
    let sortedResults := sortByTotalCost results
    some ({ results := sortedResults
            stats := computeStats M sortedResults
            iterations := params.iterations
            parameters := params }, rng1)

/-! ## Risk assessment -/

/-- The strings `'LOW'`, `'MEDIUM'`, `'HIGH'`, `'CRITICAL'`. -/
inductive RiskLevel where
  | LOW
  | MEDIUM
  | HIGH
  | CRITICAL
  deriving DecidableEq, Repr

/-- Position of a level in the order LOW, MEDIUM, HIGH, CRITICAL. -/
def RiskLevel.rank : RiskLevel → ℕ
  | RiskLevel.LOW => 0
  | RiskLevel.MEDIUM => 1
  | RiskLevel.HIGH => 2
  | RiskLevel.CRITICAL => 3

/-- The property access `stats.percentiles["p" + k]` for an integer `k`. -/
def Percentiles.lookup (p : Percentiles) (k : ℤ) : Option JsNum :=
  if k = 10 then some p.p10
  else if k = 25 then some p.p25
  else if k = 50 then some p.p50
  else if k = 75 then some p.p75
  else if k = 90 then some p.p90
  else if k = 95 then some p.p95
  else if k = 99 then some p.p99
  else none

/-- The object `calculateConfidenceIntervals` returns. -/
structure ConfidenceIntervals where
  lower : JsNum
  upper : JsNum
  confidenceLevel : ℚ
  interval : JsNum
  deriving DecidableEq, Repr

/-- The method `calculateConfidenceIntervals(stats, confidenceLevel)`. -/
def calculateConfidenceIntervals (stats : Stats) (confidenceLevel : ℚ) : ConfidenceIntervals :=
  let alpha := 1 - confidenceLevel
  let lowerPercentile := alpha / 2
  let upperPercentile := 1 - alpha / 2
  let lower := orDefaultNum (stats.percentiles.lookup (Int.floor (lowerPercentile * 100)))
    stats.percentiles.p10
  let upper := orDefaultNum (stats.percentiles.lookup (Int.floor (upperPercentile * 100)))
    stats.percentiles.p90
  { lower := lower.toFixed 2
    upper := upper.toFixed 2
    confidenceLevel := confidenceLevel
    interval := (JsNum.sub upper lower).toFixed 2 }

/-- The default value of the argument `confidenceLevel`. -/
def defaultConfidenceLevel : ℚ := 95 / 100

/-- The field `value_at_risk` of a risk assessment. -/
structure ValueAtRisk where
  worst_case : JsNum
  expected : JsNum
  best_case : JsNum
  deriving DecidableEq, Repr

/-- The object `generateRiskAssessment` returns. -/
structure RiskAssessment where
  riskScore : JsNum
  riskLevel : RiskLevel
  uncertaintyRatio : JsNum
  confidenceIntervals : ConfidenceIntervals
  value_at_risk : ValueAtRisk
  deriving DecidableEq, Repr

/-- The local `riskScore` of `generateRiskAssessment`, before it is rounded
for the result. -/
def rawRiskScore (stats : Stats) : JsNum :=
  JsNum.min (JsNum.fin 100)
    (JsNum.max (JsNum.fin 0) (JsNum.mul (JsNum.div stats.stdDev stats.mean) (JsNum.fin 100)))

/-- The chain `if (riskScore < 20) ... else if (riskScore < 50) ...`. -/
def riskLevelOf (riskScore : JsNum) : RiskLevel :=
  if JsNum.lt riskScore (JsNum.fin 20) then RiskLevel.LOW
  else if JsNum.lt riskScore (JsNum.fin 50) then RiskLevel.MEDIUM
  else if JsNum.lt riskScore (JsNum.fin 80) then RiskLevel.HIGH
  else RiskLevel.CRITICAL

/-- The method `generateRiskAssessment(simulationResults)`, on the `stats` of
its argument. -/
def generateRiskAssessment (stats : Stats) : RiskAssessment :=
  let uncertaintyRatio := JsNum.div stats.stdDev stats.mean
  let riskScore := JsNum.min (JsNum.fin 100)
    (JsNum.max (JsNum.fin 0) (JsNum.mul uncertaintyRatio (JsNum.fin 100)))
  let riskLevel := riskLevelOf riskScore
  let confidenceIntervals := calculateConfidenceIntervals stats defaultConfidenceLevel
  { riskScore := riskScore.toFixed 2
    riskLevel := riskLevel
    uncertaintyRatio := uncertaintyRatio.toFixed 3
    confidenceIntervals := confidenceIntervals
    value_at_risk :=
      { worst_case := stats.max
        expected := stats.mean
        best_case := stats.min } }

/-! ## Statistics before rounding -/

/-- The local `mean` of `runDowntimeSimulation` (and of the worker), before it
is rounded for `stats`. -/
def rawMean (sortedResults : List Trial) : JsNum :=
  JsNum.div (JsNum.fin ((sortedResults.map Trial.total_cost).foldl (fun a b => a + b) 0))
    (JsNum.fin (sortedResults.map Trial.total_cost).length)

/-- The local `stdDev` of `runDowntimeSimulation` (and of the worker), before it
is rounded for `stats`. -/
def rawStdDev (M : JsMath) (sortedResults : List Trial) : JsNum :=
  M.sqrtNum (JsNum.div
    ((sortedResults.map Trial.total_cost).foldl
      (fun sq n => JsNum.add sq (JsNum.mul (JsNum.sub (JsNum.fin n) (rawMean sortedResults))
        (JsNum.sub (JsNum.fin n) (rawMean sortedResults)))) (JsNum.fin 0))
    (JsNum.fin (sortedResults.map Trial.total_cost).length))

/-! ## Equipment simulation -/

/-- How a call can fail: the error `'Equipment not found'` of the code, and the
random source of the model running out. -/
inductive SimError where
  | equipmentNotFound
  | sourceExhausted
  deriving DecidableEq, Repr

/-- A row of the table `equipment`, with the columns the simulation reads; an
absent value is `null`. -/
structure Equipment where
  id : ℕ
  name : String
  type : String
  criticality : Option ℚ
  value : Option ℚ
  department_id : Option ℕ
  deriving DecidableEq, Repr

/-- A row of the table `departments`, with the column the simulation reads. -/
structure Department where
  estimated_revenue_hourly : Option ℚ
  deriving DecidableEq, Repr

/-- The database behind `db.query`: the rows the two `SELECT ... WHERE id = $1`
queries return. -/
structure Db where
  equipmentRows : ℕ → List Equipment
  departmentRows : Option ℕ → List Department

/-- A nullable number in an arithmetic expression: `null` counts as 0. -/
def nullToZero (x : Option ℚ) : ℚ := x.getD 0

/-- The object `baseParams` that `runEquipmentSimulation` builds. -/
def equipmentBaseParams (equipment : Equipment) (department : Department) : BaseParams :=
  { revenuePerHour :=
      orDefault department.estimated_revenue_hourly (nullToZero equipment.value * (1 / 10000))
    affectedEmployees := max 1 (jsRound (nullToZero equipment.criticality * 2))
    hourlyWage := some 50
    equipmentValue := some (orDefault equipment.value 0) }

/-- The field `equipment` of the result of `runEquipmentSimulation`. -/
structure EquipmentInfo where
  id : ℕ
  name : String
  type : String
  criticality : Option ℚ
  value : Option ℚ
  deriving DecidableEq, Repr

/-- The value `runEquipmentSimulation` resolves to: the simulation result, the
equipment information and the downtime. -/
structure EquipmentSimulation where
  simulation : SimulationResult
  equipment : EquipmentInfo
  downtime_hours : ℚ
  deriving DecidableEq, Repr

/-- The expression `deptResult.rows[0] || {}`. -/
def firstDepartment (rows : List Department) : Department :=
  rows.head?.getD { estimated_revenue_hourly := none }

/-- The method `runEquipmentSimulation(equipmentId, downtimeHours)`. -/
def runEquipmentSimulation (db : Db) (M : JsMath) (equipmentId : ℕ) (downtimeHours : ℚ)
    (rng : Rng) : Except SimError (EquipmentSimulation × Rng) :=
  match db.equipmentRows equipmentId with
  | [] => Except.error SimError.equipmentNotFound
  | equipment :: _ =>
    let department := firstDepartment (db.departmentRows equipment.department_id)
    let baseParams := equipmentBaseParams equipment department
    match runDowntimeSimulation M downtimeHours baseParams CustomParams.empty rng with
    | none => Except.error SimError.sourceExhausted
    | some (simulationResult, rng1) =>
      Except.ok ({ simulation := simulationResult
                   equipment :=
                     { id := equipment.id
                       name := equipment.name
                       type := equipment.type
                       criticality := equipment.criticality
                       value := equipment.value }
                   downtime_hours := downtimeHours }, rng1)

/-! ## Sensitivity analysis -/

/-- The keys of `baseParams`. -/
inductive ParamName where
  | revenuePerHour
  | affectedEmployees
  | hourlyWage
  | equipmentValue
  deriving DecidableEq, Repr

/-- The argument `sensitivityParams`: an object with any of the four keys of
`baseParams`, each a list of variations (other keys are not modelled). -/
structure SensitivityParams where
  revenuePerHour : Option (List ℚ)
  affectedEmployees : Option (List ℚ)
  hourlyWage : Option (List ℚ)
  equipmentValue : Option (List ℚ)
  deriving DecidableEq, Repr

/-- The default value `{}` of `sensitivityParams`. -/
def SensitivityParams.empty : SensitivityParams :=
  { revenuePerHour := none
    affectedEmployees := none
    hourlyWage := none
    equipmentValue := none }

/-- The entries of `{ ...defaultSensitivity, ...sensitivityParams }`, in the
order `Object.entries` lists them. -/
def sensitivityEntries (sensitivityParams : SensitivityParams) : List (ParamName × List ℚ) :=
  [(ParamName.revenuePerHour, sensitivityParams.revenuePerHour.getD [-1 / 2, -1 / 4, 1 / 4, 1 / 2]),
   (ParamName.affectedEmployees,
     sensitivityParams.affectedEmployees.getD [-1 / 2, -1 / 4, 1 / 4, 1 / 2]),
   (ParamName.hourlyWage, sensitivityParams.hourlyWage.getD [-2 / 10, -1 / 10, 1 / 10, 2 / 10]),
   (ParamName.equipmentValue, sensitivityParams.equipmentValue.getD [-1 / 2, -1 / 4, 1 / 4, 1 / 2])]

/-- The property access `baseParams[param]`. -/
def BaseParams.get (b : BaseParams) : ParamName → Option ℚ
  | ParamName.revenuePerHour => some b.revenuePerHour
  | ParamName.affectedEmployees => some b.affectedEmployees
  | ParamName.hourlyWage => b.hourlyWage
  | ParamName.equipmentValue => b.equipmentValue

/-- The two statements `const modifiedParams = { ...baseParams }` and
`modifiedParams[param] = baseParams[param] * (1 + variation)`. -/
def modifyParam (baseParams : BaseParams) (param : ParamName) (variation : ℚ) : BaseParams :=
  match param with
  | ParamName.revenuePerHour =>
    { baseParams with revenuePerHour := baseParams.revenuePerHour * (1 + variation) }
  | ParamName.affectedEmployees =>
    { baseParams with affectedEmployees := baseParams.affectedEmployees * (1 + variation) }
  | ParamName.hourlyWage =>
    { baseParams with hourlyWage := some (nullToZero baseParams.hourlyWage * (1 + variation)) }
  | ParamName.equipmentValue =>
    { baseParams with
      equipmentValue := some (nullToZero baseParams.equipmentValue * (1 + variation)) }

/-- The object `baseParams` that `runSensitivityAnalysis` builds from the
equipment information of the base simulation. -/
def sensitivityBaseParams (equipment : EquipmentInfo) : BaseParams :=
  { revenuePerHour := nullToZero equipment.value * (1 / 10000)
    affectedEmployees := max 1 (jsRound (nullToZero equipment.criticality * 2))
    hourlyWage := some 50
    equipmentValue := equipment.value }

/-- The inner loop `for (const variation of variations)` of
`runSensitivityAnalysis`: the assignments to `results[param]`, in order. -/
def sensitivityPoints (M : JsMath) (downtimeHours : ℚ) (baseParams : BaseParams)
    (param : ParamName) : List ℚ → Rng → Option (List (ℚ × JsNum) × Rng)
  | [], rng => some ([], rng)
  | variation :: variations, rng =>
    match runDowntimeSimulation M downtimeHours (modifyParam baseParams param variation)
        { iterations := some 1000
          revenueVariation := none
          employeeVariation := none
          wageVariation := none
          equipmentValueVariation := none } rng with
    | none => none
    | some (simulation, rng1) =>
      match sensitivityPoints M downtimeHours baseParams param variations rng1 with
      | none => none
      | some (points, rng2) => some ((variation, simulation.stats.mean.toFixed 2) :: points, rng2)

/-- The outer loop `for (const [param, variations] of Object.entries(sensitivity))`
of `runSensitivityAnalysis`: the entries of `results`, in order. -/
def sensitivityLoop (M : JsMath) (downtimeHours : ℚ) (baseParams : BaseParams) :
    List (ParamName × List ℚ) → Rng → Option (List (ParamName × List (ℚ × JsNum)) × Rng)
  | [], rng => some ([], rng)
  | (param, variations) :: entries, rng =>
    match sensitivityPoints M downtimeHours baseParams param variations rng with
    | none => none
    | some (points, rng1) =>
      match sensitivityLoop M downtimeHours baseParams entries rng1 with
      | none => none
      | some (results, rng2) => some ((param, points) :: results, rng2)

/-- The value `runSensitivityAnalysis` resolves to (the timestamp left out). -/
structure SensitivityReport where
  equipment_id : ℕ
  downtime_hours : ℚ
  sensitivity_analysis : List (ParamName × List (ℚ × JsNum))
  base_case : JsNum
  deriving DecidableEq, Repr

/-- The method `runSensitivityAnalysis(equipmentId, downtimeHours, sensitivityParams)`. -/
def runSensitivityAnalysis (db : Db) (M : JsMath) (equipmentId : ℕ) (downtimeHours : ℚ)
    (sensitivityParams : SensitivityParams) (rng : Rng) :
    Except SimError (SensitivityReport × Rng) :=
  match runEquipmentSimulation db M equipmentId downtimeHours rng with
  | Except.error e => Except.error e
  | Except.ok (baseSimulation, rng1) =>
    match sensitivityLoop M downtimeHours (sensitivityBaseParams baseSimulation.equipment)
        (sensitivityEntries sensitivityParams) rng1 with
    | none => Except.error SimError.sourceExhausted
    | some (results, rng2) =>
      Except.ok ({ equipment_id := equipmentId
                   downtime_hours := downtimeHours
                   sensitivity_analysis := results
                   base_case := baseSimulation.simulation.stats.mean.toFixed 2 }, rng2)

/-! ## Risk report -/

/-- The method `generateRecommendations(riskAssessment, stats)`. -/
def generateRecommendations (riskAssessment : RiskAssessment) (stats : Stats) : List String :=
  (if riskAssessment.riskLevel = RiskLevel.CRITICAL ∨ riskAssessment.riskLevel = RiskLevel.HIGH
    then ["Implement immediate mitigation measures",
          "Consider equipment redundancy or backup systems",
          "Review and update maintenance schedules"]
    else [])
  ++ (if JsNum.lt (JsNum.fin (1 / 2)) riskAssessment.uncertaintyRatio
    then ["Gather more data to reduce uncertainty in cost estimates",
          "Implement more frequent monitoring of this equipment"]
    else [])
  ++ (if JsNum.lt (JsNum.fin 3) (JsNum.div stats.max stats.mean)
    then ["Plan for worst-case scenarios in budgeting",
          "Develop contingency plans for high-impact events"]
    else [])

/-- The field `simulation_summary` of a risk report. -/
structure SimulationSummary where
  mean_cost : JsNum
  median_cost : JsNum
  min_cost : JsNum
  max_cost : JsNum
  std_deviation : JsNum
  deriving DecidableEq, Repr

/-- The value `generateRiskReport` resolves to (the timestamp left out). -/
structure RiskReport where
  equipment_id : ℕ
  downtime_hours : ℚ
  simulation_summary : SimulationSummary
  risk_assessment : RiskAssessment
  sensitivity_analysis : SensitivityReport
  recommendations : List String
  deriving DecidableEq, Repr

/-- The method `generateRiskReport(equipmentId, downtimeHours)`. -/
def generateRiskReport (db : Db) (M : JsMath) (equipmentId : ℕ) (downtimeHours : ℚ)
    (rng : Rng) : Except SimError (RiskReport × Rng) :=
  match runEquipmentSimulation db M equipmentId downtimeHours rng with
  | Except.error e => Except.error e
  | Except.ok (simulation, rng1) =>
    let riskAssessment := generateRiskAssessment simulation.simulation.stats
    match runSensitivityAnalysis db M equipmentId downtimeHours SensitivityParams.empty rng1 with
    | Except.error e => Except.error e
    | Except.ok (sensitivityAnalysis, rng2) =>
      Except.ok ({ equipment_id := equipmentId
                   downtime_hours := downtimeHours
                   simulation_summary :=
                     { mean_cost := simulation.simulation.stats.mean
                       median_cost := simulation.simulation.stats.median
                       min_cost := simulation.simulation.stats.min
                       max_cost := simulation.simulation.stats.max
                       std_deviation := simulation.simulation.stats.stdDev }
                   risk_assessment := riskAssessment
                   sensitivity_analysis := sensitivityAnalysis
                   recommendations :=
                     generateRecommendations riskAssessment simulation.simulation.stats }, rng2)

/-! ## Statistics as the specification words them -/

/-- The arithmetic mean of a list of values: their sum divided by their
number. -/
def arithmeticMean (xs : List ℚ) : ℚ := xs.sum / (xs.length : ℚ)

/-- The sum over a list of values of the squared deviation from their
arithmetic mean. -/
def sumSquaredDeviations (xs : List ℚ) : ℚ :=
  (xs.map (fun x => (x - arithmeticMean xs) ^ 2)).sum

/-! ## The worker copy (`frontend/src/workers/monteCarloWorker.js`) -/

namespace Worker

/-- The function `randomNormal(mean, stdDev)` of the worker. -/
def randomNormal (M : JsMath) (mean stdDev : ℚ) (rng : Rng) : Option (ℚ × Rng) :=
  match nextNonZero rng with
  | none => none
  | some (u, rng1) =>
    match nextNonZero rng1 with
    | none => none
    | some (v, rng2) =>
      let z := M.sqrt (-2 * M.log u) * M.cos (2 * M.PI * v)
      some (mean + z * stdDev, rng2)

/-- The body of the loop of the worker at index `i`. -/
def simulateTrial (M : JsMath) (downtimeHours : ℚ) (baseParams : BaseParams)
    (params : SimParams) (i : ℕ) (rng : Rng) : Option (Trial × Rng) :=
  match Worker.randomNormal M baseParams.revenuePerHour
      (baseParams.revenuePerHour * params.revenueVariation) rng with
  | none => none
  | some (r1, rng1) =>
    match Worker.randomNormal M baseParams.affectedEmployees
        (baseParams.affectedEmployees * params.employeeVariation) rng1 with
    | none => none
    | some (r2, rng2) =>
      match Worker.randomNormal M (orDefault baseParams.hourlyWage 50)
          (orDefault baseParams.hourlyWage 50 * params.wageVariation) rng2 with
      | none => none
      | some (r3, rng3) =>
        match Worker.randomNormal M (orDefault baseParams.equipmentValue 0)
            (orDefault baseParams.equipmentValue 0 * params.equipmentValueVariation) rng3 with
        | none => none
        | some (r4, rng4) =>
          let revenuePerHour := max 0 r1
          let affectedEmployees := max 0 (jsRound r2)
          let hourlyWage := max 0 r3
          let equipmentValue := max 0 r4
          let revenueLoss := downtimeHours * revenuePerHour
          let laborCost := downtimeHours * affectedEmployees * hourlyWage
          let depreciationCost := equipmentValue * (1 / 1000) * (downtimeHours / 8760)
          let totalCost := revenueLoss + laborCost + depreciationCost
          some ({ revenue_loss := revenueLoss
                  labor_cost := laborCost
                  depreciation := depreciationCost
                  total_cost := totalCost
                  iteration := i }, rng4)

/-- The loop `for (let i = ...; i < iterations; i++)` of the worker: `count`
further passes starting at index `i`. -/
def trialLoop (M : JsMath) (downtimeHours : ℚ) (baseParams : BaseParams)
    (params : SimParams) : ℕ → ℕ → Rng → Option (List Trial × Rng)
  | 0, _, rng => some ([], rng)
  | count + 1, i, rng =>
    match Worker.simulateTrial M downtimeHours baseParams params i rng with
    | none => none
    | some (t, rng1) =>
      match Worker.trialLoop M downtimeHours baseParams params count (i + 1) rng1 with
      | none => none
      | some (ts, rng2) => some (t :: ts, rng2)

/-- The statistics part of the worker, from the sorted results. -/
def computeStats (M : JsMath) (sortedResults : List Trial) : Stats :=
  let totalCosts := sortedResults.map Trial.total_cost
  let mean := JsNum.div (JsNum.fin (totalCosts.foldl (fun a b => a + b) 0))
    (JsNum.fin totalCosts.length)
  let stdDev := M.sqrtNum (JsNum.div
    (totalCosts.foldl
      (fun sq n => JsNum.add sq (JsNum.mul (JsNum.sub (JsNum.fin n) mean)
        (JsNum.sub (JsNum.fin n) mean))) (JsNum.fin 0))
    (JsNum.fin totalCosts.length))
  let percentiles : Percentiles :=
    { p10 := JsNum.fin (percentileAt sortedResults (1 / 10))
      p25 := JsNum.fin (percentileAt sortedResults (25 / 100))
      p50 := JsNum.fin (percentileAt sortedResults (5 / 10))
      p75 := JsNum.fin (percentileAt sortedResults (75 / 100))
      p90 := JsNum.fin (percentileAt sortedResults (9 / 10))
      p95 := JsNum.fin (percentileAt sortedResults (95 / 100))
      p99 := JsNum.fin (percentileAt sortedResults (99 / 100)) }
  { mean := mean.toFixed 2
    median := percentiles.p50.toFixed 2
    min := (minOf totalCosts).toFixed 2
    max := (maxOf totalCosts).toFixed 2
    stdDev := stdDev.toFixed 2
    percentiles := percentiles }

/-- The message the worker posts back (the timestamp left out). -/
structure Posted where
  results : List Trial
  stats : Stats
  iterations : ℤ
  deriving DecidableEq, Repr

/-- The handler `self.onmessage` of the worker, on the message
`{ iterations, downtimeHours, baseParams, params }`; `none` only when the
random source runs out. -/
def onmessage (M : JsMath) (iterations : ℤ) (downtimeHours : ℚ) (baseParams : BaseParams)
    (params : SimParams) (rng : Rng) : Option (Posted × Rng) :=
  match Worker.trialLoop M downtimeHours baseParams params iterations.toNat 0 rng with
  | none => none
  | some (results, rng1) =>
    let sortedResults := sortByTotalCost results
    some ({ results := sortedResults
            stats := Worker.computeStats M sortedResults
            iterations := iterations }, rng1)

end Worker

/-! ## The inline worker of `MonteCarloDowntimeSimulator.runSimulation` -/

/-- How the inline worker can fail: a `ReferenceError`, a `TypeError`, and the
random source of the model running out. -/
inductive WorkerError where
  | referenceError
  | typeError
  | sourceExhausted
  deriving DecidableEq, Repr

/-- The object `stats` of the inline worker. -/
structure InlineStats where
  mean : JsNum
  median : Option ℚ
  min : JsNum
  max : JsNum
  stdDev : JsNum
  p10 : ℚ
  p50 : ℚ
  p90 : ℚ
  p95 : ℚ
  p99 : ℚ
  deriving DecidableEq, Repr

namespace InlineWorker

/-- The expression `stats.mean` inside the initializer of `const stats`: the
binding `stats` is not initialized until the object literal has been
evaluated, so reading it throws a `ReferenceError`. -/
def readStatsMean : Except WorkerError JsNum := Except.error WorkerError.referenceError

/-- The call `totalCosts.reduce((sq, n) => sq + Math.pow(n - (stats.mean || ...), 2), 0)`
inside the initializer of `const stats`: the callback reads `stats.mean` for
every element. -/
def sumSquares (totalCosts : List ℚ) : Except WorkerError JsNum :=
  totalCosts.foldlM
    (fun sq n =>
      match readStatsMean with
      | Except.error e => Except.error e
      | Except.ok statsMean =>
        let mean := orDefaultNum (some statsMean)
          (JsNum.div (JsNum.fin (totalCosts.foldl (fun a b => a + b) 0))
            (JsNum.fin totalCosts.length))
        Except.ok (JsNum.add sq (JsNum.mul (JsNum.sub (JsNum.fin n) mean)
          (JsNum.sub (JsNum.fin n) mean))))
    (JsNum.fin 0)

/-- The expression `sortedResults[Math.floor(totalCosts.length * frac)].total_cost`:
a `TypeError` when the element is `undefined`. -/
def totalCostAt (sortedResults : List Trial) (frac : ℚ) : Except WorkerError ℚ :=
  match elementAt sortedResults (percentileIndex sortedResults.length frac) with
  | none => Except.error WorkerError.typeError
  | some t => Except.ok t.total_cost

/-- The statistics part of the inline worker: the initializer of `const stats`,
its properties evaluated in order, and the two assignments after it. -/
def computeStats (M : JsMath) (sortedResults : List Trial) : Except WorkerError InlineStats :=
  let totalCosts := sortedResults.map Trial.total_cost
  let mean := JsNum.div (JsNum.fin (totalCosts.foldl (fun a b => a + b) 0))
    (JsNum.fin totalCosts.length)
  let median := (elementAt sortedResults
    (Int.floor ((totalCosts.length : ℚ) / 2))).map Trial.total_cost
  let min := minOf totalCosts
  let max := maxOf totalCosts
  match InlineWorker.sumSquares totalCosts with
  | Except.error e => Except.error e
  | Except.ok _ =>
    match InlineWorker.totalCostAt sortedResults (1 / 10) with
    | Except.error e => Except.error e
    | Except.ok p10 =>
      match InlineWorker.totalCostAt sortedResults (5 / 10) with
      | Except.error e => Except.error e
      | Except.ok p50 =>
        match InlineWorker.totalCostAt sortedResults (9 / 10) with
        | Except.error e => Except.error e
        | Except.ok p90 =>
          match InlineWorker.totalCostAt sortedResults (95 / 100) with
          | Except.error e => Except.error e
          | Except.ok p95 =>
            match InlineWorker.totalCostAt sortedResults (99 / 100) with
            | Except.error e => Except.error e
            | Except.ok p99 =>
              Except.ok
                { mean := mean
                  median := median
                  min := min
                  max := max
                  stdDev := M.sqrtNum (JsNum.div
                    (totalCosts.foldl
                      (fun sq n => JsNum.add sq (JsNum.mul (JsNum.sub (JsNum.fin n) mean)
                        (JsNum.sub (JsNum.fin n) mean))) (JsNum.fin 0))
                    (JsNum.fin totalCosts.length))
                  p10 := p10
                  p50 := p50
                  p90 := p90
                  p95 := p95
                  p99 := p99 }

/-- The message the inline worker posts back. -/
structure Posted where
  results : List Trial
  stats : InlineStats
  iterations : ℤ
  deriving DecidableEq, Repr

/-- The handler `self.onmessage` of the inline worker; its trial loop is the
code of `workers/monteCarloWorker.js`, statement for statement. -/
def onmessage (M : JsMath) (iterations : ℤ) (downtimeHours : ℚ) (baseParams : BaseParams)
    (params : SimParams) (rng : Rng) : Except WorkerError (InlineWorker.Posted × Rng) :=
  match Worker.trialLoop M downtimeHours baseParams params iterations.toNat 0 rng with
  | none => Except.error WorkerError.sourceExhausted
  | some (results, rng1) =>
    let sortedResults := sortByTotalCost results
    match InlineWorker.computeStats M sortedResults with
    | Except.error e => Except.error e
    | Except.ok stats =>
      Except.ok ({ results := sortedResults
                   stats := stats
                   iterations := iterations }, rng1)

end InlineWorker

/-- The method `MonteCarloDowntimeSimulator.runSimulation(downtimeHours,
baseParams, customParams)`: the promise resolves with the message of the inline
worker and rejects with its error. -/
def runSimulation (M : JsMath) (downtimeHours : ℚ) (baseParams : BaseParams)
    (customParams : CustomParams) (rng : Rng) :
    Except WorkerError (InlineWorker.Posted × Rng) :=
  let params := mergeParams defaultParams customParams
  InlineWorker.onmessage M params.iterations downtimeHours baseParams params rng

/-! ## Human impact and deterministic cost -/

/-- The function `calculateHumanImpact(affectedEmployees, downtimeHours,
safetyRisk, skillDependency)` (services/impactCalculator.js and
frontend utils/impactCalculator.js, the same code); the last two arguments
default to 0. -/
def calculateHumanImpact (affectedEmployees downtimeHours : ℚ) (safetyRisk : Option ℚ)
    (skillDependency : Option ℚ) : ℚ :=
  let employeeImpact := affectedEmployees * downtimeHours
  let safetyImpact := min (safetyRisk.getD 0) 1 * 100
  let skillImpact := min (skillDependency.getD 0) 1 * 100
  let humanImpactScore :=
    min (employeeImpact * (3 / 10) + safetyImpact * (4 / 10) + skillImpact * (3 / 10)) 100
  roundTo 2 humanImpactScore

/-- The argument `options` of `calculateDowntimeCost`. -/
structure CostOptions where
  hourlyWage : Option ℚ
  equipmentValue : Option ℚ
  productionLoss : Option ℚ
  fixedCostsPerHour : Option ℚ
  deriving DecidableEq, Repr

/-- The field `breakdown` of the result of `calculateDowntimeCost`. -/
structure CostBreakdown where
  revenue_loss : ℚ
  labor_cost : ℚ
  production_loss : ℚ
  fixed_costs : ℚ
  depreciation : ℚ
  deriving DecidableEq, Repr

/-- The object `calculateDowntimeCost` returns. -/
structure DowntimeCost where
  total_cost : ℚ
  breakdown : CostBreakdown
  deriving DecidableEq, Repr

/-- The five cost components of `calculateDowntimeCost` before rounding, in the
order of the breakdown. -/
def costComponents (downtimeHours affectedEmployees revenuePerHour : ℚ)
    (options : CostOptions) : CostBreakdown :=
  { revenue_loss := downtimeHours * revenuePerHour
    labor_cost := downtimeHours * affectedEmployees * options.hourlyWage.getD 50
    production_loss := options.productionLoss.getD 0 * (downtimeHours / 24)
    fixed_costs := downtimeHours * options.fixedCostsPerHour.getD 0
    depreciation := options.equipmentValue.getD 0 * (1 / 1000) * (downtimeHours / 8760) }

/-- The function `calculateDowntimeCost(downtimeHours, affectedEmployees,
revenuePerHour, options)` (backend utils/costCalculator.js and frontend
utils/costCalculator.js, the same code). -/
def calculateDowntimeCost (downtimeHours affectedEmployees revenuePerHour : ℚ)
    (options : CostOptions) : DowntimeCost :=
  let revenueLoss := downtimeHours * revenuePerHour
  let laborCost := downtimeHours * affectedEmployees * options.hourlyWage.getD 50
  let productionCost := options.productionLoss.getD 0 * (downtimeHours / 24)
  let fixedCost := downtimeHours * options.fixedCostsPerHour.getD 0
  let depreciationCost := options.equipmentValue.getD 0 * (1 / 1000) * (downtimeHours / 8760)
  let totalCost := revenueLoss + laborCost + productionCost + fixedCost + depreciationCost
  { total_cost := roundTo 2 totalCost
    breakdown :=
      { revenue_loss := roundTo 2 revenueLoss
        labor_cost := roundTo 2 laborCost
        production_loss := roundTo 2 productionCost
        fixed_costs := roundTo 2 fixedCost
        depreciation := roundTo 2 depreciationCost } }

/-! ## Safety risk (`backend/src/services/safetyService.js`) -/

/-- How `assessSafetyRisk` can fail: the error `'Equipment not found'` and a
`ReferenceError`. -/
inductive SafetyError where
  | equipmentNotFound
  | referenceError
  deriving DecidableEq, Repr

/-- A row of the table `equipment`, with the columns `assessSafetyRisk` reads;
dates are milliseconds since the epoch, an absent value is `null`. -/
structure SafetyEquipment where
  name : String
  category : Option String
  purchase_date : Option ℚ
  warranty_expiry : Option ℚ
  deriving DecidableEq, Repr

/-- A row of the table `maintenance_requests`, with the columns
`assessSafetyRisk` reads. -/
structure MaintenanceRequest where
  priority : String
  status : String
  deriving DecidableEq, Repr

/-- The strings `getRiskLevel` returns. -/
inductive SafetyLevel where
  | critical
  | high
  | medium
  | low
  | minimal
  deriving DecidableEq, Repr

/-- The method `getRiskLevel(riskScore)`. -/
def getRiskLevel (riskScore : ℚ) : SafetyLevel :=
  if riskScore ≥ 80 then SafetyLevel.critical
  else if riskScore ≥ 60 then SafetyLevel.high
  else if riskScore ≥ 40 then SafetyLevel.medium
  else if riskScore ≥ 20 then SafetyLevel.low
  else SafetyLevel.minimal

/-- The expression `categoryRisk[equipment.category] || categoryRisk['default']`
(category names that are properties of every object are not modelled). -/
def categoryRiskOf (category : Option String) : ℚ :=
  if category = some "HVAC" then 20
  else if category = some "Manufacturing" then 40
  else if category = some "Processing" then 35
  else if category = some "Transportation" then 30
  else if category = some "Power Generation" then 50
  else 25

/-- The field `risk_factors` of a safety assessment. -/
structure SafetyRiskFactors where
  category_risk : ℚ
  recent_high_priority_requests : ℕ
  open_requests : ℕ
  equipment_age_factor : ℚ
  warranty_expired : Bool
  deriving DecidableEq, Repr

/-- The object `assessSafetyRisk` returns (the timestamp left out). -/
structure SafetyAssessment where
  equipment_id : ℕ
  equipment_name : String
  risk_score : ℚ
  risk_level : SafetyLevel
  risk_factors : SafetyRiskFactors
  deriving DecidableEq, Repr

/-- The local `riskScore` of `assessSafetyRisk` when the result object is
built: the category risk, 15 per recent high-priority request, 10 per open or
in-progress request, 3 per year of age beyond ten, 15 for an expired warranty,
capped at 100.  The argument `now` is the value of `new Date()`. -/
def safetyRiskScore (equipment : SafetyEquipment) (recentRequests : List MaintenanceRequest)
    (now : ℚ) : ℚ :=
  let highPriorityRequests := (recentRequests.filter (fun req => req.priority = "high")).length
  let openRequests := (recentRequests.filter
    (fun req => req.status = "open" ∨ req.status = "in_progress")).length
  let ageRisk :=
    match equipment.purchase_date with
    | none => 0
    | some purchaseDate =>
      let yearsOld := (now - purchaseDate) / (1000 * 60 * 60 * 24 * 365)
      if yearsOld > 10 then (yearsOld - 10) * 3 else 0
  let warrantyRisk :=
    match equipment.warranty_expiry with
    | none => 0
    | some expiry => if expiry < now then 15 else 0
  min (categoryRiskOf equipment.category + (highPriorityRequests : ℚ) * 15
    + (openRequests : ℚ) * 10 + ageRisk + warrantyRisk) 100

/-- The identifier `yearsOld` where the result object of `assessSafetyRisk` is
built.  Its only declaration, `const yearsOld`, is local to the block of
`if (equipment.purchase_date)`, so the name is unbound there and reading it
throws a `ReferenceError`. -/
def readYearsOld : Except SafetyError ℚ := Except.error SafetyError.referenceError

/-- The method `assessSafetyRisk(equipmentId)`, on the rows the two queries
return and the value `now` of `new Date()`. -/
def assessSafetyRisk (equipmentRows : List SafetyEquipment)
    (recentRequests : List MaintenanceRequest) (now : ℚ) (equipmentId : ℕ) :
    Except SafetyError SafetyAssessment :=
  match equipmentRows with
  | [] => Except.error SafetyError.equipmentNotFound
  | equipment :: _ =>
    let riskScore := safetyRiskScore equipment recentRequests now
    match readYearsOld with
    | Except.error e => Except.error e
    | Except.ok yearsOld =>
      Except.ok
        { equipment_id := equipmentId
          equipment_name := equipment.name
          risk_score := roundTo 2 riskScore
          risk_level := getRiskLevel riskScore
          risk_factors :=
            { category_risk := categoryRiskOf equipment.category
              recent_high_priority_requests :=
                (recentRequests.filter (fun req => req.priority = "high")).length
              open_requests :=
                (recentRequests.filter
                  (fun req => req.status = "open" ∨ req.status = "in_progress")).length
              equipment_age_factor :=
                if yearsOld = 0 then 0
                else roundTo 2 ((if yearsOld > 10 then yearsOld - 10 else 0) * 3)
              warranty_expired :=
                match equipment.warranty_expiry with
                | none => false
                | some expiry => decide (expiry < now) } }

/-! ## The recommendation groups, as the specification words them -/

/-- The recommendations for immediate mitigation. -/
def mitigationGroup : List String :=
  ["Implement immediate mitigation measures",
   "Consider equipment redundancy or backup systems",
   "Review and update maintenance schedules"]

/-- The recommendations for gathering more data. -/
def dataGatheringGroup : List String :=
  ["Gather more data to reduce uncertainty in cost estimates",
   "Implement more frequent monitoring of this equipment"]

/-- The recommendations for budgeting the worst case. -/
def worstCaseGroup : List String :=
  ["Plan for worst-case scenarios in budgeting",
   "Develop contingency plans for high-impact events"]

/-! ## Concrete inputs -/

/-- A stand-in for `Math` on which the model can be evaluated: rational
approximations, exact at `sqrt 0`, `sqrt 1`, `log 1` and `cos 0`.  Every
theorem below holds for all `JsMath`. -/
def sampleMath : JsMath :=
  { sqrt := fun x => x * (x + 3) / (3 * x + 1)
    log := fun x => x - 1
    cos := fun x => 1 - x ^ 2 / 2
    PI := 22 / 7 }

/-- Draws of `Math.random()`, three of them zero: sixteen non-zero draws,
enough for two trials. -/
def sampleRng : Rng :=
  [1/2, 1/4, 3/4, 1/8, 0, 3/8, 5/8, 7/8, 1/16, 3/16, 5/16, 0, 0, 7/16, 9/16, 11/16, 13/16,
   15/16, 1/32]

/-- Custom parameters that set the iteration count only. -/
def onlyIterations (iterations : ℤ) : CustomParams :=
  { iterations := some iterations
    revenueVariation := none
    employeeVariation := none
    wageVariation := none
    equipmentValueVariation := none }

/-- A run of two iterations under the default variations. -/
def sampleRun : Option (SimulationResult × Rng) :=
  runDowntimeSimulation sampleMath 10 ⟨1000, 5, some 50, some 100000⟩ (onlyIterations 2)
    sampleRng

/-- Statistics with the given mean and standard deviation, every other field
0. -/
def statsOf (mean stdDev : JsNum) : Stats :=
  { mean := mean
    median := JsNum.fin 0
    min := JsNum.fin 0
    max := JsNum.fin 0
    stdDev := stdDev
    percentiles :=
      { p10 := JsNum.fin 0
        p25 := JsNum.fin 0
        p50 := JsNum.fin 0
        p75 := JsNum.fin 0
        p90 := JsNum.fin 0
        p95 := JsNum.fin 0
        p99 := JsNum.fin 0 } }

/-- Two trials, of cost 1/256 and 3/512, in ascending order. -/
def smallTrials : List Trial :=
  [{ revenue_loss := 1 / 256, labor_cost := 0, depreciation := 0, total_cost := 1 / 256,
     iteration := 1 },
   { revenue_loss := 3 / 512, labor_cost := 0, depreciation := 0, total_cost := 3 / 512,
     iteration := 0 }]

/-- A database with one equipment row, of id 1, value 50000 and criticality 8,
in no department. -/
def sampleDb : Db :=
  { equipmentRows := fun id =>
      if id = 1 then
        [{ id := 1, name := "Press", type := "Hydraulic", criticality := some 8,
           value := some 50000, department_id := none }]
      else []
    departmentRows := fun _ => [] }

/-- A database whose equipment of id 1 (value 50000, criticality 8) belongs to
department 3, which has an hourly revenue estimate of 1000. -/
def departmentDb : Db :=
  { equipmentRows := fun id =>
      if id = 1 then
        [{ id := 1, name := "Press", type := "Hydraulic", criticality := some 8,
           value := some 50000, department_id := some 3 }]
      else []
    departmentRows := fun id =>
      if id = some 3 then [{ estimated_revenue_hourly := some 1000 }] else [] }

/-- A source of 208000 non-zero draws: enough for the base simulation of 10000
iterations and sixteen simulations of 1000 iterations. -/
def longRng : Rng := List.replicate 208000 (1 / 2)

/-- Statistics with the percentile table 10, 20, 30, 40, 50, 60, 70. -/
def sampleTable : Stats :=
  { mean := JsNum.fin 40
    median := JsNum.fin 30
    min := JsNum.fin 5
    max := JsNum.fin 75
    stdDev := JsNum.fin 20
    percentiles :=
      { p10 := JsNum.fin 10
        p25 := JsNum.fin 20
        p50 := JsNum.fin 30
        p75 := JsNum.fin 40
        p90 := JsNum.fin 50
        p95 := JsNum.fin 60
        p99 := JsNum.fin 70 } }

/-- Custom parameters switching every variation off. -/
def zeroVariation (iterations : Option ℤ) : CustomParams :=
  { iterations := iterations
    revenueVariation := some 0
    employeeVariation := some 0
    wageVariation := some 0
    equipmentValueVariation := some 0 }

set_option maxRecDepth 100000

/-! ## The random source and the trial loop -/

theorem nextNonZero_of_count (rng : Rng) (k : ℕ) (h : k + 1 ≤ nonZeroCount rng) :
    ∃ u rest, nextNonZero rng = some (u, rest) ∧ k ≤ nonZeroCount rest := by
  induction rng with
  | nil => simp [nonZeroCount] at h
  | cons x xs ih =>
    by_cases hx : x = 0
    · subst hx
      simp only [nextNonZero, if_true]
      apply ih
      simpa [nonZeroCount] using h
    · refine ⟨x, xs, by simp [nextNonZero, hx], ?_⟩
      simp only [nonZeroCount, hx, if_false] at h
      omega

theorem randomNormal_of_count (M : JsMath) (mean stdDev : ℚ) (rng : Rng) (k : ℕ)
    (h : k + 2 ≤ nonZeroCount rng) :
    ∃ x rest, randomNormal M mean stdDev rng = some (x, rest) ∧ k ≤ nonZeroCount rest := by
  obtain ⟨u, r1, h1, hk1⟩ := nextNonZero_of_count rng (k + 1) h
  obtain ⟨v, r2, h2, hk2⟩ := nextNonZero_of_count r1 k hk1
  simp only [randomNormal, h1, h2]
  exact ⟨_, _, rfl, hk2⟩

theorem randomNormal_zero (M : JsMath) (mean : ℚ) (rng rng1 : Rng) (x : ℚ)
    (h : randomNormal M mean 0 rng = some (x, rng1)) : x = mean := by
  unfold randomNormal at h
  cases h1 : nextNonZero rng with
  | none => simp [h1] at h
  | some p =>
    obtain ⟨u, r1⟩ := p
    cases h2 : nextNonZero r1 with
    | none => simp [h1, h2] at h
    | some q =>
      obtain ⟨v, r2⟩ := q
      simp [h1, h2] at h
      exact h.1.symm

/-- What a pass of the loop computes, from the four values drawn. -/
theorem simulateTrial_eq (M : JsMath) (d : ℚ) (bp : BaseParams) (p : SimParams) (i : ℕ)
    (rng rng4 : Rng) (t : Trial) (h : simulateTrial M d bp p i rng = some (t, rng4)) :
    ∃ r1 r2 r3 r4 rng1 rng2 rng3,
      randomNormal M bp.revenuePerHour (bp.revenuePerHour * p.revenueVariation) rng
        = some (r1, rng1) ∧
      randomNormal M bp.affectedEmployees (bp.affectedEmployees * p.employeeVariation) rng1
        = some (r2, rng2) ∧
      randomNormal M (orDefault bp.hourlyWage 50)
        (orDefault bp.hourlyWage 50 * p.wageVariation) rng2 = some (r3, rng3) ∧
      randomNormal M (orDefault bp.equipmentValue 0)
        (orDefault bp.equipmentValue 0 * p.equipmentValueVariation) rng3 = some (r4, rng4) ∧
      t = { revenue_loss := d * max 0 r1
            labor_cost := d * max 0 (jsRound r2) * max 0 r3
            depreciation := max 0 r4 * (1 / 1000) * (d / 8760)
            total_cost := d * max 0 r1 + d * max 0 (jsRound r2) * max 0 r3
              + max 0 r4 * (1 / 1000) * (d / 8760)
            iteration := i } := by
  unfold simulateTrial at h
  cases h1 : randomNormal M bp.revenuePerHour (bp.revenuePerHour * p.revenueVariation) rng with
  | none => simp [h1] at h
  | some q1 =>
    obtain ⟨r1, rng1⟩ := q1
    simp only [h1] at h
    cases h2 : randomNormal M bp.affectedEmployees
        (bp.affectedEmployees * p.employeeVariation) rng1 with
    | none => simp [h2] at h
    | some q2 =>
      obtain ⟨r2, rng2⟩ := q2
      simp only [h2] at h
      cases h3 : randomNormal M (orDefault bp.hourlyWage 50)
          (orDefault bp.hourlyWage 50 * p.wageVariation) rng2 with
      | none => simp [h3] at h
      | some q3 =>
        obtain ⟨r3, rng3⟩ := q3
        simp only [h3] at h
        cases h4 : randomNormal M (orDefault bp.equipmentValue 0)
            (orDefault bp.equipmentValue 0 * p.equipmentValueVariation) rng3 with
        | none => simp [h4] at h
        | some q4 =>
          obtain ⟨r4, rng4'⟩ := q4
          simp only [h4, Option.some.injEq, Prod.mk.injEq] at h
          obtain ⟨ht, hr⟩ := h
          subst hr
          refine ⟨r1, r2, r3, r4, rng1, rng2, rng3, ?_, h2, h3, h4, ht.symm⟩
          rfl

theorem simulateTrial_of_count (M : JsMath) (d : ℚ) (bp : BaseParams) (p : SimParams)
    (i : ℕ) (rng : Rng) (k : ℕ) (h : k + 8 ≤ nonZeroCount rng) :
    ∃ t rest, simulateTrial M d bp p i rng = some (t, rest) ∧ k ≤ nonZeroCount rest := by
  obtain ⟨r1, g1, h1, k1⟩ := randomNormal_of_count M bp.revenuePerHour
    (bp.revenuePerHour * p.revenueVariation) rng (k + 6) h
  obtain ⟨r2, g2, h2, k2⟩ := randomNormal_of_count M bp.affectedEmployees
    (bp.affectedEmployees * p.employeeVariation) g1 (k + 4) k1
  obtain ⟨r3, g3, h3, k3⟩ := randomNormal_of_count M (orDefault bp.hourlyWage 50)
    (orDefault bp.hourlyWage 50 * p.wageVariation) g2 (k + 2) k2
  obtain ⟨r4, g4, h4, k4⟩ := randomNormal_of_count M (orDefault bp.equipmentValue 0)
    (orDefault bp.equipmentValue 0 * p.equipmentValueVariation) g3 k k3
  simp only [simulateTrial, h1, h2, h3, h4]
  exact ⟨_, _, rfl, k4⟩

/-- A property every pass of the loop establishes holds of every trial. -/
theorem trialLoop_forall (M : JsMath) (d : ℚ) (bp : BaseParams) (p : SimParams)
    (P : Trial → Prop)
    (hP : ∀ i rng t rest, simulateTrial M d bp p i rng = some (t, rest) → P t) :
    ∀ (count i : ℕ) (rng : Rng) (ts : List Trial) (rest : Rng),
      trialLoop M d bp p count i rng = some (ts, rest) → ∀ t ∈ ts, P t := by
  intro count
  induction count with
  | zero =>
    intro i rng ts rest h t ht
    simp only [trialLoop, Option.some.injEq, Prod.mk.injEq] at h
    rw [← h.1] at ht
    simp at ht
  | succ n ih =>
    intro i rng ts rest h t ht
    unfold trialLoop at h
    cases h1 : simulateTrial M d bp p i rng with
    | none => simp [h1] at h
    | some q =>
      obtain ⟨t0, g1⟩ := q
      simp only [h1] at h
      cases h2 : trialLoop M d bp p n (i + 1) g1 with
      | none => simp [h2] at h
      | some q2 =>
        obtain ⟨ts0, g2⟩ := q2
        simp only [h2, Option.some.injEq, Prod.mk.injEq] at h
        rw [← h.1] at ht
        rcases List.mem_cons.mp ht with rfl | hmem
        · exact hP i rng _ g1 h1
        · exact ih (i + 1) g1 ts0 g2 h2 t hmem

/-- The loop makes exactly `count` trials. -/
theorem trialLoop_length (M : JsMath) (d : ℚ) (bp : BaseParams) (p : SimParams) :
    ∀ (count i : ℕ) (rng : Rng) (ts : List Trial) (rest : Rng),
      trialLoop M d bp p count i rng = some (ts, rest) → ts.length = count := by
  intro count
  induction count with
  | zero =>
    intro i rng ts rest h
    simp only [trialLoop, Option.some.injEq, Prod.mk.injEq] at h
    simp [← h.1]
  | succ n ih =>
    intro i rng ts rest h
    unfold trialLoop at h
    cases h1 : simulateTrial M d bp p i rng with
    | none => simp [h1] at h
    | some q =>
      obtain ⟨t0, g1⟩ := q
      simp only [h1] at h
      cases h2 : trialLoop M d bp p n (i + 1) g1 with
      | none => simp [h2] at h
      | some q2 =>
        obtain ⟨ts0, g2⟩ := q2
        simp only [h2, Option.some.injEq, Prod.mk.injEq] at h
        rw [← h.1, List.length_cons, ih (i + 1) g1 ts0 g2 h2]

/-- The loop completes when the source holds eight non-zero draws per pass. -/
theorem trialLoop_of_count (M : JsMath) (d : ℚ) (bp : BaseParams) (p : SimParams) :
    ∀ (count i : ℕ) (rng : Rng), 8 * count ≤ nonZeroCount rng →
      ∃ ts rest, trialLoop M d bp p count i rng = some (ts, rest) := by
  intro count
  induction count with
  | zero =>
    intro i rng _
    exact ⟨[], rng, rfl⟩
  | succ n ih =>
    intro i rng h
    obtain ⟨t, g1, h1, k1⟩ := simulateTrial_of_count M d bp p i rng (8 * n) (by omega)
    obtain ⟨ts, g2, h2⟩ := ih (i + 1) g1 k1
    exact ⟨t :: ts, g2, by simp only [trialLoop, h1, h2]⟩

/-- The result of a run, unfolded. -/
theorem runDowntimeSimulation_eq (M : JsMath) (d : ℚ) (bp : BaseParams) (c : CustomParams)
    (rng rest : Rng) (r : SimulationResult)
    (h : runDowntimeSimulation M d bp c rng = some (r, rest)) :
    ∃ results,
      trialLoop M d bp (mergeParams defaultParams c)
        (mergeParams defaultParams c).iterations.toNat 0 rng = some (results, rest) ∧
      r = { results := sortByTotalCost results
            stats := computeStats M (sortByTotalCost results)
            iterations := (mergeParams defaultParams c).iterations
            parameters := mergeParams defaultParams c } := by
  unfold runDowntimeSimulation at h
  cases h1 : trialLoop M d bp (mergeParams defaultParams c)
      (mergeParams defaultParams c).iterations.toNat 0 rng with
  | none => simp [h1] at h
  | some q =>
    obtain ⟨results, g⟩ := q
    simp only [h1, Option.some.injEq, Prod.mk.injEq] at h
    exact ⟨results, by rw [h.2], h.1.symm⟩

/-- A run completes when the source holds eight non-zero draws per iteration. -/
theorem runDowntimeSimulation_of_count (M : JsMath) (d : ℚ) (bp : BaseParams)
    (c : CustomParams) (rng : Rng)
    (h : 8 * (mergeParams defaultParams c).iterations.toNat ≤ nonZeroCount rng) :
    ∃ r rest, runDowntimeSimulation M d bp c rng = some (r, rest) := by
  obtain ⟨ts, g, h1⟩ := trialLoop_of_count M d bp (mergeParams defaultParams c)
    (mergeParams defaultParams c).iterations.toNat 0 rng h
  simp only [runDowntimeSimulation, h1]
  exact ⟨_, _, rfl⟩

theorem jsRound_natCast (k : ℕ) : jsRound (k : ℚ) = (k : ℚ) := by
  unfold jsRound
  have h : Int.floor ((k : ℚ) + 1 / 2) = (k : ℤ) := by
    rw [Int.floor_eq_iff]
    constructor
    · push_cast
      linarith
    · push_cast
      linarith
  rw [h]
  simp

theorem mem_sortByTotalCost (t : Trial) (l : List Trial) :
    t ∈ sortByTotalCost l ↔ t ∈ l :=
  (List.perm_insertionSort _ l).mem_iff

theorem length_sortByTotalCost (l : List Trial) : (sortByTotalCost l).length = l.length :=
  List.length_insertionSort _ l

/-! ## Numbers -/

theorem jsLe_fin (a b : ℚ) : JsNum.le (JsNum.fin a) (JsNum.fin b) = true ↔ a ≤ b := by
  simp [JsNum.le]

theorem jsLt_fin (a b : ℚ) : JsNum.lt (JsNum.fin a) (JsNum.fin b) = true ↔ a < b := by
  simp [JsNum.lt]

theorem jsMin_fin (a b : ℚ) :
    JsNum.min (JsNum.fin a) (JsNum.fin b) = JsNum.fin (min a b) := by
  simp only [JsNum.min, JsNum.lt]
  by_cases h : b < a
  · simp [h, min_eq_right h.le]
  · simp [h, min_eq_left (not_lt.mp h)]

theorem jsMax_fin (a b : ℚ) :
    JsNum.max (JsNum.fin a) (JsNum.fin b) = JsNum.fin (max a b) := by
  simp only [JsNum.max, JsNum.lt]
  by_cases h : a < b
  · simp [h, max_eq_right h.le]
  · simp [h, max_eq_left (not_lt.mp h)]

/-- Rounding to `d` decimals is monotone. -/
theorem roundTo_mono (d : ℕ) {a b : ℚ} (h : a ≤ b) : roundTo d a ≤ roundTo d b := by
  have hp : (0 : ℚ) < 10 ^ d := by positivity
  unfold roundTo
  by_cases ha : a < 0
  · by_cases hb : b < 0
    · rw [if_pos ha, if_pos hb]
      have hfl : Int.floor (-b * 10 ^ d + 1 / 2) ≤ Int.floor (-a * 10 ^ d + 1 / 2) := by
        apply Int.floor_mono
        nlinarith
      have hc : ((Int.floor (-b * 10 ^ d + 1 / 2) : ℤ) : ℚ)
          ≤ ((Int.floor (-a * 10 ^ d + 1 / 2) : ℤ) : ℚ) := by exact_mod_cast hfl
      have := div_le_div_of_nonneg_right hc hp.le
      linarith
    · rw [if_pos ha, if_neg hb]
      have hb0 : 0 ≤ b := not_lt.mp hb
      have h1 : (0 : ℤ) ≤ Int.floor (-a * 10 ^ d + 1 / 2) := by
        apply Int.floor_nonneg.mpr
        nlinarith
      have h2 : (0 : ℤ) ≤ Int.floor (b * 10 ^ d + 1 / 2) := by
        apply Int.floor_nonneg.mpr
        nlinarith
      have h1q : (0 : ℚ) ≤ ((Int.floor (-a * 10 ^ d + 1 / 2) : ℤ) : ℚ) := by exact_mod_cast h1
      have h2q : (0 : ℚ) ≤ ((Int.floor (b * 10 ^ d + 1 / 2) : ℤ) : ℚ) := by exact_mod_cast h2
      have := div_nonneg h1q hp.le
      have := div_nonneg h2q hp.le
      linarith
  · have ha0 : 0 ≤ a := not_lt.mp ha
    have hb : ¬ b < 0 := not_lt.mpr (le_trans ha0 h)
    rw [if_neg ha, if_neg hb]
    have hfl : Int.floor (a * 10 ^ d + 1 / 2) ≤ Int.floor (b * 10 ^ d + 1 / 2) := by
      apply Int.floor_mono
      nlinarith
    have hc : ((Int.floor (a * 10 ^ d + 1 / 2) : ℤ) : ℚ)
        ≤ ((Int.floor (b * 10 ^ d + 1 / 2) : ℤ) : ℚ) := by exact_mod_cast hfl
    exact div_le_div_of_nonneg_right hc hp.le

/-- A whole number is its own rounding. -/
theorem roundTo_natCast (d : ℕ) (k : ℕ) : roundTo d (k : ℚ) = (k : ℚ) := by
  have hp : (0 : ℚ) < 10 ^ d := by positivity
  unfold roundTo
  rw [if_neg (not_lt.mpr (Nat.cast_nonneg k))]
  have h : Int.floor ((k : ℚ) * 10 ^ d + 1 / 2) = ((k * 10 ^ d : ℕ) : ℤ) := by
    rw [Int.floor_eq_iff]
    constructor
    · push_cast
      linarith
    · push_cast
      linarith
  rw [h]
  push_cast
  field_simp

/-! ## Sorting and percentiles -/

theorem sorted_sortByTotalCost (l : List Trial) :
    List.Sorted (fun a b : Trial => a.total_cost ≤ b.total_cost) (sortByTotalCost l) := by
  haveI : IsTotal Trial (fun a b => a.total_cost ≤ b.total_cost) :=
    ⟨fun a b => le_total a.total_cost b.total_cost⟩
  haveI : IsTrans Trial (fun a b => a.total_cost ≤ b.total_cost) :=
    ⟨fun _ _ _ h1 h2 => le_trans h1 h2⟩
  exact List.sorted_insertionSort _ l

/-- In a sorted list a later entry costs at least as much as an earlier one. -/
theorem sorted_getElem?_le (l : List Trial)
    (hs : List.Sorted (fun a b : Trial => a.total_cost ≤ b.total_cost) l)
    (i j : ℕ) (a b : Trial) (hij : i ≤ j) (ha : l[i]? = some a) (hb : l[j]? = some b) :
    a.total_cost ≤ b.total_cost := by
  obtain ⟨hi, rfl⟩ := List.getElem?_eq_some.mp ha
  obtain ⟨hj, rfl⟩ := List.getElem?_eq_some.mp hb
  haveI : IsRefl Trial (fun a b => a.total_cost ≤ b.total_cost) :=
    ⟨fun a => le_refl a.total_cost⟩
  exact hs.rel_get_of_le (a := ⟨i, hi⟩) (b := ⟨j, hj⟩) hij

/-- The index of the `K`-th percentile among `n` values is `n * K / 100`,
rounded down. -/
theorem percentileIndex_eq (n K : ℕ) :
    percentileIndex n ((K : ℚ) / 100) = ((n * K / 100 : ℕ) : ℤ) := by
  unfold percentileIndex
  have h : (n : ℚ) * ((K : ℚ) / 100) = ((n * K : ℕ) : ℚ) / ((100 : ℕ) : ℚ) := by
    push_cast
    ring
  rw [h, Rat.floor_natCast_div_natCast]
  norm_cast

theorem percentile_index_lt (n K : ℕ) (hn : 1 ≤ n) (hK : K < 100) : n * K / 100 < n := by
  apply Nat.div_lt_of_lt_mul
  nlinarith

/-- Below the hundredth percentile the lookup finds a trial and returns its
cost. -/
theorem percentileAt_eq (l : List Trial) (K : ℕ) (hl : l ≠ []) (hK : K < 100) :
    ∃ t, l[l.length * K / 100]? = some t ∧ percentileAt l ((K : ℚ) / 100) = t.total_cost := by
  have hn : 1 ≤ l.length := Nat.one_le_iff_ne_zero.mpr (fun h => hl (List.length_eq_zero.mp h))
  have hlt := percentile_index_lt l.length K hn hK
  refine ⟨l[l.length * K / 100], List.getElem?_eq_getElem hlt, ?_⟩
  unfold percentileAt elementAt
  rw [percentileIndex_eq, if_pos (Int.natCast_nonneg _), Int.toNat_ofNat,
    List.getElem?_eq_getElem hlt]
  simp only [Option.map_some', orDefault]
  split_ifs with h
  · exact h.symm
  · rfl

/-- The fold behind `Math.min(...)`, started at a finite value. -/
theorem foldl_min_fin (l : List ℚ) (a : ℚ) :
    ∃ m, l.foldl (fun acc x => JsNum.min acc (JsNum.fin x)) (JsNum.fin a) = JsNum.fin m ∧
      (m = a ∨ m ∈ l) ∧ m ≤ a ∧ ∀ x ∈ l, m ≤ x := by
  induction l generalizing a with
  | nil => exact ⟨a, rfl, Or.inl rfl, le_refl a, by simp⟩
  | cons y ys ih =>
    obtain ⟨m, hm, hmem, hle, hall⟩ := ih (min a y)
    refine ⟨m, ?_, ?_, le_trans hle (min_le_left a y), ?_⟩
    · rw [List.foldl_cons, jsMin_fin]
      exact hm
    · rcases hmem with h | h
      · rcases min_choice a y with h2 | h2
        · exact Or.inl (h.trans h2)
        · exact Or.inr (by rw [h, h2]; exact List.mem_cons_self y ys)
      · exact Or.inr (List.mem_cons_of_mem y h)
    · intro x hx
      rcases List.mem_cons.mp hx with rfl | hx
      · exact le_trans hle (min_le_right a x)
      · exact hall x hx

/-- The fold behind `Math.max(...)`, started at a finite value. -/
theorem foldl_max_fin (l : List ℚ) (a : ℚ) :
    ∃ m, l.foldl (fun acc x => JsNum.max acc (JsNum.fin x)) (JsNum.fin a) = JsNum.fin m ∧
      (m = a ∨ m ∈ l) ∧ a ≤ m ∧ ∀ x ∈ l, x ≤ m := by
  induction l generalizing a with
  | nil => exact ⟨a, rfl, Or.inl rfl, le_refl a, by simp⟩
  | cons y ys ih =>
    obtain ⟨m, hm, hmem, hle, hall⟩ := ih (max a y)
    refine ⟨m, ?_, ?_, le_trans (le_max_left a y) hle, ?_⟩
    · rw [List.foldl_cons, jsMax_fin]
      exact hm
    · rcases hmem with h | h
      · rcases max_choice a y with h2 | h2
        · exact Or.inl (h.trans h2)
        · exact Or.inr (by rw [h, h2]; exact List.mem_cons_self y ys)
      · exact Or.inr (List.mem_cons_of_mem y h)
    · intro x hx
      rcases List.mem_cons.mp hx with rfl | hx
      · exact le_trans (le_max_right a x) hle
      · exact hall x hx

/-- On a non-empty list `Math.min(...)` is the least entry. -/
theorem minOf_spec (l : List ℚ) (hl : l ≠ []) :
    ∃ m, minOf l = JsNum.fin m ∧ m ∈ l ∧ ∀ x ∈ l, m ≤ x := by
  cases l with
  | nil => exact absurd rfl hl
  | cons y ys =>
    obtain ⟨m, hm, hmem, hle, hall⟩ := foldl_min_fin ys y
    refine ⟨m, ?_, ?_, ?_⟩
    · unfold minOf
      rw [List.foldl_cons]
      have h0 : JsNum.min JsNum.posInf (JsNum.fin y) = JsNum.fin y := by
        simp [JsNum.min, JsNum.lt]
      rw [h0]
      exact hm
    · rcases hmem with h | h
      · rw [h]
        exact List.mem_cons_self y ys
      · exact List.mem_cons_of_mem y h
    · intro x hx
      rcases List.mem_cons.mp hx with rfl | hx
      · exact hle
      · exact hall x hx

/-- On a non-empty list `Math.max(...)` is the greatest entry. -/
theorem maxOf_spec (l : List ℚ) (hl : l ≠ []) :
    ∃ m, maxOf l = JsNum.fin m ∧ m ∈ l ∧ ∀ x ∈ l, x ≤ m := by
  cases l with
  | nil => exact absurd rfl hl
  | cons y ys =>
    obtain ⟨m, hm, hmem, hle, hall⟩ := foldl_max_fin ys y
    refine ⟨m, ?_, ?_, ?_⟩
    · unfold maxOf
      rw [List.foldl_cons]
      have h0 : JsNum.max JsNum.negInf (JsNum.fin y) = JsNum.fin y := by
        simp [JsNum.max, JsNum.lt]
      rw [h0]
      exact hm
    · rcases hmem with h | h
      · rw [h]
        exact List.mem_cons_self y ys
      · exact List.mem_cons_of_mem y h
    · intro x hx
      rcases List.mem_cons.mp hx with rfl | hx
      · exact hle
      · exact hall x hx

/-- The table entry for key `K` is the lookup at fraction `K / 100`. -/
theorem lookup_computeStats (M : JsMath) (l : List Trial) (K : ℕ)
    (hK : K ∈ [10, 25, 50, 75, 90, 95, 99]) :
    (computeStats M l).percentiles.lookup (K : ℤ)
      = some (JsNum.fin (percentileAt l ((K : ℚ) / 100))) := by
  simp only [List.mem_cons, List.mem_singleton, List.not_mem_nil, or_false] at hK
  rcases hK with rfl | rfl | rfl | rfl | rfl | rfl | rfl <;>
    simp only [computeStats, Percentiles.lookup] <;> norm_num

/-! ## Trials without variation -/

/-- C1, at the failing input: with every variation 0 and `hourlyWage = 0` (ten
hours, 1000 per hour, five employees, equipment value 100000) the single trial
costs `10*1000 + 10*5*50 + ...`, the wage 0 being replaced by the default 50
of `baseParams.hourlyWage || 50`, and not `10*1000 + 10*5*0 + ...`. -/
theorem zero_variation_zero_wage_uses_default :
    (runDowntimeSimulation sampleMath 10 ⟨1000, 5, some 0, some 100000⟩
        (zeroVariation (some 1)) sampleRng).map (fun p => p.1.results.map Trial.total_cost)
      = some [10 * 1000 + 10 * 5 * 50 + 100000 * (1 / 1000) * (10 / 8760)] ∧
    (10 * 1000 + 10 * 5 * 50 + 100000 * (1 / 1000) * (10 / 8760) : ℚ)
      ≠ 10 * 1000 + 10 * 5 * 0 + 100000 * (1 / 1000) * (10 / 8760) := by
  constructor
  · with_unfolding_all rfl
  · norm_num

/-- Away from `hourlyWage = 0` the formula of C1 holds: with the four variation
coefficients 0, `revenuePerHour ≥ 0`, a natural number of affected employees,
`hourlyWage > 0` and `equipmentValue ≥ 0`, every trial of every run has
`total_cost = downtimeHours*revenuePerHour
  + downtimeHours*affectedEmployees*hourlyWage
  + equipmentValue*0.001*(downtimeHours/8760)`, whatever the random draws. -/
theorem zero_variation_total_cost (M : JsMath) (d rev w e : ℚ) (k : ℕ) (iters : Option ℤ)
    (rng : Rng) (hrev : 0 ≤ rev) (hw : 0 < w) (he : 0 ≤ e) :
    ∀ p ∈ runDowntimeSimulation M d ⟨rev, (k : ℚ), some w, some e⟩ (zeroVariation iters) rng,
      ∀ t ∈ p.1.results,
        t.total_cost = d * rev + d * (k : ℚ) * w + e * (1 / 1000) * (d / 8760) := by
  intro p hp t ht
  obtain ⟨r, rest⟩ := p
  obtain ⟨results, hloop, hr⟩ := runDowntimeSimulation_eq M d _ _ rng rest r hp
  subst hr
  simp only at ht
  rw [mem_sortByTotalCost] at ht
  refine trialLoop_forall M d _ _
    (fun t => t.total_cost = d * rev + d * (k : ℚ) * w + e * (1 / 1000) * (d / 8760))
    ?_ _ _ _ _ _ hloop t ht
  intro i g t0 g4 h0
  obtain ⟨r1, r2, r3, r4, g1, g2, g3, h1, h2, h3, h4, ht0⟩ :=
    simulateTrial_eq M d _ _ i g g4 t0 h0
  simp only [mergeParams, zeroVariation, Option.getD_some, mul_zero] at h1 h2 h3 h4
  have e1 := randomNormal_zero M _ _ _ _ h1
  have e2 := randomNormal_zero M _ _ _ _ h2
  have e3 := randomNormal_zero M _ _ _ _ h3
  have e4 := randomNormal_zero M _ _ _ _ h4
  have hw0 : orDefault (some w) 50 = w := by
    simp [orDefault, ne_of_gt hw]
  have he0 : orDefault (some e) 0 = e := by
    simp only [orDefault]
    split_ifs with h
    · exact h.symm
    · rfl
  rw [hw0] at e3
  rw [he0] at e4
  subst e1 e2 e3 e4
  rw [ht0]
  simp only [jsRound_natCast]
  rw [max_eq_right hrev, max_eq_right (Nat.cast_nonneg k), max_eq_right hw.le,
    max_eq_right he]

/-- The formula of C1 at the input of the specification: ten hours, 1000 per
hour, five employees, wage 50, equipment value 100000; the run completes. -/
theorem zero_variation_total_cost_witness :
    ((0 : ℚ) ≤ 1000 ∧ (0 : ℚ) < 50 ∧ (0 : ℚ) ≤ 100000) ∧
    (runDowntimeSimulation sampleMath 10 ⟨1000, ((5 : ℕ) : ℚ), some 50, some 100000⟩
      (zeroVariation (some 2)) sampleRng).isSome = true ∧
    ∀ p ∈ runDowntimeSimulation sampleMath 10 ⟨1000, ((5 : ℕ) : ℚ), some 50, some 100000⟩
        (zeroVariation (some 2)) sampleRng,
      ∀ t ∈ p.1.results,
        t.total_cost = 10 * 1000 + 10 * ((5 : ℕ) : ℚ) * 50 + 100000 * (1 / 1000) * (10 / 8760) :=
  ⟨⟨by norm_num, by norm_num, by norm_num⟩, by with_unfolding_all decide,
    zero_variation_total_cost sampleMath 10 1000 50 100000 5 (some 2) sampleRng
      (by norm_num) (by norm_num) (by norm_num)⟩

/-! ## Order of the returned statistics -/

/-- C2, as stated, fails: one trial of cost 3/512 gives `stats.min = 0.01`
(the least cost rounded to two decimals) and `percentiles.p10 = 3/512`
(not rounded), so `stats.min <= percentiles.p10` is false. -/
theorem rounded_min_exceeds_p10 :
    (runDowntimeSimulation sampleMath 1 ⟨3 / 512, 0, some 50, some 0⟩
        (zeroVariation (some 1)) sampleRng).map
        (fun p => (p.1.results.length, p.1.stats.min, p.1.stats.percentiles.p10))
      = some (1, JsNum.fin (1 / 100), JsNum.fin (3 / 512)) ∧
    JsNum.le (JsNum.fin (1 / 100)) (JsNum.fin (3 / 512)) = false := by
  constructor
  · with_unfolding_all rfl
  · with_unfolding_all decide

/-- C2 (amended): for every non-empty trial set the returned percentiles satisfy
`p10 <= p25 <= p50 <= p75 <= p90 <= p95 <= p99` and lie between the least and
the greatest `total_cost`; the returned `stats.min` and `stats.max` are these
two bounds rounded to two decimals, so that `stats.min <= p10` and
`p99 <= stats.max` hold once `p10` and `p99` are rounded to two decimals as
well. -/
theorem percentile_chain (M : JsMath) (d : ℚ) (bp : BaseParams) (c : CustomParams)
    (rng : Rng) :
    ∀ p ∈ runDowntimeSimulation M d bp c rng, p.1.results ≠ [] →
      JsNum.le p.1.stats.percentiles.p10 p.1.stats.percentiles.p25 = true ∧
      JsNum.le p.1.stats.percentiles.p25 p.1.stats.percentiles.p50 = true ∧
      JsNum.le p.1.stats.percentiles.p50 p.1.stats.percentiles.p75 = true ∧
      JsNum.le p.1.stats.percentiles.p75 p.1.stats.percentiles.p90 = true ∧
      JsNum.le p.1.stats.percentiles.p90 p.1.stats.percentiles.p95 = true ∧
      JsNum.le p.1.stats.percentiles.p95 p.1.stats.percentiles.p99 = true ∧
      JsNum.le (minOf (p.1.results.map Trial.total_cost)) p.1.stats.percentiles.p10 = true ∧
      JsNum.le p.1.stats.percentiles.p99 (maxOf (p.1.results.map Trial.total_cost)) = true ∧
      p.1.stats.min = (minOf (p.1.results.map Trial.total_cost)).toFixed 2 ∧
      p.1.stats.max = (maxOf (p.1.results.map Trial.total_cost)).toFixed 2 ∧
      JsNum.le p.1.stats.min (p.1.stats.percentiles.p10.toFixed 2) = true ∧
      JsNum.le (p.1.stats.percentiles.p99.toFixed 2) p.1.stats.max = true := by
  intro p hp hne
  obtain ⟨r, rest⟩ := p
  obtain ⟨results, -, hr⟩ := runDowntimeSimulation_eq M d bp c rng rest r hp
  subst hr
  simp only at hne ⊢
  generalize hl : sortByTotalCost results = l at hne ⊢
  have hs : List.Sorted (fun a b : Trial => a.total_cost ≤ b.total_cost) l := by
    rw [← hl]
    exact sorted_sortByTotalCost results
  have hn : 1 ≤ l.length :=
    Nat.one_le_iff_ne_zero.mpr (fun h => hne (List.length_eq_zero.mp h))
  obtain ⟨t10, g10, e10⟩ := percentileAt_eq l 10 hne (by norm_num)
  obtain ⟨t25, g25, e25⟩ := percentileAt_eq l 25 hne (by norm_num)
  obtain ⟨t50, g50, e50⟩ := percentileAt_eq l 50 hne (by norm_num)
  obtain ⟨t75, g75, e75⟩ := percentileAt_eq l 75 hne (by norm_num)
  obtain ⟨t90, g90, e90⟩ := percentileAt_eq l 90 hne (by norm_num)
  obtain ⟨t95, g95, e95⟩ := percentileAt_eq l 95 hne (by norm_num)
  obtain ⟨t99, g99, e99⟩ := percentileAt_eq l 99 hne (by norm_num)
  have f10 : percentileAt l (1 / 10) = t10.total_cost := by rw [← e10]; norm_num
  have f25 : percentileAt l (25 / 100) = t25.total_cost := by rw [← e25]; norm_num
  have f50 : percentileAt l (5 / 10) = t50.total_cost := by rw [← e50]; norm_num
  have f75 : percentileAt l (75 / 100) = t75.total_cost := by rw [← e75]; norm_num
  have f90 : percentileAt l (9 / 10) = t90.total_cost := by rw [← e90]; norm_num
  have f95 : percentileAt l (95 / 100) = t95.total_cost := by rw [← e95]; norm_num
  have f99 : percentileAt l (99 / 100) = t99.total_cost := by rw [← e99]; norm_num
  have hmono : ∀ a b : ℕ, a ≤ b → l.length * a / 100 ≤ l.length * b / 100 := fun a b hab =>
    Nat.div_le_div_right (Nat.mul_le_mul_left _ hab)
  have hlne : l.map Trial.total_cost ≠ [] := by
    intro h
    exact hne (List.map_eq_nil_iff.mp h)
  obtain ⟨lo, hlo, hlomem, hloall⟩ := minOf_spec (l.map Trial.total_cost) hlne
  obtain ⟨hi, hhi, hhimem, hhiall⟩ := maxOf_spec (l.map Trial.total_cost) hlne
  have m10 : t10.total_cost ∈ l.map Trial.total_cost :=
    List.mem_map_of_mem _ (List.getElem?_mem g10)
  have m99 : t99.total_cost ∈ l.map Trial.total_cost :=
    List.mem_map_of_mem _ (List.getElem?_mem g99)
  have hlo10 : lo ≤ t10.total_cost := hloall _ m10
  have hhi99 : t99.total_cost ≤ hi := hhiall _ m99
  simp only [computeStats, f10, f25, f50, f75, f90, f95, f99, hlo, hhi, JsNum.toFixed, jsLe_fin]
  refine ⟨sorted_getElem?_le l hs _ _ _ _ (hmono 10 25 (by norm_num)) g10 g25,
    sorted_getElem?_le l hs _ _ _ _ (hmono 25 50 (by norm_num)) g25 g50,
    sorted_getElem?_le l hs _ _ _ _ (hmono 50 75 (by norm_num)) g50 g75,
    sorted_getElem?_le l hs _ _ _ _ (hmono 75 90 (by norm_num)) g75 g90,
    sorted_getElem?_le l hs _ _ _ _ (hmono 90 95 (by norm_num)) g90 g95,
    sorted_getElem?_le l hs _ _ _ _ (hmono 95 99 (by norm_num)) g95 g99,
    hlo10, hhi99, trivial, trivial, roundTo_mono 2 hlo10, roundTo_mono 2 hhi99⟩

/-- C2 (amended), on a run of two iterations under the default variations. -/
theorem percentile_chain_witness :
    ∃ h : sampleRun.isSome = true,
      (sampleRun.get h).1.results ≠ [] ∧
      JsNum.le (sampleRun.get h).1.stats.percentiles.p25
        (sampleRun.get h).1.stats.percentiles.p50 = true ∧
      JsNum.le (sampleRun.get h).1.stats.min
        ((sampleRun.get h).1.stats.percentiles.p10.toFixed 2) = true :=
  ⟨by with_unfolding_all decide, by with_unfolding_all decide,
    (percentile_chain sampleMath 10 ⟨1000, 5, some 50, some 100000⟩ (onlyIterations 2)
      sampleRng (sampleRun.get (by with_unfolding_all decide)) (Option.get_mem _)
      (by with_unfolding_all decide)).2.1,
    (percentile_chain sampleMath 10 ⟨1000, 5, some 50, some 100000⟩ (onlyIterations 2)
      sampleRng (sampleRun.get (by with_unfolding_all decide)) (Option.get_mem _)
      (by with_unfolding_all decide)).2.2.2.2.2.2.2.2.2.2.1⟩

/-- C3: for a run with `n >= 1` trials and `K` one of 10, 25, 50, 75, 90, 95,
99, the index `Math.floor(n * K/100)` is `n * K / 100` rounded down, it is
less than `n`, the returned (ascending) trial list has a trial at that index,
and `percentiles.pK` is exactly that trial's `total_cost`. -/
theorem percentile_is_trial_at_index (M : JsMath) (d : ℚ) (bp : BaseParams)
    (c : CustomParams) (rng : Rng) (K : ℕ) (hK : K ∈ [10, 25, 50, 75, 90, 95, 99]) :
    ∀ p ∈ runDowntimeSimulation M d bp c rng, 1 ≤ p.1.results.length →
      List.Sorted (fun a b : Trial => a.total_cost ≤ b.total_cost) p.1.results ∧
      percentileIndex p.1.results.length ((K : ℚ) / 100)
        = ((p.1.results.length * K / 100 : ℕ) : ℤ) ∧
      p.1.results.length * K / 100 < p.1.results.length ∧
      ∃ t, p.1.results[p.1.results.length * K / 100]? = some t ∧
        p.1.stats.percentiles.lookup (K : ℤ) = some (JsNum.fin t.total_cost) := by
  intro p hp hn
  obtain ⟨r, rest⟩ := p
  obtain ⟨results, -, hr⟩ := runDowntimeSimulation_eq M d bp c rng rest r hp
  subst hr
  simp only at hn ⊢
  have hK100 : K < 100 := by
    simp only [List.mem_cons, List.mem_singleton, List.not_mem_nil, or_false] at hK
    omega
  have hne : sortByTotalCost results ≠ [] := by
    intro h
    rw [h] at hn
    simp at hn
  obtain ⟨t, ht, het⟩ := percentileAt_eq (sortByTotalCost results) K hne hK100
  refine ⟨sorted_sortByTotalCost results, percentileIndex_eq _ K,
    percentile_index_lt _ K hn hK100, t, ht, ?_⟩
  rw [lookup_computeStats M _ K hK, het]

/-- C3, on a run of two iterations under the default variations, for `K = 95`
(index 1 of 2). -/
theorem percentile_is_trial_at_index_witness :
    ∃ h : sampleRun.isSome = true,
      (95 ∈ [10, 25, 50, 75, 90, 95, 99] ∧ 1 ≤ (sampleRun.get h).1.results.length) ∧
      (sampleRun.get h).1.results.length * 95 / 100 < (sampleRun.get h).1.results.length ∧
      ∃ t, (sampleRun.get h).1.results[(sampleRun.get h).1.results.length * 95 / 100]? = some t ∧
        (sampleRun.get h).1.stats.percentiles.lookup ((95 : ℕ) : ℤ)
          = some (JsNum.fin t.total_cost) :=
  ⟨by with_unfolding_all decide, ⟨by decide, by with_unfolding_all decide⟩,
    (percentile_is_trial_at_index sampleMath 10 ⟨1000, 5, some 50, some 100000⟩
      (onlyIterations 2) sampleRng 95 (by decide)
      (sampleRun.get (by with_unfolding_all decide)) (Option.get_mem _)
      (by with_unfolding_all decide)).2.2⟩

/-! ## Inputs the specification rejects -/

/-- The statistics computed from an empty trial list. -/
theorem computeStats_nil (M : JsMath) :
    computeStats M [] =
      { mean := JsNum.nan
        median := JsNum.fin 0
        min := JsNum.posInf
        max := JsNum.negInf
        stdDev := JsNum.nan
        percentiles :=
          { p10 := JsNum.fin 0
            p25 := JsNum.fin 0
            p50 := JsNum.fin 0
            p75 := JsNum.fin 0
            p90 := JsNum.fin 0
            p95 := JsNum.fin 0
            p99 := JsNum.fin 0 } } := by
  have hp : ∀ f : ℚ, percentileAt [] f = 0 := by
    intro f
    simp [percentileAt, elementAt, orDefault]
  have h0 : roundTo 2 0 = 0 := by
    have := roundTo_natCast 2 0
    simpa using this
  simp [computeStats, hp, JsNum.div, JsNum.toFixed, JsMath.sqrtNum, minOf, maxOf, h0]

/-- C4, as stated, fails: a run with `iterations = 0` does not fail, it returns
an empty trial list and statistics whose mean is `NaN`. -/
theorem zero_iterations_returns_nan_mean :
    (runDowntimeSimulation sampleMath 10 ⟨1000, 5, some 50, some 100000⟩
        (onlyIterations 0) sampleRng).map (fun p => (p.1.results, p.1.stats.mean))
      = some ([], JsNum.nan) := by
  with_unfolding_all rfl

/-- C4 (amended): a run with `iterations <= 0` does not fail.  It draws nothing
and returns an empty trial list together with the statistics `mean = NaN`,
`stdDev = NaN`, `min = Infinity`, `max = -Infinity`, `median = 0` and every
percentile 0. -/
theorem nonpositive_iterations_result (M : JsMath) (d : ℚ) (bp : BaseParams)
    (c : CustomParams) (rng : Rng) (h : (mergeParams defaultParams c).iterations ≤ 0) :
    runDowntimeSimulation M d bp c rng =
      some ({ results := []
              stats :=
                { mean := JsNum.nan
                  median := JsNum.fin 0
                  min := JsNum.posInf
                  max := JsNum.negInf
                  stdDev := JsNum.nan
                  percentiles :=
                    { p10 := JsNum.fin 0
                      p25 := JsNum.fin 0
                      p50 := JsNum.fin 0
                      p75 := JsNum.fin 0
                      p90 := JsNum.fin 0
                      p95 := JsNum.fin 0
                      p99 := JsNum.fin 0 } }
              iterations := (mergeParams defaultParams c).iterations
              parameters := mergeParams defaultParams c }, rng) := by
  have h0 : (mergeParams defaultParams c).iterations.toNat = 0 := Int.toNat_of_nonpos h
  have hs : sortByTotalCost [] = [] := rfl
  simp only [runDowntimeSimulation, h0, trialLoop, hs, computeStats_nil]

/-- C4 (amended), at `iterations = -3`. -/
theorem nonpositive_iterations_result_witness :
    (mergeParams defaultParams (onlyIterations (-3))).iterations ≤ 0 ∧
    (runDowntimeSimulation sampleMath 10 ⟨1000, 5, some 50, some 100000⟩
        (onlyIterations (-3)) sampleRng).map (fun p => p.1.stats.mean) = some JsNum.nan :=
  ⟨by decide, by
    rw [nonpositive_iterations_result sampleMath 10 ⟨1000, 5, some 50, some 100000⟩
      (onlyIterations (-3)) sampleRng (by decide)]
    rfl⟩

/-- C5, as stated, fails: a run with `downtimeHours = -1` does not fail, it
returns a trial (of negative cost) and its statistics. -/
theorem negative_downtime_returns_trials :
    (runDowntimeSimulation sampleMath (-1) ⟨1000, 5, some 50, some 100000⟩
        (zeroVariation (some 1)) sampleRng).map
        (fun p => (p.1.results.map Trial.total_cost, p.1.stats.mean))
      = some ([-1 * 1000 + -1 * 5 * 50 + 100000 * (1 / 1000) * (-1 / 8760)],
          JsNum.fin (-125001 / 100)) := by
  with_unfolding_all rfl

/-- C5 (amended): a run with a negative `downtimeHours` does not fail.  Given
eight non-zero draws per iteration it completes, returns one trial per
iteration and their statistics, and every trial has `revenue_loss`,
`labor_cost`, `depreciation` and `total_cost` at most 0. -/
theorem negative_downtime_runs (M : JsMath) (d : ℚ) (bp : BaseParams) (c : CustomParams)
    (rng : Rng) (hd : d < 0)
    (hrng : 8 * (mergeParams defaultParams c).iterations.toNat ≤ nonZeroCount rng) :
    ∃ r rest, runDowntimeSimulation M d bp c rng = some (r, rest) ∧
      r.results.length = (mergeParams defaultParams c).iterations.toNat ∧
      r.stats = computeStats M r.results ∧
      ∀ t ∈ r.results,
        t.revenue_loss ≤ 0 ∧ t.labor_cost ≤ 0 ∧ t.depreciation ≤ 0 ∧ t.total_cost ≤ 0 := by
  obtain ⟨r, rest, hrun⟩ := runDowntimeSimulation_of_count M d bp c rng hrng
  obtain ⟨results, hloop, hr⟩ := runDowntimeSimulation_eq M d bp c rng rest r hrun
  refine ⟨r, rest, hrun, ?_, ?_, ?_⟩
  · rw [hr]
    simp only [length_sortByTotalCost]
    exact trialLoop_length M d bp _ _ _ _ _ _ hloop
  · rw [hr]
  · intro t ht
    rw [hr] at ht
    simp only [mem_sortByTotalCost] at ht
    refine trialLoop_forall M d bp _
      (fun t => t.revenue_loss ≤ 0 ∧ t.labor_cost ≤ 0 ∧ t.depreciation ≤ 0 ∧ t.total_cost ≤ 0)
      ?_ _ _ _ _ _ hloop t ht
    intro i g t0 g4 h0
    obtain ⟨r1, r2, r3, r4, g1, g2, g3, -, -, -, -, ht0⟩ :=
      simulateTrial_eq M d bp _ i g g4 t0 h0
    have a1 : (0 : ℚ) ≤ max 0 r1 := le_max_left 0 r1
    have a2 : (0 : ℚ) ≤ max 0 (jsRound r2) := le_max_left 0 _
    have a3 : (0 : ℚ) ≤ max 0 r3 := le_max_left 0 r3
    have a4 : (0 : ℚ) ≤ max 0 r4 := le_max_left 0 r4
    have b1 : d * max 0 r1 ≤ 0 := mul_nonpos_of_nonpos_of_nonneg hd.le a1
    have b2 : d * max 0 (jsRound r2) * max 0 r3 ≤ 0 :=
      mul_nonpos_of_nonpos_of_nonneg (mul_nonpos_of_nonpos_of_nonneg hd.le a2) a3
    have b3 : max 0 r4 * (1 / 1000) * (d / 8760) ≤ 0 := by
      have hd8 : d / 8760 ≤ 0 := by linarith
      have hm : 0 ≤ max 0 r4 * (1 / 1000) := by positivity
      exact mul_nonpos_of_nonneg_of_nonpos hm hd8
    rw [ht0]
    exact ⟨b1, b2, b3, by linarith⟩

/-- C5 (amended), at `downtimeHours = -1` and two iterations. -/
theorem negative_downtime_runs_witness :
    ((-1 : ℚ) < 0 ∧
      8 * (mergeParams defaultParams (onlyIterations 2)).iterations.toNat
        ≤ nonZeroCount sampleRng) ∧
    ∃ r rest, runDowntimeSimulation sampleMath (-1) ⟨1000, 5, some 50, some 100000⟩
        (onlyIterations 2) sampleRng = some (r, rest) ∧
      r.results.length = (mergeParams defaultParams (onlyIterations 2)).iterations.toNat ∧
      r.stats = computeStats sampleMath r.results ∧
      ∀ t ∈ r.results,
        t.revenue_loss ≤ 0 ∧ t.labor_cost ≤ 0 ∧ t.depreciation ≤ 0 ∧ t.total_cost ≤ 0 :=
  ⟨⟨by norm_num, by with_unfolding_all decide⟩,
    negative_downtime_runs sampleMath (-1) ⟨1000, 5, some 50, some 100000⟩
      (onlyIterations 2) sampleRng (by norm_num) (by with_unfolding_all decide)⟩

/-! ## Risk assessment -/

/-- The unrounded score of statistics with finite deviation and non-zero
finite mean. -/
theorem rawRiskScore_fin (stats : Stats) (m sd : ℚ) (hm : stats.mean = JsNum.fin m)
    (hs : stats.stdDev = JsNum.fin sd) (hm0 : m ≠ 0) :
    rawRiskScore stats = JsNum.fin (min 100 (max 0 (sd / m * 100))) := by
  simp only [rawRiskScore, hm, hs, JsNum.div, if_neg hm0, JsNum.mul, jsMax_fin, jsMin_fin]

theorem generateRiskAssessment_level (stats : Stats) :
    (generateRiskAssessment stats).riskLevel = riskLevelOf (rawRiskScore stats) := rfl

theorem generateRiskAssessment_score (stats : Stats) :
    (generateRiskAssessment stats).riskScore = (rawRiskScore stats).toFixed 2 := rfl

theorem generateRiskAssessment_ratio (stats : Stats) :
    (generateRiskAssessment stats).uncertaintyRatio
      = (JsNum.div stats.stdDev stats.mean).toFixed 3 := rfl

theorem riskLevelOf_fin (x : ℚ) :
    riskLevelOf (JsNum.fin x) =
      if x < 20 then RiskLevel.LOW
      else if x < 50 then RiskLevel.MEDIUM
      else if x < 80 then RiskLevel.HIGH
      else RiskLevel.CRITICAL := by
  simp only [riskLevelOf, JsNum.lt, decide_eq_true_eq]

theorem riskLevelOf_fin_mono {a b : ℚ} (h : a ≤ b) :
    (riskLevelOf (JsNum.fin a)).rank ≤ (riskLevelOf (JsNum.fin b)).rank := by
  rw [riskLevelOf_fin, riskLevelOf_fin]
  split_ifs <;> simp only [RiskLevel.rank] <;> first | omega | linarith

theorem roundTo_two_twenty : roundTo 2 20 = 20 := by
  simpa using roundTo_natCast 2 20

theorem roundTo_two_fifty : roundTo 2 50 = 50 := by
  simpa using roundTo_natCast 2 50

theorem roundTo_two_eighty : roundTo 2 80 = 80 := by
  simpa using roundTo_natCast 2 80

theorem roundTo_two_hundred : roundTo 2 100 = 100 := by
  simpa using roundTo_natCast 2 100

theorem roundTo_two_zero : roundTo 2 0 = 0 := by
  simpa using roundTo_natCast 2 0

/-- C6, as stated, fails: a run with `downtimeHours = 0` has `stats.mean = 0`
(and `stats.stdDev = 0`), and its risk assessment has `uncertaintyRatio = NaN`,
`riskScore = NaN` and `riskLevel = CRITICAL`. -/
theorem zero_mean_gives_nan_ratio :
    (runDowntimeSimulation sampleMath 0 ⟨1000, 5, some 50, some 100000⟩
        (onlyIterations 1) sampleRng).map
        (fun p => (p.1.stats.mean, (generateRiskAssessment p.1.stats).uncertaintyRatio,
          (generateRiskAssessment p.1.stats).riskScore,
          (generateRiskAssessment p.1.stats).riskLevel))
      = some (JsNum.fin 0, JsNum.nan, JsNum.nan, RiskLevel.CRITICAL) := by
  with_unfolding_all rfl

/-- C6 (amended): `generateRiskAssessment` does not guard a zero mean.  For
every statistics object whose mean is zero, the returned `uncertaintyRatio` is
not a finite number (`NaN` or an infinity), so it is never 0, and the returned
`riskScore` and `riskLevel` are `NaN` and CRITICAL, or 100 and CRITICAL, or 0
and LOW.  When the standard deviation is zero as well, `uncertaintyRatio` and
`riskScore` are `NaN` and `riskLevel` is CRITICAL.  All of this holds for a
mean `0` and for a mean `-0`; for a non-zero standard deviation the two differ
in which infinity, and with it which of 100 and 0, is returned. -/
theorem zero_mean_risk (stats : Stats) (hm : stats.mean = JsNum.fin 0) :
    (generateRiskAssessment stats).uncertaintyRatio.isFinite = false ∧
    (generateRiskAssessment stats).uncertaintyRatio ≠ JsNum.fin 0 ∧
    (((generateRiskAssessment stats).riskScore = JsNum.nan ∧
        (generateRiskAssessment stats).riskLevel = RiskLevel.CRITICAL) ∨
      ((generateRiskAssessment stats).riskScore = JsNum.fin 100 ∧
        (generateRiskAssessment stats).riskLevel = RiskLevel.CRITICAL) ∨
      ((generateRiskAssessment stats).riskScore = JsNum.fin 0 ∧
        (generateRiskAssessment stats).riskLevel = RiskLevel.LOW)) ∧
    (stats.stdDev = JsNum.fin 0 →
      (generateRiskAssessment stats).uncertaintyRatio = JsNum.nan ∧
      (generateRiskAssessment stats).riskScore = JsNum.nan ∧
      (generateRiskAssessment stats).riskLevel = RiskLevel.CRITICAL) := by
  rw [generateRiskAssessment_level, generateRiskAssessment_score, generateRiskAssessment_ratio]
  have h100 : ¬ ((100 : ℚ) < 80) := by norm_num
  have h100b : ¬ ((100 : ℚ) < 50) := by norm_num
  have h100c : ¬ ((100 : ℚ) < 20) := by norm_num
  have h0 : ((0 : ℚ) < 20) := by norm_num
  cases hsd : stats.stdDev with
  | fin sd =>
    rcases lt_trichotomy sd 0 with hneg | hz | hpos
    · have hne : sd ≠ 0 := ne_of_lt hneg
      have hnp : ¬ (0 < sd) := not_lt.mpr hneg.le
      simp [rawRiskScore, hm, hsd, JsNum.div, JsNum.mul, JsNum.max, JsNum.min, JsNum.toFixed,
        riskLevelOf, JsNum.lt, JsNum.isFinite, hne, hnp, roundTo_two_zero, h0]
    · subst hz
      simp [rawRiskScore, hm, hsd, JsNum.div, JsNum.mul, JsNum.max, JsNum.min, JsNum.toFixed,
        riskLevelOf, JsNum.lt, JsNum.isFinite]
    · have hne : sd ≠ 0 := ne_of_gt hpos
      simp [rawRiskScore, hm, hsd, JsNum.div, JsNum.mul, JsNum.max, JsNum.min, JsNum.toFixed,
        riskLevelOf, JsNum.lt, JsNum.isFinite, hne, hpos, roundTo_two_hundred, h100, h100b,
        h100c]
  | posInf =>
    simp [rawRiskScore, hm, hsd, JsNum.div, JsNum.mul, JsNum.max, JsNum.min, JsNum.toFixed,
      riskLevelOf, JsNum.lt, JsNum.isFinite, roundTo_two_hundred, h100, h100b, h100c]
  | negInf =>
    simp [rawRiskScore, hm, hsd, JsNum.div, JsNum.mul, JsNum.max, JsNum.min, JsNum.toFixed,
      riskLevelOf, JsNum.lt, JsNum.isFinite, roundTo_two_zero, h0]
  | nan =>
    simp [rawRiskScore, hm, hsd, JsNum.div, JsNum.mul, JsNum.max, JsNum.min, JsNum.toFixed,
      riskLevelOf, JsNum.lt, JsNum.isFinite]

/-- C6 (amended), at mean 0 and standard deviation 0. -/
theorem zero_mean_risk_witness :
    (statsOf (JsNum.fin 0) (JsNum.fin 0)).mean = JsNum.fin 0 ∧
    (statsOf (JsNum.fin 0) (JsNum.fin 0)).stdDev = JsNum.fin 0 ∧
    (generateRiskAssessment (statsOf (JsNum.fin 0) (JsNum.fin 0))).uncertaintyRatio
      = JsNum.nan ∧
    (generateRiskAssessment (statsOf (JsNum.fin 0) (JsNum.fin 0))).riskScore = JsNum.nan ∧
    (generateRiskAssessment (statsOf (JsNum.fin 0) (JsNum.fin 0))).riskLevel
      = RiskLevel.CRITICAL :=
  ⟨rfl, rfl, (zero_mean_risk (statsOf (JsNum.fin 0) (JsNum.fin 0)) rfl).2.2.2 rfl⟩

/-- The level as a function of a finite unrounded score. -/
theorem riskLevelOf_fin_iff (x : ℚ) :
    (riskLevelOf (JsNum.fin x) = RiskLevel.LOW ↔ x < 20) ∧
    (riskLevelOf (JsNum.fin x) = RiskLevel.MEDIUM ↔ 20 ≤ x ∧ x < 50) ∧
    (riskLevelOf (JsNum.fin x) = RiskLevel.HIGH ↔ 50 ≤ x ∧ x < 80) ∧
    (riskLevelOf (JsNum.fin x) = RiskLevel.CRITICAL ↔ 80 ≤ x) := by
  rw [riskLevelOf_fin]
  by_cases h1 : x < 20
  · simp only [if_pos h1, true_iff, reduceCtorEq, false_iff, not_and, not_lt, not_le]
    exact ⟨h1, fun h => absurd h1 (not_lt.mpr h), fun h => by linarith, by linarith⟩
  · by_cases h2 : x < 50
    · simp only [if_neg h1, if_pos h2, true_iff, reduceCtorEq, false_iff, not_and, not_lt,
        not_le]
      exact ⟨not_lt.mp h1, ⟨not_lt.mp h1, h2⟩, fun h => by linarith, by linarith⟩
    · by_cases h3 : x < 80
      · simp only [if_neg h1, if_neg h2, if_pos h3, true_iff, reduceCtorEq, false_iff,
          not_and, not_lt, not_le]
        exact ⟨not_lt.mp h1, fun _ => not_lt.mp h2, ⟨not_lt.mp h2, h3⟩, h3⟩
      · simp only [if_neg h1, if_neg h2, if_neg h3, true_iff, reduceCtorEq, false_iff,
          not_and, not_lt, not_le]
        exact ⟨not_lt.mp h1, fun _ => not_lt.mp h2, fun _ => not_lt.mp h3, not_lt.mp h3⟩

/-- C7, as stated, fails: for standard deviation 6553 and mean 32768 the score
is 19.998..., so the level is LOW, while the returned `riskScore` is that score
rounded to two decimals, 20, which is not below 20. -/
theorem low_level_with_score_twenty :
    (generateRiskAssessment (statsOf (JsNum.fin 32768) (JsNum.fin 6553))).riskLevel
      = RiskLevel.LOW ∧
    (generateRiskAssessment (statsOf (JsNum.fin 32768) (JsNum.fin 6553))).riskScore
      = JsNum.fin 20 ∧
    JsNum.lt (JsNum.fin 20) (JsNum.fin 20) = false := by
  refine ⟨?_, ?_, ?_⟩
  · with_unfolding_all rfl
  · with_unfolding_all rfl
  · with_unfolding_all decide

/-- C7 (amended): for statistics with finite standard deviation and finite
non-zero mean, the returned `riskLevel` follows the thresholds on the score
before rounding, `raw = min(100, max(0, stdDev/mean*100))`: LOW exactly when
`raw < 20`, MEDIUM exactly when `20 <= raw < 50`, HIGH exactly when
`50 <= raw < 80`, CRITICAL exactly when `raw >= 80`.  The returned `riskScore`
is `raw` rounded to two decimals, so a returned score below 20 gives LOW, and
LOW gives a returned score `<= 20`, MEDIUM one in `[20, 50]`, HIGH one in
`[50, 80]` and CRITICAL one `>= 80`. -/
theorem risk_level_from_unrounded_score (stats : Stats) (m sd : ℚ)
    (hm : stats.mean = JsNum.fin m) (hs : stats.stdDev = JsNum.fin sd) (hm0 : m ≠ 0) :
    ∃ raw r : ℚ, raw = min 100 (max 0 (sd / m * 100)) ∧ r = roundTo 2 raw ∧
      (generateRiskAssessment stats).riskScore = JsNum.fin r ∧
      ((generateRiskAssessment stats).riskLevel = RiskLevel.LOW ↔ raw < 20) ∧
      ((generateRiskAssessment stats).riskLevel = RiskLevel.MEDIUM ↔ 20 ≤ raw ∧ raw < 50) ∧
      ((generateRiskAssessment stats).riskLevel = RiskLevel.HIGH ↔ 50 ≤ raw ∧ raw < 80) ∧
      ((generateRiskAssessment stats).riskLevel = RiskLevel.CRITICAL ↔ 80 ≤ raw) ∧
      (r < 20 → (generateRiskAssessment stats).riskLevel = RiskLevel.LOW) ∧
      ((generateRiskAssessment stats).riskLevel = RiskLevel.LOW → r ≤ 20) ∧
      ((generateRiskAssessment stats).riskLevel = RiskLevel.MEDIUM → 20 ≤ r ∧ r ≤ 50) ∧
      ((generateRiskAssessment stats).riskLevel = RiskLevel.HIGH → 50 ≤ r ∧ r ≤ 80) ∧
      ((generateRiskAssessment stats).riskLevel = RiskLevel.CRITICAL → 80 ≤ r) := by
  refine ⟨min 100 (max 0 (sd / m * 100)), roundTo 2 (min 100 (max 0 (sd / m * 100))),
    rfl, rfl, ?_⟩
  rw [generateRiskAssessment_level, generateRiskAssessment_score,
    rawRiskScore_fin stats m sd hm hs hm0]
  generalize min 100 (max 0 (sd / m * 100)) = raw
  obtain ⟨hL, hM, hH, hC⟩ := riskLevelOf_fin_iff raw
  have up20 : raw ≤ 20 → roundTo 2 raw ≤ 20 := fun h => by
    have := roundTo_mono 2 h
    rwa [roundTo_two_twenty] at this
  have lo20 : 20 ≤ raw → 20 ≤ roundTo 2 raw := fun h => by
    have := roundTo_mono 2 h
    rwa [roundTo_two_twenty] at this
  have up50 : raw ≤ 50 → roundTo 2 raw ≤ 50 := fun h => by
    have := roundTo_mono 2 h
    rwa [roundTo_two_fifty] at this
  have lo50 : 50 ≤ raw → 50 ≤ roundTo 2 raw := fun h => by
    have := roundTo_mono 2 h
    rwa [roundTo_two_fifty] at this
  have up80 : raw ≤ 80 → roundTo 2 raw ≤ 80 := fun h => by
    have := roundTo_mono 2 h
    rwa [roundTo_two_eighty] at this
  have lo80 : 80 ≤ raw → 80 ≤ roundTo 2 raw := fun h => by
    have := roundTo_mono 2 h
    rwa [roundTo_two_eighty] at this
  refine ⟨rfl, hL, hM, hH, hC, ?_, ?_, ?_, ?_, ?_⟩
  · intro hr
    apply hL.mpr
    by_contra hge
    have := lo20 (not_lt.mp hge)
    linarith
  · intro h
    exact up20 (hL.mp h).le
  · intro h
    exact ⟨lo20 (hM.mp h).1, up50 (hM.mp h).2.le⟩
  · intro h
    exact ⟨lo50 (hH.mp h).1, up80 (hH.mp h).2.le⟩
  · intro h
    exact lo80 (hC.mp h)

/-- C7 (amended), at standard deviation 6553 and mean 32768. -/
theorem risk_level_from_unrounded_score_witness :
    ((statsOf (JsNum.fin 32768) (JsNum.fin 6553)).mean = JsNum.fin 32768 ∧
      (statsOf (JsNum.fin 32768) (JsNum.fin 6553)).stdDev = JsNum.fin 6553 ∧
      (32768 : ℚ) ≠ 0) ∧
    ∃ raw r : ℚ, raw = min 100 (max 0 (6553 / 32768 * 100)) ∧ r = roundTo 2 raw ∧
      (generateRiskAssessment (statsOf (JsNum.fin 32768) (JsNum.fin 6553))).riskScore
        = JsNum.fin r ∧
      ((generateRiskAssessment (statsOf (JsNum.fin 32768) (JsNum.fin 6553))).riskLevel
        = RiskLevel.LOW ↔ raw < 20) := by
  refine ⟨⟨rfl, rfl, by norm_num⟩, ?_⟩
  obtain ⟨raw, r, h1, h2, h3, h4, -⟩ :=
    risk_level_from_unrounded_score (statsOf (JsNum.fin 32768) (JsNum.fin 6553)) 32768 6553
      rfl rfl (by norm_num)
  exact ⟨raw, r, h1, h2, h3, h4⟩

/-- C8, as stated, fails: the statistics of a run with `iterations = 0` have
the mean `NaN`, which is not 0, and the `riskScore` of their assessment is
`NaN`, which is neither `>= 0` nor `<= 100`. -/
theorem nan_mean_gives_nan_score :
    (runDowntimeSimulation sampleMath 10 ⟨1000, 5, some 50, some 100000⟩
        (onlyIterations 0) sampleRng).map
        (fun p => (p.1.stats.mean, (generateRiskAssessment p.1.stats).riskScore))
      = some (JsNum.nan, JsNum.nan) ∧
    JsNum.nan ≠ JsNum.fin 0 ∧
    JsNum.le (JsNum.fin 0) JsNum.nan = false ∧
    JsNum.le JsNum.nan (JsNum.fin 100) = false := by
  refine ⟨?_, ?_, ?_, ?_⟩
  · with_unfolding_all rfl
  · exact JsNum.noConfusion
  · rfl
  · rfl

/-- C8 (amended): for statistics whose mean is a finite non-zero number and
whose standard deviation is a finite number, the returned `riskScore` is
`min(100, max(0, 100 * stdDev / mean))` rounded to two decimals, and it lies
in `[0, 100]`. -/
theorem risk_score_clamped (stats : Stats) (m sd : ℚ) (hm : stats.mean = JsNum.fin m)
    (hs : stats.stdDev = JsNum.fin sd) (hm0 : m ≠ 0) :
    (generateRiskAssessment stats).riskScore
      = JsNum.fin (roundTo 2 (min 100 (max 0 (100 * sd / m)))) ∧
    JsNum.le (JsNum.fin 0) (generateRiskAssessment stats).riskScore = true ∧
    JsNum.le (generateRiskAssessment stats).riskScore (JsNum.fin 100) = true := by
  have he : sd / m * 100 = 100 * sd / m := by ring
  rw [generateRiskAssessment_score, rawRiskScore_fin stats m sd hm hs hm0, he]
  simp only [JsNum.toFixed, jsLe_fin, true_and]
  constructor
  · have h0 : (0 : ℚ) ≤ min 100 (max 0 (100 * sd / m)) :=
      le_min (by norm_num) (le_max_left 0 _)
    have := roundTo_mono 2 h0
    rwa [roundTo_two_zero] at this
  · have h1 : min 100 (max 0 (100 * sd / m)) ≤ (100 : ℚ) := min_le_left 100 _
    have := roundTo_mono 2 h1
    rwa [roundTo_two_hundred] at this

/-- C8 (amended), at standard deviation 6553 and mean 32768. -/
theorem risk_score_clamped_witness :
    ((statsOf (JsNum.fin 32768) (JsNum.fin 6553)).mean = JsNum.fin 32768 ∧
      (statsOf (JsNum.fin 32768) (JsNum.fin 6553)).stdDev = JsNum.fin 6553 ∧
      (32768 : ℚ) ≠ 0) ∧
    (generateRiskAssessment (statsOf (JsNum.fin 32768) (JsNum.fin 6553))).riskScore
      = JsNum.fin (roundTo 2 (min 100 (max 0 (100 * 6553 / 32768)))) ∧
    JsNum.le (JsNum.fin 0)
      (generateRiskAssessment (statsOf (JsNum.fin 32768) (JsNum.fin 6553))).riskScore = true ∧
    JsNum.le (generateRiskAssessment (statsOf (JsNum.fin 32768) (JsNum.fin 6553))).riskScore
      (JsNum.fin 100) = true :=
  ⟨⟨rfl, rfl, by norm_num⟩,
    risk_score_clamped (statsOf (JsNum.fin 32768) (JsNum.fin 6553)) 32768 6553 rfl rfl
      (by norm_num)⟩

/-- C9: for two statistics objects with finite standard deviations and
positive finite means, `stdDev1/mean1 <= stdDev2/mean2` implies that the
`riskLevel` of the first is not higher than that of the second in the order
LOW, MEDIUM, HIGH, CRITICAL. -/
theorem risk_level_monotone (st1 st2 : Stats) (m1 sd1 m2 sd2 : ℚ)
    (hm1 : st1.mean = JsNum.fin m1) (hs1 : st1.stdDev = JsNum.fin sd1)
    (hm2 : st2.mean = JsNum.fin m2) (hs2 : st2.stdDev = JsNum.fin sd2)
    (hp1 : 0 < m1) (hp2 : 0 < m2) (hle : sd1 / m1 ≤ sd2 / m2) :
    (generateRiskAssessment st1).riskLevel.rank ≤ (generateRiskAssessment st2).riskLevel.rank := by
  rw [generateRiskAssessment_level, generateRiskAssessment_level,
    rawRiskScore_fin st1 m1 sd1 hm1 hs1 (ne_of_gt hp1),
    rawRiskScore_fin st2 m2 sd2 hm2 hs2 (ne_of_gt hp2)]
  apply riskLevelOf_fin_mono
  apply min_le_min_left
  apply max_le_max_left
  linarith

/-- C9, at ratios 1/10 (LOW) and 6/10 (HIGH). -/
theorem risk_level_monotone_witness :
    ((0 : ℚ) < 100 ∧ (0 : ℚ) < 50 ∧ (10 : ℚ) / 100 ≤ 30 / 50) ∧
    (generateRiskAssessment (statsOf (JsNum.fin 100) (JsNum.fin 10))).riskLevel.rank
      ≤ (generateRiskAssessment (statsOf (JsNum.fin 50) (JsNum.fin 30))).riskLevel.rank :=
  ⟨⟨by norm_num, by norm_num, by norm_num⟩,
    risk_level_monotone (statsOf (JsNum.fin 100) (JsNum.fin 10))
      (statsOf (JsNum.fin 50) (JsNum.fin 30)) 100 10 50 30 rfl rfl rfl rfl
      (by norm_num) (by norm_num) (by norm_num)⟩

/-! ## Confidence intervals -/

/-- C10, as stated, fails: on the statistics of two trials of cost 1/256 and
3/512 (so `p10 = 1/256`, `p90 = 3/512`) the returned `lower` is 0, the returned
`upper` is 0.01 and the returned `interval` is 0, which is neither
`upper - lower = 0.01` nor `p90 - p10 = 1/512`. -/
theorem interval_is_not_upper_minus_lower :
    (computeStats sampleMath smallTrials).percentiles.p10 = JsNum.fin (1 / 256) ∧
    (computeStats sampleMath smallTrials).percentiles.p90 = JsNum.fin (3 / 512) ∧
    calculateConfidenceIntervals (computeStats sampleMath smallTrials) defaultConfidenceLevel
      = { lower := JsNum.fin 0
          upper := JsNum.fin (1 / 100)
          confidenceLevel := 95 / 100
          interval := JsNum.fin 0 } ∧
    JsNum.sub (JsNum.fin (1 / 100)) (JsNum.fin 0) ≠ JsNum.fin 0 ∧
    JsNum.sub (JsNum.fin (3 / 512)) (JsNum.fin (1 / 256)) ≠ JsNum.fin 0 := by
  refine ⟨?_, ?_, ?_, ?_, ?_⟩
  · with_unfolding_all rfl
  · with_unfolding_all rfl
  · with_unfolding_all rfl
  · with_unfolding_all decide
  · with_unfolding_all decide

/-- C10 (amended): at the default confidence level 0.95 the keys looked up are
`p2` and `p97` (from `alpha/2 = 2.5%` and `1 - alpha/2 = 97.5%`, rounded down),
neither is in the table, and the result is `lower = p10` and `upper = p90`, each
rounded to two decimals, `confidenceLevel = 0.95` and `interval = p90 - p10`
rounded to two decimals (the difference of the unrounded percentiles). -/
theorem default_confidence_interval (stats : Stats) :
    Int.floor ((1 - defaultConfidenceLevel) / 2 * 100) = 2 ∧
    Int.floor ((1 - (1 - defaultConfidenceLevel) / 2) * 100) = 97 ∧
    stats.percentiles.lookup 2 = none ∧
    stats.percentiles.lookup 97 = none ∧
    calculateConfidenceIntervals stats defaultConfidenceLevel
      = { lower := stats.percentiles.p10.toFixed 2
          upper := stats.percentiles.p90.toFixed 2
          confidenceLevel := 95 / 100
          interval := (JsNum.sub stats.percentiles.p90 stats.percentiles.p10).toFixed 2 } := by
  have h2 : Int.floor ((1 - defaultConfidenceLevel) / 2 * 100) = 2 := by
    rw [Int.floor_eq_iff]
    norm_num [defaultConfidenceLevel]
  have h97 : Int.floor ((1 - (1 - defaultConfidenceLevel) / 2) * 100) = 97 := by
    rw [Int.floor_eq_iff]
    norm_num [defaultConfidenceLevel]
  have l2 : stats.percentiles.lookup 2 = none := by
    simp [Percentiles.lookup]
  have l97 : stats.percentiles.lookup 97 = none := by
    simp [Percentiles.lookup]
  refine ⟨h2, h97, l2, l97, ?_⟩
  simp only [calculateConfidenceIntervals, h2, h97, l2, l97, orDefaultNum]
  rfl

/-! ## Completion of runs and the generated trials -/

theorem nonZeroCount_replicate (n : ℕ) (x : ℚ) (hx : x ≠ 0) :
    nonZeroCount (List.replicate n x) = n := by
  induction n with
  | zero => rfl
  | succ k ih => simp [List.replicate_succ, nonZeroCount, hx, ih]

/-- The loop completes on eight non-zero draws per pass and leaves the other
non-zero draws in the source. -/
theorem trialLoop_of_count_rest (M : JsMath) (d : ℚ) (bp : BaseParams) (p : SimParams) :
    ∀ (count i : ℕ) (rng : Rng) (k : ℕ), k + 8 * count ≤ nonZeroCount rng →
      ∃ ts rest, trialLoop M d bp p count i rng = some (ts, rest) ∧ k ≤ nonZeroCount rest := by
  intro count
  induction count with
  | zero =>
    intro i rng k h
    exact ⟨[], rng, rfl, by omega⟩
  | succ n ih =>
    intro i rng k h
    obtain ⟨t, g1, h1, k1⟩ := simulateTrial_of_count M d bp p i rng (k + 8 * n) (by omega)
    obtain ⟨ts, g2, h2, k2⟩ := ih (i + 1) g1 k k1
    exact ⟨t :: ts, g2, by simp only [trialLoop, h1, h2], k2⟩

/-- A run completes on eight non-zero draws per iteration and leaves the other
non-zero draws in the source. -/
theorem runDowntimeSimulation_of_count_rest (M : JsMath) (d : ℚ) (bp : BaseParams)
    (c : CustomParams) (rng : Rng) (k : ℕ)
    (h : k + 8 * (mergeParams defaultParams c).iterations.toNat ≤ nonZeroCount rng) :
    ∃ r rest, runDowntimeSimulation M d bp c rng = some (r, rest) ∧ k ≤ nonZeroCount rest := by
  obtain ⟨ts, g, h1, hk⟩ := trialLoop_of_count_rest M d bp (mergeParams defaultParams c)
    (mergeParams defaultParams c).iterations.toNat 0 rng k h
  simp only [runDowntimeSimulation, h1]
  exact ⟨_, _, rfl, hk⟩

/-- The loop numbers its trials `i`, `i + 1`, ... in the order it makes them. -/
theorem trialLoop_iterations (M : JsMath) (d : ℚ) (bp : BaseParams) (p : SimParams) :
    ∀ (count i : ℕ) (rng : Rng) (ts : List Trial) (rest : Rng),
      trialLoop M d bp p count i rng = some (ts, rest) →
        ts.map Trial.iteration = List.range' i count := by
  intro count
  induction count with
  | zero =>
    intro i rng ts rest h
    simp only [trialLoop, Option.some.injEq, Prod.mk.injEq] at h
    simp [← h.1]
  | succ n ih =>
    intro i rng ts rest h
    unfold trialLoop at h
    cases h1 : simulateTrial M d bp p i rng with
    | none => simp [h1] at h
    | some q =>
      obtain ⟨t0, g1⟩ := q
      simp only [h1] at h
      cases h2 : trialLoop M d bp p n (i + 1) g1 with
      | none => simp [h2] at h
      | some q2 =>
        obtain ⟨ts0, g2⟩ := q2
        simp only [h2, Option.some.injEq, Prod.mk.injEq] at h
        obtain ⟨r1, r2, r3, r4, a1, a2, a3, -, -, -, -, ht0⟩ :=
          simulateTrial_eq M d bp p i rng g1 t0 h1
        rw [← h.1, List.map_cons, ih (i + 1) g1 ts0 g2 h2, List.range'_succ, ht0]

/-- C13: a run with `n` iterations that has eight non-zero draws per iteration
completes; its `results` has exactly `n` trials, is in non-decreasing order of
`total_cost`, and is a permutation of the trials the loop generated, whose
`iteration` fields are 0, ..., n-1 in order (so those of `results` are these
indices, each once). -/
theorem results_sorted_permutation (M : JsMath) (d : ℚ) (bp : BaseParams) (c : CustomParams)
    (rng : Rng) (n : ℕ) (hn : (mergeParams defaultParams c).iterations = (n : ℤ))
    (hrng : 8 * n ≤ nonZeroCount rng) :
    ∃ r rest generated, runDowntimeSimulation M d bp c rng = some (r, rest) ∧
      trialLoop M d bp (mergeParams defaultParams c) n 0 rng = some (generated, rest) ∧
      r.results.length = n ∧
      List.Sorted (fun a b : Trial => a.total_cost ≤ b.total_cost) r.results ∧
      List.Perm r.results generated ∧
      generated.map Trial.iteration = List.range n ∧
      List.Perm (r.results.map Trial.iteration) (List.range n) := by
  have hn0 : (mergeParams defaultParams c).iterations.toNat = n := by
    rw [hn]
    exact Int.toNat_ofNat n
  obtain ⟨r, rest, hrun⟩ := runDowntimeSimulation_of_count M d bp c rng (by rw [hn0]; exact hrng)
  obtain ⟨generated, hloop, hr⟩ := runDowntimeSimulation_eq M d bp c rng rest r hrun
  rw [hn0] at hloop
  have hit : generated.map Trial.iteration = List.range n := by
    rw [trialLoop_iterations M d bp _ n 0 rng generated rest hloop, List.range_eq_range']
  have hperm : List.Perm (sortByTotalCost generated) generated :=
    List.perm_insertionSort _ generated
  refine ⟨r, rest, generated, hrun, hloop, ?_, ?_, ?_, hit, ?_⟩
  · rw [hr]
    simp only [length_sortByTotalCost]
    exact trialLoop_length M d bp _ n 0 rng generated rest hloop
  · rw [hr]
    exact sorted_sortByTotalCost generated
  · rw [hr]
    exact hperm
  · rw [hr, ← hit]
    exact hperm.map Trial.iteration

/-- C13, on two iterations under the default variations. -/
theorem results_sorted_permutation_witness :
    ((mergeParams defaultParams (onlyIterations 2)).iterations = ((2 : ℕ) : ℤ) ∧
      8 * 2 ≤ nonZeroCount sampleRng) ∧
    ∃ r rest generated,
      runDowntimeSimulation sampleMath 10 ⟨1000, 5, some 50, some 100000⟩ (onlyIterations 2)
        sampleRng = some (r, rest) ∧
      trialLoop sampleMath 10 ⟨1000, 5, some 50, some 100000⟩
        (mergeParams defaultParams (onlyIterations 2)) 2 0 sampleRng = some (generated, rest) ∧
      r.results.length = 2 ∧
      List.Sorted (fun a b : Trial => a.total_cost ≤ b.total_cost) r.results ∧
      List.Perm r.results generated ∧
      generated.map Trial.iteration = List.range 2 ∧
      List.Perm (r.results.map Trial.iteration) (List.range 2) :=
  ⟨⟨by decide, by with_unfolding_all decide⟩,
    results_sorted_permutation sampleMath 10 ⟨1000, 5, some 50, some 100000⟩
      (onlyIterations 2) sampleRng 2 (by decide) (by with_unfolding_all decide)⟩

/-! ## Mean and standard deviation -/

theorem foldl_add_eq_sum (l : List ℚ) (a : ℚ) :
    l.foldl (fun x y => x + y) a = a + l.sum := by
  induction l generalizing a with
  | nil => simp
  | cons y ys ih =>
    rw [List.foldl_cons, ih, List.sum_cons]
    ring

theorem foldl_sq_fin (m : ℚ) (l : List ℚ) (a : ℚ) :
    l.foldl (fun sq n => JsNum.add sq
        (JsNum.mul (JsNum.sub (JsNum.fin n) (JsNum.fin m))
          (JsNum.sub (JsNum.fin n) (JsNum.fin m)))) (JsNum.fin a)
      = JsNum.fin (a + (l.map (fun x => (x - m) ^ 2)).sum) := by
  induction l generalizing a with
  | nil => simp
  | cons y ys ih =>
    have hstep : JsNum.add (JsNum.fin a)
        (JsNum.mul (JsNum.sub (JsNum.fin y) (JsNum.fin m))
          (JsNum.sub (JsNum.fin y) (JsNum.fin m))) = JsNum.fin (a + (y - m) ^ 2) := by
      simp only [JsNum.sub, JsNum.neg, JsNum.add, JsNum.mul]
      congr 1
      ring
    rw [List.foldl_cons, hstep, ih, List.map_cons, List.sum_cons]
    congr 1
    ring

theorem computeStats_mean (M : JsMath) (l : List Trial) :
    (computeStats M l).mean = (rawMean l).toFixed 2 := rfl

theorem computeStats_stdDev (M : JsMath) (l : List Trial) :
    (computeStats M l).stdDev = (rawStdDev M l).toFixed 2 := rfl

theorem computeStats_min (M : JsMath) (l : List Trial) :
    (computeStats M l).min = (minOf (l.map Trial.total_cost)).toFixed 2 := rfl

/-- The unrounded mean of a non-empty trial list is the arithmetic mean. -/
theorem rawMean_eq (l : List Trial) (hl : l ≠ []) :
    rawMean l = JsNum.fin (arithmeticMean (l.map Trial.total_cost)) := by
  have hn : ((l.map Trial.total_cost).length : ℚ) ≠ 0 := by
    rw [List.length_map]
    exact_mod_cast (fun h => hl (List.length_eq_zero.mp h))
  simp only [rawMean, arithmeticMean, JsNum.div, if_neg hn, foldl_add_eq_sum, zero_add]

theorem sumSquaredDeviations_nonneg (xs : List ℚ) : 0 ≤ sumSquaredDeviations xs := by
  unfold sumSquaredDeviations
  apply List.sum_nonneg
  intro y hy
  obtain ⟨x, -, rfl⟩ := List.mem_map.mp hy
  positivity

/-- The unrounded standard deviation of a non-empty trial list is the square
root of the sum of squared deviations divided by the number of trials. -/
theorem rawStdDev_eq (M : JsMath) (l : List Trial) (hl : l ≠ []) :
    rawStdDev M l = JsNum.fin (M.sqrt
      (sumSquaredDeviations (l.map Trial.total_cost) / ((l.map Trial.total_cost).length : ℚ))) := by
  have hn : ((l.map Trial.total_cost).length : ℚ) ≠ 0 := by
    rw [List.length_map]
    exact_mod_cast (fun h => hl (List.length_eq_zero.mp h))
  have hnn : ¬ (sumSquaredDeviations (l.map Trial.total_cost)
      / ((l.map Trial.total_cost).length : ℚ) < 0) := by
    apply not_lt.mpr
    exact div_nonneg (sumSquaredDeviations_nonneg _) (Nat.cast_nonneg _)
  unfold rawStdDev
  rw [rawMean_eq l hl, foldl_sq_fin]
  simp only [JsNum.div, if_neg hn, zero_add]
  have he : (List.map (fun x => (x - arithmeticMean (l.map Trial.total_cost)) ^ 2)
      (l.map Trial.total_cost)).sum = sumSquaredDeviations (l.map Trial.total_cost) := rfl
  rw [he]
  simp only [JsMath.sqrtNum, if_neg hnn]

/-- C14, as stated, fails: one trial of cost 3/512 has arithmetic mean 3/512,
and the returned `stats.mean` is that mean rounded to two decimals, 0.01. -/
theorem returned_mean_is_rounded :
    (runDowntimeSimulation sampleMath 1 ⟨3 / 512, 0, some 50, some 0⟩
        (zeroVariation (some 1)) sampleRng).map
        (fun p => (p.1.results.map Trial.total_cost, p.1.stats.mean))
      = some ([3 / 512], JsNum.fin (1 / 100)) ∧
    arithmeticMean [3 / 512] = 3 / 512 ∧
    JsNum.fin (1 / 100) ≠ JsNum.fin (3 / 512) := by
  refine ⟨?_, ?_, ?_⟩
  · with_unfolding_all rfl
  · norm_num [arithmeticMean]
  · with_unfolding_all decide

/-- C14 (amended): for every non-empty trial set, the returned `stats.mean` is
the arithmetic mean of the `total_cost` of all trials (their sum divided by
their number) rounded to two decimals. -/
theorem returned_mean (M : JsMath) (d : ℚ) (bp : BaseParams) (c : CustomParams) (rng : Rng) :
    ∀ p ∈ runDowntimeSimulation M d bp c rng, p.1.results ≠ [] →
      p.1.stats.mean
        = JsNum.fin (roundTo 2 (arithmeticMean (p.1.results.map Trial.total_cost))) := by
  intro p hp hne
  obtain ⟨r, rest⟩ := p
  obtain ⟨results, -, hr⟩ := runDowntimeSimulation_eq M d bp c rng rest r hp
  subst hr
  simp only at hne ⊢
  rw [computeStats_mean, rawMean_eq _ hne]
  rfl

/-- C14 (amended), on a run of two iterations under the default variations. -/
theorem returned_mean_witness :
    ∃ h : sampleRun.isSome = true,
      (sampleRun.get h).1.results ≠ [] ∧
      (sampleRun.get h).1.stats.mean
        = JsNum.fin (roundTo 2
            (arithmeticMean ((sampleRun.get h).1.results.map Trial.total_cost))) :=
  ⟨by with_unfolding_all decide, by with_unfolding_all decide,
    returned_mean sampleMath 10 ⟨1000, 5, some 50, some 100000⟩ (onlyIterations 2)
      sampleRng (sampleRun.get (by with_unfolding_all decide)) (Option.get_mem _)
      (by with_unfolding_all decide)⟩

/-- C15: for every non-empty trial set of size `n`, the returned `stats.stdDev`
is the local `stdDev` rounded to two decimals, and that local value is
`Math.sqrt` of the sum of squared deviations from the arithmetic mean divided
by `n` (not by `n - 1`).  So where `Math.sqrt` is exact, its square times `n` is
the sum of squared deviations; and for a single trial the sum is 0, so the
standard deviation is `Math.sqrt(0) = 0`. -/
theorem population_standard_deviation (M : JsMath) (d : ℚ) (bp : BaseParams)
    (c : CustomParams) (rng : Rng) :
    ∀ p ∈ runDowntimeSimulation M d bp c rng, p.1.results ≠ [] →
      p.1.stats.stdDev = (rawStdDev M p.1.results).toFixed 2 ∧
      rawStdDev M p.1.results = JsNum.fin (M.sqrt
        (sumSquaredDeviations (p.1.results.map Trial.total_cost)
          / (p.1.results.length : ℚ))) ∧
      (M.sqrt (sumSquaredDeviations (p.1.results.map Trial.total_cost)
            / (p.1.results.length : ℚ)) ^ 2
          = sumSquaredDeviations (p.1.results.map Trial.total_cost)
            / (p.1.results.length : ℚ) →
        M.sqrt (sumSquaredDeviations (p.1.results.map Trial.total_cost)
            / (p.1.results.length : ℚ)) ^ 2 * (p.1.results.length : ℚ)
          = sumSquaredDeviations (p.1.results.map Trial.total_cost)) ∧
      (p.1.results.length = 1 →
        sumSquaredDeviations (p.1.results.map Trial.total_cost) = 0 ∧
        (M.sqrt 0 = 0 →
          rawStdDev M p.1.results = JsNum.fin 0 ∧ p.1.stats.stdDev = JsNum.fin 0)) := by
  intro p hp hne
  obtain ⟨r, rest⟩ := p
  obtain ⟨results, -, hr⟩ := runDowntimeSimulation_eq M d bp c rng rest r hp
  subst hr
  simp only at hne ⊢
  generalize sortByTotalCost results = l at hne ⊢
  have hn : (l.length : ℚ) ≠ 0 := by
    exact_mod_cast (fun h => hne (List.length_eq_zero.mp h))
  have hraw := rawStdDev_eq M l hne
  rw [List.length_map] at hraw
  refine ⟨computeStats_stdDev M l, hraw, ?_, ?_⟩
  · intro hsq
    rw [hsq]
    field_simp
  · intro h1
    obtain ⟨t, rfl⟩ := List.length_eq_one.mp h1
    have h0 : sumSquaredDeviations ([t].map Trial.total_cost) = 0 := by
      simp [sumSquaredDeviations, arithmeticMean]
    refine ⟨h0, ?_⟩
    intro hs0
    rw [computeStats_stdDev, hraw, h0]
    simp [hs0, JsNum.toFixed, roundTo_two_zero]

/-- C15, on a run of two iterations without variation: both trials cost the
same, the sum of squared deviations is 0 and the stand-in square root is exact
at 0. -/
theorem population_standard_deviation_witness :
    ∃ h : (runDowntimeSimulation sampleMath 10 ⟨1000, 5, some 50, some 100000⟩
        (zeroVariation (some 2)) sampleRng).isSome = true,
      ((runDowntimeSimulation sampleMath 10 ⟨1000, 5, some 50, some 100000⟩
        (zeroVariation (some 2)) sampleRng).get h).1.results ≠ [] ∧
      ((runDowntimeSimulation sampleMath 10 ⟨1000, 5, some 50, some 100000⟩
        (zeroVariation (some 2)) sampleRng).get h).1.stats.stdDev
        = (rawStdDev sampleMath ((runDowntimeSimulation sampleMath 10
            ⟨1000, 5, some 50, some 100000⟩ (zeroVariation (some 2)) sampleRng).get
              h).1.results).toFixed 2 :=
  ⟨by with_unfolding_all decide, by with_unfolding_all decide,
    (population_standard_deviation sampleMath 10 ⟨1000, 5, some 50, some 100000⟩
      (zeroVariation (some 2)) sampleRng _ (Option.get_mem _)
      (by with_unfolding_all decide)).1⟩

/-! ## Cost components of a trial -/

/-- C16: every trial of every run satisfies
`total_cost = revenue_loss + labor_cost + depreciation`. -/
theorem total_cost_is_sum (M : JsMath) (d : ℚ) (bp : BaseParams) (c : CustomParams)
    (rng : Rng) :
    ∀ p ∈ runDowntimeSimulation M d bp c rng, ∀ t ∈ p.1.results,
      t.total_cost = t.revenue_loss + t.labor_cost + t.depreciation := by
  intro p hp t ht
  obtain ⟨r, rest⟩ := p
  obtain ⟨results, hloop, hr⟩ := runDowntimeSimulation_eq M d bp c rng rest r hp
  subst hr
  simp only [mem_sortByTotalCost] at ht
  refine trialLoop_forall M d bp _
    (fun t => t.total_cost = t.revenue_loss + t.labor_cost + t.depreciation)
    ?_ _ _ _ _ _ hloop t ht
  intro i g t0 g4 h0
  obtain ⟨r1, r2, r3, r4, g1, g2, g3, -, -, -, -, ht0⟩ := simulateTrial_eq M d bp _ i g g4 t0 h0
  rw [ht0]

/-- C16, on a run of two iterations under the default variations. -/
theorem total_cost_is_sum_witness :
    sampleRun.isSome = true ∧
    ∀ p ∈ sampleRun, ∀ t ∈ p.1.results,
      t.total_cost = t.revenue_loss + t.labor_cost + t.depreciation :=
  ⟨by with_unfolding_all decide,
    total_cost_is_sum sampleMath 10 ⟨1000, 5, some 50, some 100000⟩ (onlyIterations 2)
      sampleRng⟩

/-- The rounded employee count, clamped at 0, is a whole number. -/
theorem clamped_round_is_integer (x : ℚ) :
    max 0 (jsRound x) = (((max 0 (Int.floor (x + 1 / 2)) : ℤ)) : ℚ) := by
  unfold jsRound
  push_cast
  rfl

/-- C17: for `downtimeHours >= 0`, whatever the base parameters and the draws,
every trial is computed from a revenue per hour, a whole number of affected
employees, a wage and an equipment value that are all `>= 0`; so its
`revenue_loss`, `labor_cost`, `depreciation` and `total_cost` are `>= 0`, and
the returned `stats.min` is `>= 0`. -/
theorem trial_costs_nonneg (M : JsMath) (d : ℚ) (bp : BaseParams) (c : CustomParams)
    (rng : Rng) (hd : 0 ≤ d) :
    ∀ p ∈ runDowntimeSimulation M d bp c rng,
      (∀ t ∈ p.1.results,
        (∃ (rev wage ev : ℚ) (emp : ℤ), 0 ≤ rev ∧ 0 ≤ emp ∧ 0 ≤ wage ∧ 0 ≤ ev ∧
          t.revenue_loss = d * rev ∧
          t.labor_cost = d * (emp : ℚ) * wage ∧
          t.depreciation = ev * (1 / 1000) * (d / 8760)) ∧
        0 ≤ t.revenue_loss ∧ 0 ≤ t.labor_cost ∧ 0 ≤ t.depreciation ∧ 0 ≤ t.total_cost) ∧
      JsNum.le (JsNum.fin 0) p.1.stats.min = true := by
  intro p hp
  obtain ⟨r, rest⟩ := p
  obtain ⟨results, hloop, hr⟩ := runDowntimeSimulation_eq M d bp c rng rest r hp
  subst hr
  simp only
  have hall : ∀ t ∈ results,
      (∃ (rev wage ev : ℚ) (emp : ℤ), 0 ≤ rev ∧ 0 ≤ emp ∧ 0 ≤ wage ∧ 0 ≤ ev ∧
          t.revenue_loss = d * rev ∧
          t.labor_cost = d * (emp : ℚ) * wage ∧
          t.depreciation = ev * (1 / 1000) * (d / 8760)) ∧
        0 ≤ t.revenue_loss ∧ 0 ≤ t.labor_cost ∧ 0 ≤ t.depreciation ∧ 0 ≤ t.total_cost := by
    intro t ht
    refine trialLoop_forall M d bp _
      (fun t => (∃ (rev wage ev : ℚ) (emp : ℤ), 0 ≤ rev ∧ 0 ≤ emp ∧ 0 ≤ wage ∧ 0 ≤ ev ∧
          t.revenue_loss = d * rev ∧
          t.labor_cost = d * (emp : ℚ) * wage ∧
          t.depreciation = ev * (1 / 1000) * (d / 8760)) ∧
        0 ≤ t.revenue_loss ∧ 0 ≤ t.labor_cost ∧ 0 ≤ t.depreciation ∧ 0 ≤ t.total_cost)
      ?_ _ _ _ _ _ hloop t ht
    intro i g t0 g4 h0
    obtain ⟨r1, r2, r3, r4, g1, g2, g3, -, -, -, -, ht0⟩ :=
      simulateTrial_eq M d bp _ i g g4 t0 h0
    have a1 : (0 : ℚ) ≤ max 0 r1 := le_max_left 0 r1
    have a2 : (0 : ℚ) ≤ max 0 (jsRound r2) := le_max_left 0 _
    have a3 : (0 : ℚ) ≤ max 0 r3 := le_max_left 0 r3
    have a4 : (0 : ℚ) ≤ max 0 r4 := le_max_left 0 r4
    have b1 : 0 ≤ d * max 0 r1 := mul_nonneg hd a1
    have b2 : 0 ≤ d * max 0 (jsRound r2) * max 0 r3 := mul_nonneg (mul_nonneg hd a2) a3
    have b3 : 0 ≤ max 0 r4 * (1 / 1000) * (d / 8760) := by positivity
    rw [ht0]
    refine ⟨⟨max 0 r1, max 0 r3, max 0 r4, max 0 (Int.floor (r2 + 1 / 2)), a1,
      le_max_left 0 _, a3, a4, rfl, ?_, rfl⟩, b1, b2, b3, by positivity⟩
    simp only
    rw [clamped_round_is_integer]
  refine ⟨fun t ht => hall t ((mem_sortByTotalCost t results).mp ht), ?_⟩
  rw [computeStats_min]
  by_cases hne : sortByTotalCost results = []
  · rw [hne]
    rfl
  · have hlne : (sortByTotalCost results).map Trial.total_cost ≠ [] := by
      intro h
      exact hne (List.map_eq_nil_iff.mp h)
    obtain ⟨lo, hlo, hmem, -⟩ := minOf_spec _ hlne
    obtain ⟨t, ht, rfl⟩ := List.mem_map.mp hmem
    have h0 : 0 ≤ t.total_cost := (hall t ((mem_sortByTotalCost t results).mp ht)).2.2.2.2
    rw [hlo]
    simp only [JsNum.toFixed, jsLe_fin]
    have := roundTo_mono 2 h0
    rwa [roundTo_two_zero] at this

/-- C17, on a run of two iterations under the default variations. -/
theorem trial_costs_nonneg_witness :
    ((0 : ℚ) ≤ 10 ∧ sampleRun.isSome = true) ∧
    ∀ p ∈ sampleRun,
      (∀ t ∈ p.1.results,
        (∃ (rev wage ev : ℚ) (emp : ℤ), 0 ≤ rev ∧ 0 ≤ emp ∧ 0 ≤ wage ∧ 0 ≤ ev ∧
          t.revenue_loss = 10 * rev ∧
          t.labor_cost = 10 * (emp : ℚ) * wage ∧
          t.depreciation = ev * (1 / 1000) * (10 / 8760)) ∧
        0 ≤ t.revenue_loss ∧ 0 ≤ t.labor_cost ∧ 0 ≤ t.depreciation ∧ 0 ≤ t.total_cost) ∧
      JsNum.le (JsNum.fin 0) p.1.stats.min = true :=
  ⟨⟨by norm_num, by with_unfolding_all decide⟩,
    trial_costs_nonneg sampleMath 10 ⟨1000, 5, some 50, some 100000⟩ (onlyIterations 2)
      sampleRng (by norm_num)⟩

/-! ## The normal variate -/

/-- C18: on the same draws, `randomNormal(mean, stdDev)` is
`mean + stdDev * randomNormal(0, 1)` and `randomNormal(mean, 0)` is exactly
`mean`; both consume the same draws, and two non-zero draws suffice for a
result. -/
theorem randomNormal_affine (M : JsMath) (mean stdDev : ℚ) (rng : Rng) :
    randomNormal M mean stdDev rng
      = (randomNormal M 0 1 rng).map (fun p => (mean + stdDev * p.1, p.2)) ∧
    randomNormal M mean 0 rng = (randomNormal M 0 1 rng).map (fun p => (mean, p.2)) ∧
    (2 ≤ nonZeroCount rng → (randomNormal M 0 1 rng).isSome = true) := by
  refine ⟨?_, ?_, ?_⟩
  · cases h1 : nextNonZero rng with
    | none => simp only [randomNormal, h1, Option.map_none']
    | some q =>
      obtain ⟨u, r1⟩ := q
      cases h2 : nextNonZero r1 with
      | none => simp only [randomNormal, h1, h2, Option.map_none']
      | some q2 =>
        obtain ⟨v, r2⟩ := q2
        simp only [randomNormal, h1, h2, Option.map_some', Option.some.injEq, Prod.mk.injEq,
          and_true]
        ring
  · cases h1 : nextNonZero rng with
    | none => simp only [randomNormal, h1, Option.map_none']
    | some q =>
      obtain ⟨u, r1⟩ := q
      cases h2 : nextNonZero r1 with
      | none => simp only [randomNormal, h1, h2, Option.map_none']
      | some q2 =>
        obtain ⟨v, r2⟩ := q2
        simp only [randomNormal, h1, h2, Option.map_some', Option.some.injEq, Prod.mk.injEq,
          and_true]
        ring
  · intro h
    obtain ⟨x, rest, hx, -⟩ := randomNormal_of_count M 0 1 rng 0 (by omega)
    rw [hx]
    rfl

/-! ## Equipment simulation -/

theorem orDefault_zero (x : Option ℚ) : orDefault x 0 = nullToZero x := by
  cases x with
  | none => rfl
  | some v =>
    simp only [orDefault, nullToZero, Option.getD_some]
    split_ifs with h
    · exact h.symm
    · rfl

/-- What `runEquipmentSimulation` does once the equipment row is found. -/
theorem runEquipmentSimulation_found (db : Db) (M : JsMath) (id : ℕ) (d : ℚ) (rng : Rng)
    (equipment : Equipment) (other : List Equipment)
    (hrow : db.equipmentRows id = equipment :: other) :
    runEquipmentSimulation db M id d rng =
      match runDowntimeSimulation M d
          (equipmentBaseParams equipment
            (firstDepartment (db.departmentRows equipment.department_id)))
          CustomParams.empty rng with
      | none => Except.error SimError.sourceExhausted
      | some (simulationResult, rng1) =>
        Except.ok ({ simulation := simulationResult
                     equipment :=
                       { id := equipment.id
                         name := equipment.name
                         type := equipment.type
                         criticality := equipment.criticality
                         value := equipment.value }
                     downtime_hours := d }, rng1) := by
  simp only [runEquipmentSimulation, hrow]

/-- C19: once the equipment row is found, `runEquipmentSimulation` runs the
simulation on base parameters with
`affectedEmployees = max(1, round(2 * criticality))`, `hourlyWage = 50`,
`equipmentValue = value` (0 if absent) and, when the department has no (or a
zero) hourly revenue estimate, `revenuePerHour = value * 0.0001`; for
`value = 50000` and `criticality = 8` this is `affectedEmployees = 16` and
`revenuePerHour = 5`. -/
theorem equipment_base_params (db : Db) (M : JsMath) (id : ℕ) (d : ℚ) (rng : Rng)
    (equipment : Equipment) (other : List Equipment)
    (hrow : db.equipmentRows id = equipment :: other) :
    ∃ bp : BaseParams,
      (runEquipmentSimulation db M id d rng =
        match runDowntimeSimulation M d bp CustomParams.empty rng with
        | none => Except.error SimError.sourceExhausted
        | some (simulationResult, rng1) =>
          Except.ok ({ simulation := simulationResult
                       equipment :=
                         { id := equipment.id
                           name := equipment.name
                           type := equipment.type
                           criticality := equipment.criticality
                           value := equipment.value }
                       downtime_hours := d }, rng1)) ∧
      bp.affectedEmployees = max 1 (jsRound (2 * nullToZero equipment.criticality)) ∧
      bp.hourlyWage = some 50 ∧
      bp.equipmentValue = some (nullToZero equipment.value) ∧
      (orDefault (firstDepartment
          (db.departmentRows equipment.department_id)).estimated_revenue_hourly 0 = 0 →
        bp.revenuePerHour = nullToZero equipment.value * (1 / 10000)) ∧
      (equipment.value = some 50000 → equipment.criticality = some 8 →
        bp.affectedEmployees = 16 ∧
        (orDefault (firstDepartment
            (db.departmentRows equipment.department_id)).estimated_revenue_hourly 0 = 0 →
          bp.revenuePerHour = 5)) := by
  have hrev : orDefault (firstDepartment
        (db.departmentRows equipment.department_id)).estimated_revenue_hourly 0 = 0 →
      (equipmentBaseParams equipment
        (firstDepartment (db.departmentRows equipment.department_id))).revenuePerHour
        = nullToZero equipment.value * (1 / 10000) := by
    intro h0
    simp only [equipmentBaseParams]
    generalize (firstDepartment
      (db.departmentRows equipment.department_id)).estimated_revenue_hourly = est at h0
    cases est with
    | none => rfl
    | some e =>
      simp only [orDefault] at h0 ⊢
      split_ifs with he
      · rfl
      · rw [if_neg he] at h0
        exact absurd h0 he
  refine ⟨equipmentBaseParams equipment
    (firstDepartment (db.departmentRows equipment.department_id)),
    runEquipmentSimulation_found db M id d rng equipment other hrow, ?_, rfl, ?_, hrev, ?_⟩
  · simp only [equipmentBaseParams, mul_comm]
  · simp only [equipmentBaseParams, orDefault_zero]
  · intro hv hc
    constructor
    · simp only [equipmentBaseParams, hc, nullToZero, Option.getD_some]
      have h16 : jsRound ((8 : ℚ) * 2) = 16 := by
        have := jsRound_natCast 16
        norm_num at this ⊢
        exact this
      rw [h16]
      norm_num
    · intro h0
      rw [hrev h0, hv]
      norm_num [nullToZero]

/-- C19, on the equipment of value 50000 and criticality 8. -/
theorem equipment_base_params_witness :
    sampleDb.equipmentRows 1
      = [{ id := 1, name := "Press", type := "Hydraulic", criticality := some 8,
           value := some 50000, department_id := none }] ∧
    ∃ bp : BaseParams,
      bp.affectedEmployees = 16 ∧ bp.hourlyWage = some 50 ∧
      bp.equipmentValue = some 50000 ∧ bp.revenuePerHour = 5 := by
  refine ⟨rfl, ?_⟩
  obtain ⟨bp, -, -, hw, hev, -, h5⟩ :=
    equipment_base_params sampleDb sampleMath 1 10 [] _ [] rfl
  exact ⟨bp, (h5 rfl rfl).1, hw, hev, (h5 rfl rfl).2 rfl⟩

/-- C20: `runEquipmentSimulation` fails with "Equipment not found" exactly
when the equipment query returns no row; then, whatever the random source
holds (no draw is needed), `generateRiskReport` and `runSensitivityAnalysis`
fail with the same error and return no report. -/
theorem equipment_not_found (db : Db) (M : JsMath) (id : ℕ) (d : ℚ) (rng : Rng) :
    (runEquipmentSimulation db M id d rng = Except.error SimError.equipmentNotFound
      ↔ db.equipmentRows id = []) ∧
    (db.equipmentRows id = [] →
      ∀ (g : Rng) (sp : SensitivityParams),
        runEquipmentSimulation db M id d g = Except.error SimError.equipmentNotFound ∧
        generateRiskReport db M id d g = Except.error SimError.equipmentNotFound ∧
        runSensitivityAnalysis db M id d sp g = Except.error SimError.equipmentNotFound) := by
  have hnf : db.equipmentRows id = [] → ∀ g : Rng,
      runEquipmentSimulation db M id d g = Except.error SimError.equipmentNotFound := by
    intro h g
    simp only [runEquipmentSimulation, h]
  refine ⟨⟨?_, fun h => hnf h rng⟩, ?_⟩
  · intro herr
    cases hrow : db.equipmentRows id with
    | nil => rfl
    | cons equipment other =>
      rw [runEquipmentSimulation_found db M id d rng equipment other hrow] at herr
      cases hrun : runDowntimeSimulation M d
          (equipmentBaseParams equipment
            (firstDepartment (db.departmentRows equipment.department_id)))
          CustomParams.empty rng with
      | none =>
        rw [hrun] at herr
        simp at herr
      | some q =>
        rw [hrun] at herr
        simp at herr
  · intro h g sp
    refine ⟨hnf h g, ?_, ?_⟩
    · simp only [generateRiskReport, hnf h g]
    · simp only [runSensitivityAnalysis, hnf h g]

/-- C20, on an id the sample database does not hold and an empty random
source. -/
theorem equipment_not_found_witness :
    sampleDb.equipmentRows 7 = [] ∧
    runEquipmentSimulation sampleDb sampleMath 7 10 []
      = Except.error SimError.equipmentNotFound ∧
    generateRiskReport sampleDb sampleMath 7 10 []
      = Except.error SimError.equipmentNotFound ∧
    runSensitivityAnalysis sampleDb sampleMath 7 10 SensitivityParams.empty []
      = Except.error SimError.equipmentNotFound :=
  ⟨rfl, (equipment_not_found sampleDb sampleMath 7 10 []).2 rfl [] SensitivityParams.empty⟩

/-! ## Sensitivity analysis -/

/-- A multiple of `10^-d` is its own rounding. -/
theorem roundTo_int_div (d : ℕ) (z : ℤ) :
    roundTo d ((z : ℚ) / 10 ^ d) = (z : ℚ) / 10 ^ d := by
  have hp : (0 : ℚ) < 10 ^ d := by positivity
  have hne : (10 : ℚ) ^ d ≠ 0 := ne_of_gt hp
  unfold roundTo
  by_cases hz : (z : ℚ) / 10 ^ d < 0
  · rw [if_pos hz]
    have h1 : -((z : ℚ) / 10 ^ d) * 10 ^ d + 1 / 2 = ((-z : ℤ) : ℚ) + 1 / 2 := by
      push_cast
      field_simp
      ring
    have h2 : Int.floor (((-z : ℤ) : ℚ) + 1 / 2) = -z := by
      rw [Int.floor_eq_iff]
      constructor
      · linarith
      · linarith
    rw [h1, h2]
    push_cast
    ring
  · rw [if_neg hz]
    have h1 : (z : ℚ) / 10 ^ d * 10 ^ d + 1 / 2 = (z : ℚ) + 1 / 2 := by
      field_simp
    have h2 : Int.floor ((z : ℚ) + 1 / 2) = z := by
      rw [Int.floor_eq_iff]
      constructor
      · linarith
      · linarith
    rw [h1, h2]

/-- Rounding twice is rounding once. -/
theorem roundTo_idem (d : ℕ) (q : ℚ) : roundTo d (roundTo d q) = roundTo d q := by
  have h : ∃ z : ℤ, roundTo d q = (z : ℚ) / 10 ^ d := by
    unfold roundTo
    by_cases hq : q < 0
    · refine ⟨-Int.floor (-q * 10 ^ d + 1 / 2), ?_⟩
      rw [if_pos hq]
      push_cast
      ring
    · exact ⟨Int.floor (q * 10 ^ d + 1 / 2), by rw [if_neg hq]⟩
  obtain ⟨z, hz⟩ := h
  rw [hz, roundTo_int_div]

theorem toFixed_idem (d : ℕ) (x : JsNum) : (x.toFixed d).toFixed d = x.toFixed d := by
  cases x with
  | fin q => simp only [JsNum.toFixed, roundTo_idem]
  | posInf => rfl
  | negInf => rfl
  | nan => rfl

/-- The inner loop records one point per variation, in order, each the mean of
a 1000-iteration simulation on the base parameters modified at `param`. -/
theorem sensitivityPoints_spec (M : JsMath) (d : ℚ) (base : BaseParams) (param : ParamName) :
    ∀ (vs : List ℚ) (rng rest : Rng) (points : List (ℚ × JsNum)),
      sensitivityPoints M d base param vs rng = some (points, rest) →
        points.map Prod.fst = vs ∧
        ∀ v x, (v, x) ∈ points →
          ∃ g1 g2 sim,
            runDowntimeSimulation M d (modifyParam base param v)
              { iterations := some 1000
                revenueVariation := none
                employeeVariation := none
                wageVariation := none
                equipmentValueVariation := none } g1 = some (sim, g2) ∧
            x = sim.stats.mean := by
  intro vs
  induction vs with
  | nil =>
    intro rng rest points h
    simp only [sensitivityPoints, Option.some.injEq, Prod.mk.injEq] at h
    rw [← h.1]
    simp
  | cons v0 vs ih =>
    intro rng rest points h
    unfold sensitivityPoints at h
    cases h1 : runDowntimeSimulation M d (modifyParam base param v0)
        { iterations := some 1000
          revenueVariation := none
          employeeVariation := none
          wageVariation := none
          equipmentValueVariation := none } rng with
    | none => simp [h1] at h
    | some q =>
      obtain ⟨sim, g1⟩ := q
      simp only [h1] at h
      cases h2 : sensitivityPoints M d base param vs g1 with
      | none => simp [h2] at h
      | some q2 =>
        obtain ⟨pts, g2⟩ := q2
        simp only [h2, Option.some.injEq, Prod.mk.injEq] at h
        obtain ⟨ihk, ihp⟩ := ih g1 g2 pts h2
        rw [← h.1]
        refine ⟨by simp [ihk], ?_⟩
        intro v x hvx
        rcases List.mem_cons.mp hvx with heq | hmem
        · simp only [Prod.mk.injEq] at heq
          refine ⟨rng, g1, sim, ?_, ?_⟩
          · rw [heq.1]
            exact h1
          · rw [heq.2]
            obtain ⟨results, -, hr⟩ := runDowntimeSimulation_eq M d _ _ rng g1 sim h1
            rw [hr]
            simp only [computeStats_mean, toFixed_idem]
        · exact ihp v x hmem

/-- The outer loop records one entry per key, in order, with the points of the
inner loop. -/
theorem sensitivityLoop_spec (M : JsMath) (d : ℚ) (base : BaseParams) :
    ∀ (entries : List (ParamName × List ℚ)) (rng rest : Rng)
      (results : List (ParamName × List (ℚ × JsNum))),
      sensitivityLoop M d base entries rng = some (results, rest) →
        results.map (fun e => (e.1, e.2.map Prod.fst)) = entries ∧
        ∀ param points, (param, points) ∈ results → ∀ v x, (v, x) ∈ points →
          ∃ g1 g2 sim,
            runDowntimeSimulation M d (modifyParam base param v)
              { iterations := some 1000
                revenueVariation := none
                employeeVariation := none
                wageVariation := none
                equipmentValueVariation := none } g1 = some (sim, g2) ∧
            x = sim.stats.mean := by
  intro entries
  induction entries with
  | nil =>
    intro rng rest results h
    simp only [sensitivityLoop, Option.some.injEq, Prod.mk.injEq] at h
    rw [← h.1]
    simp
  | cons e0 entries ih =>
    intro rng rest results h
    obtain ⟨param0, vs0⟩ := e0
    unfold sensitivityLoop at h
    cases h1 : sensitivityPoints M d base param0 vs0 rng with
    | none => simp [h1] at h
    | some q =>
      obtain ⟨pts, g1⟩ := q
      simp only [h1] at h
      cases h2 : sensitivityLoop M d base entries g1 with
      | none => simp [h2] at h
      | some q2 =>
        obtain ⟨res, g2⟩ := q2
        simp only [h2, Option.some.injEq, Prod.mk.injEq] at h
        obtain ⟨ihk, ihp⟩ := ih g1 g2 res h2
        obtain ⟨hk0, hp0⟩ := sensitivityPoints_spec M d base param0 vs0 rng g1 pts h1
        rw [← h.1]
        refine ⟨by simp [ihk, hk0], ?_⟩
        intro param points hmem v x hvx
        rcases List.mem_cons.mp hmem with heq | hmem2
        · simp only [Prod.mk.injEq] at heq
          rw [heq.1]
          rw [heq.2] at hvx
          exact hp0 v x hvx
        · exact ihp param points hmem2 v x hvx

/-- The inner loop completes on 8000 non-zero draws per variation. -/
theorem sensitivityPoints_of_count (M : JsMath) (d : ℚ) (base : BaseParams)
    (param : ParamName) :
    ∀ (vs : List ℚ) (rng : Rng) (k : ℕ), k + 8000 * vs.length ≤ nonZeroCount rng →
      ∃ points rest, sensitivityPoints M d base param vs rng = some (points, rest) ∧
        k ≤ nonZeroCount rest := by
  intro vs
  induction vs with
  | nil =>
    intro rng k h
    exact ⟨[], rng, rfl, by simpa using h⟩
  | cons v0 vs ih =>
    intro rng k h
    rw [List.length_cons] at h
    have hit : (mergeParams defaultParams
        { iterations := some 1000
          revenueVariation := none
          employeeVariation := none
          wageVariation := none
          equipmentValueVariation := none }).iterations.toNat = 1000 := rfl
    obtain ⟨sim, g1, h1, k1⟩ := runDowntimeSimulation_of_count_rest M d
      (modifyParam base param v0)
      { iterations := some 1000
        revenueVariation := none
        employeeVariation := none
        wageVariation := none
        equipmentValueVariation := none } rng (k + 8000 * vs.length) (by rw [hit]; omega)
    obtain ⟨pts, g2, h2, k2⟩ := ih g1 k k1
    simp only [sensitivityPoints, h1, h2]
    exact ⟨_, _, rfl, k2⟩

/-- The outer loop completes on 8000 non-zero draws per variation of every
key. -/
theorem sensitivityLoop_of_count (M : JsMath) (d : ℚ) (base : BaseParams) :
    ∀ (entries : List (ParamName × List ℚ)) (rng : Rng) (k : ℕ),
      k + 8000 * (entries.map (fun e => e.2.length)).sum ≤ nonZeroCount rng →
      ∃ results rest, sensitivityLoop M d base entries rng = some (results, rest) ∧
        k ≤ nonZeroCount rest := by
  intro entries
  induction entries with
  | nil =>
    intro rng k h
    exact ⟨[], rng, rfl, by simpa using h⟩
  | cons e0 entries ih =>
    intro rng k h
    obtain ⟨param0, vs0⟩ := e0
    simp only [List.map_cons, List.sum_cons] at h
    obtain ⟨pts, g1, h1, k1⟩ := sensitivityPoints_of_count M d base param0 vs0 rng
      (k + 8000 * (entries.map (fun e => e.2.length)).sum) (by omega)
    obtain ⟨res, g2, h2, k2⟩ := ih g1 k k1
    simp only [sensitivityLoop, h1, h2]
    exact ⟨_, _, rfl, k2⟩

/-- The equipment simulation of an existing equipment completes on 80000
non-zero draws. -/
theorem runEquipmentSimulation_of_count (db : Db) (M : JsMath) (id : ℕ) (d : ℚ) (rng : Rng)
    (equipment : Equipment) (other : List Equipment) (k : ℕ)
    (hrow : db.equipmentRows id = equipment :: other) (h : k + 80000 ≤ nonZeroCount rng) :
    ∃ sim rest, runEquipmentSimulation db M id d rng
        = Except.ok ({ simulation := sim
                       equipment :=
                         { id := equipment.id
                           name := equipment.name
                           type := equipment.type
                           criticality := equipment.criticality
                           value := equipment.value }
                       downtime_hours := d }, rest) ∧
      k ≤ nonZeroCount rest := by
  have hit : (mergeParams defaultParams CustomParams.empty).iterations.toNat = 10000 := rfl
  obtain ⟨sim, g1, h1, k1⟩ := runDowntimeSimulation_of_count_rest M d
    (equipmentBaseParams equipment
      (firstDepartment (db.departmentRows equipment.department_id)))
    CustomParams.empty rng k (by rw [hit]; omega)
  refine ⟨sim, g1, ?_, k1⟩
  rw [runEquipmentSimulation_found db M id d rng equipment other hrow, h1]

/-- What a successful sensitivity analysis consists of. -/
theorem runSensitivityAnalysis_eq (db : Db) (M : JsMath) (id : ℕ) (d : ℚ)
    (sp : SensitivityParams) (rng : Rng) (p : SensitivityReport × Rng)
    (h : runSensitivityAnalysis db M id d sp rng = Except.ok p) :
    ∃ equipment other baseSimulation rng1,
      db.equipmentRows id = equipment :: other ∧
      runEquipmentSimulation db M id d rng = Except.ok (baseSimulation, rng1) ∧
      baseSimulation.equipment =
        { id := equipment.id
          name := equipment.name
          type := equipment.type
          criticality := equipment.criticality
          value := equipment.value } ∧
      sensitivityLoop M d (sensitivityBaseParams baseSimulation.equipment)
        (sensitivityEntries sp) rng1 = some (p.1.sensitivity_analysis, p.2) ∧
      p.1.base_case = baseSimulation.simulation.stats.mean.toFixed 2 := by
  unfold runSensitivityAnalysis at h
  cases hrow : db.equipmentRows id with
  | nil =>
    simp [runEquipmentSimulation, hrow] at h
  | cons equipment other =>
    cases he : runEquipmentSimulation db M id d rng with
    | error e => simp [he] at h
    | ok q =>
      obtain ⟨baseSimulation, rng1⟩ := q
      simp only [he] at h
      have hinfo : baseSimulation.equipment =
          { id := equipment.id
            name := equipment.name
            type := equipment.type
            criticality := equipment.criticality
            value := equipment.value } := by
        rw [runEquipmentSimulation_found db M id d rng equipment other hrow] at he
        cases hrun : runDowntimeSimulation M d
            (equipmentBaseParams equipment
              (firstDepartment (db.departmentRows equipment.department_id)))
            CustomParams.empty rng with
        | none =>
          rw [hrun] at he
          simp at he
        | some q2 =>
          rw [hrun] at he
          simp only [Except.ok.injEq, Prod.mk.injEq] at he
          rw [← he.1]
      cases hl : sensitivityLoop M d (sensitivityBaseParams baseSimulation.equipment)
          (sensitivityEntries sp) rng1 with
      | none => simp [hl] at h
      | some q3 =>
        obtain ⟨results, rng2⟩ := q3
        simp only [hl, Except.ok.injEq] at h
        refine ⟨equipment, other, baseSimulation, rng1, rfl, rfl, hinfo, ?_, ?_⟩
        · rw [← h]
          exact hl
        · rw [← h]

/-- The sensitivity analysis of an existing equipment completes on 80000
non-zero draws for the base simulation and 8000 per variation. -/
theorem runSensitivityAnalysis_of_count (db : Db) (M : JsMath) (id : ℕ) (d : ℚ)
    (sp : SensitivityParams) (rng : Rng) (equipment : Equipment) (other : List Equipment)
    (hrow : db.equipmentRows id = equipment :: other)
    (h : 80000 + 8000 * ((sensitivityEntries sp).map (fun e => e.2.length)).sum
      ≤ nonZeroCount rng) :
    ∃ p, runSensitivityAnalysis db M id d sp rng = Except.ok p := by
  obtain ⟨sim, g1, h1, k1⟩ := runEquipmentSimulation_of_count db M id d rng equipment other
    (8000 * ((sensitivityEntries sp).map (fun e => e.2.length)).sum) hrow (by omega)
  obtain ⟨res, g2, h2, -⟩ := sensitivityLoop_of_count M d
    (sensitivityBaseParams
      { id := equipment.id
        name := equipment.name
        type := equipment.type
        criticality := equipment.criticality
        value := equipment.value })
    (sensitivityEntries sp) g1 0 (by omega)
  simp only [runSensitivityAnalysis, h1, h2]
  exact ⟨_, rfl⟩

theorem nonZeroCount_longRng : nonZeroCount longRng = 208000 :=
  nonZeroCount_replicate 208000 (1 / 2) (by norm_num)

theorem sensitivityEntries_empty_total :
    ((sensitivityEntries SensitivityParams.empty).map (fun e => e.2.length)).sum = 16 := rfl

/-- The keys and variations a successful sensitivity analysis reports are those
of the merged variation set, in order. -/
theorem runSensitivityAnalysis_keys (db : Db) (M : JsMath) (id : ℕ) (d : ℚ)
    (sp : SensitivityParams) (rng : Rng) (p : SensitivityReport × Rng)
    (h : runSensitivityAnalysis db M id d sp rng = Except.ok p) :
    p.1.sensitivity_analysis.map (fun e => (e.1, e.2.map Prod.fst)) = sensitivityEntries sp := by
  obtain ⟨equipment, other, baseSimulation, rng1, -, -, -, hloop, -⟩ :=
    runSensitivityAnalysis_eq db M id d sp rng p h
  exact (sensitivityLoop_spec M d _ _ rng1 p.2 p.1.sensitivity_analysis hloop).1

/-- C11, as stated, fails: for the equipment of the sample database the
analysis with the empty variation set `{}` completes, and its result map is
not empty: it has the four keys of the default variation set. -/
theorem empty_variation_set_result_not_empty :
    ∃ p, runSensitivityAnalysis sampleDb sampleMath 1 10 SensitivityParams.empty longRng
        = Except.ok p ∧
      p.1.sensitivity_analysis.map Prod.fst
        = [ParamName.revenuePerHour, ParamName.affectedEmployees, ParamName.hourlyWage,
           ParamName.equipmentValue] ∧
      p.1.sensitivity_analysis ≠ [] := by
  obtain ⟨p, hp⟩ := runSensitivityAnalysis_of_count sampleDb sampleMath 1 10
    SensitivityParams.empty longRng _ [] rfl
    (by rw [sensitivityEntries_empty_total, nonZeroCount_longRng])
  have hk := runSensitivityAnalysis_keys sampleDb sampleMath 1 10 SensitivityParams.empty
    longRng p hp
  have hfst : p.1.sensitivity_analysis.map Prod.fst
      = [ParamName.revenuePerHour, ParamName.affectedEmployees, ParamName.hourlyWage,
         ParamName.equipmentValue] := by
    have := congrArg (List.map Prod.fst) hk
    rw [List.map_map] at this
    exact this
  refine ⟨p, hp, hfst, ?_⟩
  intro hnil
  rw [hnil] at hfst
  simp at hfst

/-- C11 (amended): for an existing equipment, `runSensitivityAnalysis` called
with the empty variation set `{}` does not fail (208000 non-zero draws
suffice) and analyses the default variation set: the result map has the keys
`revenuePerHour`, `affectedEmployees`, `hourlyWage`, `equipmentValue`, in this
order, with the variations -0.5, -0.25, 0.25, 0.5 (for `hourlyWage`: -0.2,
-0.1, 0.1, 0.2). -/
theorem empty_variation_set_uses_defaults (db : Db) (M : JsMath) (id : ℕ) (d : ℚ) (rng : Rng)
    (equipment : Equipment) (other : List Equipment)
    (hrow : db.equipmentRows id = equipment :: other) (hrng : 208000 ≤ nonZeroCount rng) :
    ∃ p, runSensitivityAnalysis db M id d SensitivityParams.empty rng = Except.ok p ∧
      p.1.sensitivity_analysis.map (fun e => (e.1, e.2.map Prod.fst))
        = [(ParamName.revenuePerHour, [-1 / 2, -1 / 4, 1 / 4, 1 / 2]),
           (ParamName.affectedEmployees, [-1 / 2, -1 / 4, 1 / 4, 1 / 2]),
           (ParamName.hourlyWage, [-2 / 10, -1 / 10, 1 / 10, 2 / 10]),
           (ParamName.equipmentValue, [-1 / 2, -1 / 4, 1 / 4, 1 / 2])] := by
  obtain ⟨p, hp⟩ := runSensitivityAnalysis_of_count db M id d SensitivityParams.empty rng
    equipment other hrow (by rw [sensitivityEntries_empty_total]; omega)
  exact ⟨p, hp, runSensitivityAnalysis_keys db M id d SensitivityParams.empty rng p hp⟩

/-- C11 (amended), on the equipment of the sample database. -/
theorem empty_variation_set_uses_defaults_witness :
    (sampleDb.equipmentRows 1
        = [{ id := 1, name := "Press", type := "Hydraulic", criticality := some 8,
             value := some 50000, department_id := none }] ∧
      208000 ≤ nonZeroCount longRng) ∧
    ∃ p, runSensitivityAnalysis sampleDb sampleMath 1 10 SensitivityParams.empty longRng
        = Except.ok p ∧
      p.1.sensitivity_analysis.map (fun e => (e.1, e.2.map Prod.fst))
        = [(ParamName.revenuePerHour, [-1 / 2, -1 / 4, 1 / 4, 1 / 2]),
           (ParamName.affectedEmployees, [-1 / 2, -1 / 4, 1 / 4, 1 / 2]),
           (ParamName.hourlyWage, [-2 / 10, -1 / 10, 1 / 10, 2 / 10]),
           (ParamName.equipmentValue, [-1 / 2, -1 / 4, 1 / 4, 1 / 2])] :=
  ⟨⟨rfl, le_of_eq nonZeroCount_longRng.symm⟩,
    empty_variation_set_uses_defaults sampleDb sampleMath 1 10 longRng _ [] rfl
      (le_of_eq nonZeroCount_longRng.symm)⟩

theorem modifyParam_get_self (base : BaseParams) (param : ParamName) (v : ℚ) :
    (modifyParam base param v).get param = some (nullToZero (base.get param) * (1 + v)) := by
  cases param <;> rfl

theorem modifyParam_get_other (base : BaseParams) (param q : ParamName) (v : ℚ)
    (h : q ≠ param) : (modifyParam base param v).get q = base.get q := by
  cases param <;> cases q <;> first | rfl | exact absurd rfl h

/-- C12: in a successful `runSensitivityAnalysis` there is one base parameter
object, built from the equipment row, and for every key `P` of the result and
every entry `(v, x)` recorded under it, `v` is one of the variations listed for
`P` and `x` is the (returned) mean of a simulation of 1000 iterations run on
parameters whose field `P` is `base[P] * (1 + v)` and whose other fields are
those of the base object. -/
theorem sensitivity_one_at_a_time (db : Db) (M : JsMath) (id : ℕ) (d : ℚ)
    (sp : SensitivityParams) (rng : Rng) :
    ∀ p, runSensitivityAnalysis db M id d sp rng = Except.ok p →
      ∃ equipment other base,
        db.equipmentRows id = equipment :: other ∧
        base = sensitivityBaseParams
          { id := equipment.id
            name := equipment.name
            type := equipment.type
            criticality := equipment.criticality
            value := equipment.value } ∧
        p.1.sensitivity_analysis.map (fun e => (e.1, e.2.map Prod.fst))
          = sensitivityEntries sp ∧
        ∀ param points, (param, points) ∈ p.1.sensitivity_analysis →
          ∀ v x, (v, x) ∈ points →
            (modifyParam base param v).get param
              = some (nullToZero (base.get param) * (1 + v)) ∧
            (∀ q, q ≠ param → (modifyParam base param v).get q = base.get q) ∧
            ∃ g1 g2 sim,
              runDowntimeSimulation M d (modifyParam base param v)
                { iterations := some 1000
                  revenueVariation := none
                  employeeVariation := none
                  wageVariation := none
                  equipmentValueVariation := none } g1 = some (sim, g2) ∧
              sim.iterations = 1000 ∧ sim.results.length = 1000 ∧ x = sim.stats.mean := by
  intro p hp
  obtain ⟨equipment, other, baseSimulation, rng1, hrow, -, hinfo, hloop, -⟩ :=
    runSensitivityAnalysis_eq db M id d sp rng p hp
  rw [hinfo] at hloop
  obtain ⟨hkeys, hpts⟩ := sensitivityLoop_spec M d _ _ rng1 p.2 p.1.sensitivity_analysis hloop
  refine ⟨equipment, other, _, hrow, rfl, hkeys, ?_⟩
  intro param points hmem v x hvx
  obtain ⟨g1, g2, sim, hsim, hx⟩ := hpts param points hmem v x hvx
  refine ⟨modifyParam_get_self _ param v, fun q hq => modifyParam_get_other _ param q v hq,
    g1, g2, sim, hsim, ?_, ?_, hx⟩
  · obtain ⟨results, -, hr⟩ := runDowntimeSimulation_eq M d _ _ g1 g2 sim hsim
    rw [hr]
    rfl
  · obtain ⟨results, hl, hr⟩ := runDowntimeSimulation_eq M d _ _ g1 g2 sim hsim
    rw [hr]
    simp only [length_sortByTotalCost]
    exact trialLoop_length M d _ _ _ _ _ _ _ hl

/-- C12, on the equipment of the sample database and the default variation
set: the analysis completes and every recorded point is such a mean. -/
theorem sensitivity_one_at_a_time_witness :
    ∃ p, runSensitivityAnalysis sampleDb sampleMath 1 10 SensitivityParams.empty longRng
        = Except.ok p ∧
      ∃ equipment other base,
        sampleDb.equipmentRows 1 = equipment :: other ∧
        base = sensitivityBaseParams
          { id := equipment.id
            name := equipment.name
            type := equipment.type
            criticality := equipment.criticality
            value := equipment.value } ∧
        p.1.sensitivity_analysis.map (fun e => (e.1, e.2.map Prod.fst))
          = sensitivityEntries SensitivityParams.empty ∧
        ∀ param points, (param, points) ∈ p.1.sensitivity_analysis →
          ∀ v x, (v, x) ∈ points →
            (modifyParam base param v).get param
              = some (nullToZero (base.get param) * (1 + v)) ∧
            (∀ q, q ≠ param → (modifyParam base param v).get q = base.get q) ∧
            ∃ g1 g2 sim,
              runDowntimeSimulation sampleMath 10 (modifyParam base param v)
                { iterations := some 1000
                  revenueVariation := none
                  employeeVariation := none
                  wageVariation := none
                  equipmentValueVariation := none } g1 = some (sim, g2) ∧
              sim.iterations = 1000 ∧ sim.results.length = 1000 ∧ x = sim.stats.mean := by
  obtain ⟨p, hp⟩ := runSensitivityAnalysis_of_count sampleDb sampleMath 1 10
    SensitivityParams.empty longRng _ [] rfl
    (by rw [sensitivityEntries_empty_total, nonZeroCount_longRng])
  exact ⟨p, hp, sensitivity_one_at_a_time sampleDb sampleMath 1 10 SensitivityParams.empty
    longRng p hp⟩

/-! ## Recommendations -/

/-- The three conditions of `generateRecommendations` select the three groups,
in order. -/
theorem generateRecommendations_eq (ra : RiskAssessment) (stats : Stats) :
    generateRecommendations ra stats =
      (if ra.riskLevel = RiskLevel.HIGH ∨ ra.riskLevel = RiskLevel.CRITICAL
        then mitigationGroup else [])
      ++ (if JsNum.lt (JsNum.fin (1 / 2)) ra.uncertaintyRatio = true
        then dataGatheringGroup else [])
      ++ (if JsNum.lt (JsNum.fin 3) (JsNum.div stats.max stats.mean) = true
        then worstCaseGroup else []) := by
  unfold generateRecommendations mitigationGroup dataGatheringGroup worstCaseGroup
  by_cases h1 : ra.riskLevel = RiskLevel.HIGH ∨ ra.riskLevel = RiskLevel.CRITICAL
  · have h1c : ra.riskLevel = RiskLevel.CRITICAL ∨ ra.riskLevel = RiskLevel.HIGH := h1.symm
    rw [if_pos h1, if_pos h1c]
  · have h1c : ¬ (ra.riskLevel = RiskLevel.CRITICAL ∨ ra.riskLevel = RiskLevel.HIGH) :=
      fun h => h1 h.symm
    rw [if_neg h1, if_neg h1c]

/-- C21: `generateRecommendations` returns the concatenation, in this order, of
the mitigation group if and only if `riskLevel` is HIGH or CRITICAL, the
data-gathering group if and only if `uncertaintyRatio > 0.5`, and the
worst-case group if and only if `stats.max / stats.mean > 3`; it returns the
empty list when none of the three conditions holds. -/
theorem recommendations_by_condition (ra : RiskAssessment) (stats : Stats) :
    generateRecommendations ra stats =
      (if ra.riskLevel = RiskLevel.HIGH ∨ ra.riskLevel = RiskLevel.CRITICAL
        then mitigationGroup else [])
      ++ (if JsNum.lt (JsNum.fin (1 / 2)) ra.uncertaintyRatio = true
        then dataGatheringGroup else [])
      ++ (if JsNum.lt (JsNum.fin 3) (JsNum.div stats.max stats.mean) = true
        then worstCaseGroup else []) ∧
    ("Implement immediate mitigation measures" ∈ generateRecommendations ra stats
      ↔ ra.riskLevel = RiskLevel.HIGH ∨ ra.riskLevel = RiskLevel.CRITICAL) ∧
    ("Gather more data to reduce uncertainty in cost estimates"
        ∈ generateRecommendations ra stats
      ↔ JsNum.lt (JsNum.fin (1 / 2)) ra.uncertaintyRatio = true) ∧
    ("Plan for worst-case scenarios in budgeting" ∈ generateRecommendations ra stats
      ↔ JsNum.lt (JsNum.fin 3) (JsNum.div stats.max stats.mean) = true) ∧
    (¬ (ra.riskLevel = RiskLevel.HIGH ∨ ra.riskLevel = RiskLevel.CRITICAL) →
      JsNum.lt (JsNum.fin (1 / 2)) ra.uncertaintyRatio = false →
      JsNum.lt (JsNum.fin 3) (JsNum.div stats.max stats.mean) = false →
      generateRecommendations ra stats = []) := by
  refine ⟨generateRecommendations_eq ra stats, ?_, ?_, ?_, ?_⟩
  · rw [generateRecommendations_eq]
    by_cases h1 : ra.riskLevel = RiskLevel.HIGH ∨ ra.riskLevel = RiskLevel.CRITICAL <;>
    by_cases h2 : JsNum.lt (JsNum.fin (1 / 2)) ra.uncertaintyRatio = true <;>
    by_cases h3 : JsNum.lt (JsNum.fin 3) (JsNum.div stats.max stats.mean) = true <;>
    simp [h1, h2, h3, mitigationGroup, dataGatheringGroup, worstCaseGroup]
  · rw [generateRecommendations_eq]
    by_cases h1 : ra.riskLevel = RiskLevel.HIGH ∨ ra.riskLevel = RiskLevel.CRITICAL <;>
    by_cases h2 : JsNum.lt (JsNum.fin (1 / 2)) ra.uncertaintyRatio = true <;>
    by_cases h3 : JsNum.lt (JsNum.fin 3) (JsNum.div stats.max stats.mean) = true <;>
    simp [h1, h2, h3, mitigationGroup, dataGatheringGroup, worstCaseGroup]
  · rw [generateRecommendations_eq]
    by_cases h1 : ra.riskLevel = RiskLevel.HIGH ∨ ra.riskLevel = RiskLevel.CRITICAL <;>
    by_cases h2 : JsNum.lt (JsNum.fin (1 / 2)) ra.uncertaintyRatio = true <;>
    by_cases h3 : JsNum.lt (JsNum.fin 3) (JsNum.div stats.max stats.mean) = true <;>
    simp [h1, h2, h3, mitigationGroup, dataGatheringGroup, worstCaseGroup]
  · intro h1 h2 h3
    rw [generateRecommendations_eq, if_neg h1, h2, h3]
    rfl

/-! ## Configuration -/

/-- C22: without custom parameters the configuration is 10000 iterations and
the variations 0.10, 0.15, 0.05, 0.20; a custom parameter object replaces
exactly the keys it supplies; and a run loops `iterations` times over this
merged configuration and returns it in `parameters` and `iterations`. -/
theorem merged_configuration (M : JsMath) (d : ℚ) (bp : BaseParams) (c : CustomParams)
    (rng : Rng) :
    mergeParams defaultParams CustomParams.empty
      = { iterations := 10000
          revenueVariation := 10 / 100
          employeeVariation := 15 / 100
          wageVariation := 5 / 100
          equipmentValueVariation := 20 / 100 } ∧
    mergeParams defaultParams c
      = { iterations := c.iterations.getD 10000
          revenueVariation := c.revenueVariation.getD (10 / 100)
          employeeVariation := c.employeeVariation.getD (15 / 100)
          wageVariation := c.wageVariation.getD (5 / 100)
          equipmentValueVariation := c.equipmentValueVariation.getD (20 / 100) } ∧
    ∀ p ∈ runDowntimeSimulation M d bp c rng,
      p.1.parameters = mergeParams defaultParams c ∧
      p.1.iterations = c.iterations.getD 10000 ∧
      ∃ generated,
        trialLoop M d bp (mergeParams defaultParams c) (c.iterations.getD 10000).toNat 0 rng
          = some (generated, p.2) ∧
        p.1.results = sortByTotalCost generated := by
  have hm : mergeParams defaultParams c
      = { iterations := c.iterations.getD 10000
          revenueVariation := c.revenueVariation.getD (10 / 100)
          employeeVariation := c.employeeVariation.getD (15 / 100)
          wageVariation := c.wageVariation.getD (5 / 100)
          equipmentValueVariation := c.equipmentValueVariation.getD (20 / 100) } := by
    simp only [mergeParams, defaultParams]
    norm_num
  refine ⟨?_, hm, ?_⟩
  · simp only [mergeParams, defaultParams, CustomParams.empty, Option.getD_none]
    norm_num
  · intro p hp
    obtain ⟨r, rest⟩ := p
    obtain ⟨generated, hloop, hr⟩ := runDowntimeSimulation_eq M d bp c rng rest r hp
    have hi : (mergeParams defaultParams c).iterations = c.iterations.getD 10000 := rfl
    rw [hi] at hloop
    subst hr
    exact ⟨rfl, rfl, generated, hloop, rfl⟩

/-- C22, on a run with the custom parameters `{ iterations: 2 }`. -/
theorem merged_configuration_witness :
    sampleRun.isSome = true ∧
    ∀ p ∈ sampleRun,
      p.1.parameters
        = { iterations := 2
            revenueVariation := 1 / 10
            employeeVariation := 15 / 100
            wageVariation := 5 / 100
            equipmentValueVariation := 2 / 10 } ∧
      p.1.iterations = 2 :=
  ⟨by with_unfolding_all decide, fun p hp =>
    ⟨((merged_configuration sampleMath 10 ⟨1000, 5, some 50, some 100000⟩
        (onlyIterations 2) sampleRng).2.2 p hp).1,
     ((merged_configuration sampleMath 10 ⟨1000, 5, some 50, some 100000⟩
        (onlyIterations 2) sampleRng).2.2 p hp).2.1⟩⟩

/-! ## Human impact -/

/-- C23, at the failing input: `calculateHumanImpact(0, 0, -1, 0)` returns -40,
below the range 0-100 its comment states; only the upper end is capped. -/
theorem human_impact_below_zero :
    calculateHumanImpact 0 0 (some (-1)) (some 0) = -40 ∧
    ¬ (0 ≤ calculateHumanImpact 0 0 (some (-1)) (some 0)) := by
  have h : calculateHumanImpact 0 0 (some (-1)) (some 0) = -40 := by
    with_unfolding_all rfl
  rw [h]
  exact ⟨rfl, by norm_num⟩

/-- For inputs that are all at least 0, the human impact score lies in
`[0, 100]`. -/
theorem human_impact_range_of_nonneg (affectedEmployees downtimeHours : ℚ)
    (safetyRisk skillDependency : Option ℚ) (h1 : 0 ≤ affectedEmployees)
    (h2 : 0 ≤ downtimeHours) (h3 : 0 ≤ safetyRisk.getD 0) (h4 : 0 ≤ skillDependency.getD 0) :
    0 ≤ calculateHumanImpact affectedEmployees downtimeHours safetyRisk skillDependency ∧
    calculateHumanImpact affectedEmployees downtimeHours safetyRisk skillDependency ≤ 100 := by
  unfold calculateHumanImpact
  have a1 : 0 ≤ affectedEmployees * downtimeHours := mul_nonneg h1 h2
  have a2 : 0 ≤ min (safetyRisk.getD 0) 1 := le_min h3 (by norm_num)
  have a3 : 0 ≤ min (skillDependency.getD 0) 1 := le_min h4 (by norm_num)
  have hs : 0 ≤ min (affectedEmployees * downtimeHours * (3 / 10)
      + min (safetyRisk.getD 0) 1 * 100 * (4 / 10)
      + min (skillDependency.getD 0) 1 * 100 * (3 / 10)) 100 := by
    apply le_min
    · positivity
    · norm_num
  constructor
  · have := roundTo_mono 2 hs
    rwa [roundTo_two_zero] at this
  · have := roundTo_mono 2 (min_le_right (affectedEmployees * downtimeHours * (3 / 10)
      + min (safetyRisk.getD 0) 1 * 100 * (4 / 10)
      + min (skillDependency.getD 0) 1 * 100 * (3 / 10)) 100)
    rwa [roundTo_two_hundred] at this

/-! ## Safety risk -/

/-- C24, at every existing equipment: whatever the equipment row, the recent
requests and the time, `assessSafetyRisk` does not return an assessment; it
throws a `ReferenceError` when it builds `risk_factors`, where `yearsOld` is
read outside the block that declares it. -/
theorem assessSafetyRisk_throws (equipment : SafetyEquipment) (other : List SafetyEquipment)
    (recentRequests : List MaintenanceRequest) (now : ℚ) (equipmentId : ℕ) :
    assessSafetyRisk (equipment :: other) recentRequests now equipmentId
      = Except.error SafetyError.referenceError := rfl

/-! ## The worker copy -/

theorem worker_randomNormal_eq (M : JsMath) (mean stdDev : ℚ) (rng : Rng) :
    Worker.randomNormal M mean stdDev rng = GearGuard.randomNormal M mean stdDev rng := rfl

theorem worker_simulateTrial_eq (M : JsMath) (d : ℚ) (bp : BaseParams) (p : SimParams)
    (i : ℕ) (rng : Rng) :
    Worker.simulateTrial M d bp p i rng = GearGuard.simulateTrial M d bp p i rng := rfl

theorem worker_trialLoop_eq (M : JsMath) (d : ℚ) (bp : BaseParams) (p : SimParams) :
    ∀ (count i : ℕ) (rng : Rng),
      Worker.trialLoop M d bp p count i rng = GearGuard.trialLoop M d bp p count i rng := by
  intro count
  induction count with
  | zero =>
    intro i rng
    rfl
  | succ n ih =>
    intro i rng
    simp only [Worker.trialLoop, GearGuard.trialLoop, worker_simulateTrial_eq]
    cases GearGuard.simulateTrial M d bp p i rng with
    | none => rfl
    | some q =>
      obtain ⟨t, g⟩ := q
      simp only [ih]

theorem worker_computeStats_eq (M : JsMath) (l : List Trial) :
    Worker.computeStats M l = GearGuard.computeStats M l := rfl

/-- C25: on the same downtime, base parameters, configuration and random
draws, the handler of `workers/monteCarloWorker.js` posts exactly the sorted
trial list and the statistics (mean, median, min, max, stdDev and the seven
percentiles) that `runDowntimeSimulation` returns, consuming the same draws;
and it completes whenever the source holds eight non-zero draws per
iteration. -/
theorem worker_matches_backend (M : JsMath) (d : ℚ) (bp : BaseParams) (c : CustomParams)
    (rng : Rng) :
    Worker.onmessage M (mergeParams defaultParams c).iterations d bp
        (mergeParams defaultParams c) rng
      = (runDowntimeSimulation M d bp c rng).map
          (fun p => ({ results := p.1.results
                       stats := p.1.stats
                       iterations := p.1.iterations }, p.2)) ∧
    (8 * (mergeParams defaultParams c).iterations.toNat ≤ nonZeroCount rng →
      (Worker.onmessage M (mergeParams defaultParams c).iterations d bp
        (mergeParams defaultParams c) rng).isSome = true) := by
  have heq : Worker.onmessage M (mergeParams defaultParams c).iterations d bp
        (mergeParams defaultParams c) rng
      = (runDowntimeSimulation M d bp c rng).map
          (fun p => ({ results := p.1.results
                       stats := p.1.stats
                       iterations := p.1.iterations }, p.2)) := by
    simp only [Worker.onmessage, runDowntimeSimulation, worker_trialLoop_eq,
      worker_computeStats_eq]
    cases GearGuard.trialLoop M d bp (mergeParams defaultParams c)
        (mergeParams defaultParams c).iterations.toNat 0 rng with
    | none => rfl
    | some q => rfl
  refine ⟨heq, ?_⟩
  intro h
  obtain ⟨r, rest, hrun⟩ := runDowntimeSimulation_of_count M d bp c rng h
  rw [heq, hrun]
  rfl

/-! ## The inline worker -/

theorem inline_sumSquares_cons (x : ℚ) (xs : List ℚ) :
    InlineWorker.sumSquares (x :: xs) = Except.error WorkerError.referenceError := rfl

/-- The statistics of the inline worker are never computed: with a trial the
initializer of `stats` reads `stats.mean` too early, without one it reads
`total_cost` of `undefined`. -/
theorem inline_computeStats_fails (M : JsMath) (l : List Trial) :
    (l ≠ [] → InlineWorker.computeStats M l = Except.error WorkerError.referenceError) ∧
    (l = [] → InlineWorker.computeStats M l = Except.error WorkerError.typeError) := by
  constructor
  · intro h
    cases l with
    | nil => exact absurd rfl h
    | cons t ts => rfl
  · intro h
    subst h
    have ht : InlineWorker.totalCostAt [] (1 / 10) = Except.error WorkerError.typeError := by
      simp [InlineWorker.totalCostAt, elementAt]
    have hs : InlineWorker.sumSquares [] = Except.ok (JsNum.fin 0) := rfl
    simp only [InlineWorker.computeStats, List.map_nil, hs, ht]

/-- The inline worker never posts a result. -/
theorem runSimulation_never_ok (M : JsMath) (d : ℚ) (bp : BaseParams) (c : CustomParams)
    (rng : Rng) (p : InlineWorker.Posted × Rng) : runSimulation M d bp c rng ≠ Except.ok p := by
  intro h
  unfold runSimulation InlineWorker.onmessage at h
  cases hl : Worker.trialLoop M d bp (mergeParams defaultParams c)
      (mergeParams defaultParams c).iterations.toNat 0 rng with
  | none => simp [hl] at h
  | some q =>
    obtain ⟨results, g⟩ := q
    simp only [hl] at h
    by_cases hne : sortByTotalCost results = []
    · rw [(inline_computeStats_fails M _).2 hne] at h
      simp at h
    · rw [(inline_computeStats_fails M _).1 hne] at h
      simp at h

/-- With at least one iteration and eight non-zero draws per iteration, the
inline worker fails with a `ReferenceError`. -/
theorem runSimulation_referenceError (M : JsMath) (d : ℚ) (bp : BaseParams)
    (c : CustomParams) (rng : Rng)
    (h1 : 1 ≤ (mergeParams defaultParams c).iterations.toNat)
    (hrng : 8 * (mergeParams defaultParams c).iterations.toNat ≤ nonZeroCount rng) :
    runSimulation M d bp c rng = Except.error WorkerError.referenceError := by
  obtain ⟨ts, g, hloop⟩ := trialLoop_of_count M d bp (mergeParams defaultParams c)
    (mergeParams defaultParams c).iterations.toNat 0 rng hrng
  have hlen := trialLoop_length M d bp _ _ _ _ _ _ hloop
  have hne : sortByTotalCost ts ≠ [] := by
    intro h
    have := congrArg List.length h
    rw [length_sortByTotalCost, hlen] at this
    simp at this
    omega
  unfold runSimulation InlineWorker.onmessage
  simp only [worker_trialLoop_eq, hloop]
  rw [(inline_computeStats_fails M _).1 hne]

/-- C26, at the failing inputs: the inline worker of `runSimulation` never
posts statistics, whatever the input; on two iterations (same parameters, same
draws) the backend run completes and the inline worker fails with a
`ReferenceError`. -/
theorem inline_worker_never_completes (M : JsMath) (d : ℚ) (bp : BaseParams)
    (c : CustomParams) (rng : Rng) :
    (∀ p, runSimulation M d bp c rng ≠ Except.ok p) ∧
    sampleRun.isSome = true ∧
    runSimulation sampleMath 10 ⟨1000, 5, some 50, some 100000⟩ (onlyIterations 2) sampleRng
      = Except.error WorkerError.referenceError :=
  ⟨fun p => runSimulation_never_ok M d bp c rng p, by with_unfolding_all decide,
    runSimulation_referenceError sampleMath 10 ⟨1000, 5, some 50, some 100000⟩
      (onlyIterations 2) sampleRng (by decide) (by with_unfolding_all decide)⟩

/-! ## Base parameters of the sensitivity analysis -/

/-- C27, at the failing input: for the equipment of value 50000 and criticality
8 whose department estimates 1000 per hour, `runEquipmentSimulation` simulates
on `revenuePerHour = 1000` while the base parameters that
`runSensitivityAnalysis` perturbs have `revenuePerHour = 5`. -/
theorem sensitivity_base_differs :
    equipmentBaseParams
        { id := 1, name := "Press", type := "Hydraulic", criticality := some 8,
          value := some 50000, department_id := some 3 }
        (firstDepartment (departmentDb.departmentRows (some 3)))
      = { revenuePerHour := 1000
          affectedEmployees := 16
          hourlyWage := some 50
          equipmentValue := some 50000 } ∧
    sensitivityBaseParams
        { id := 1, name := "Press", type := "Hydraulic", criticality := some 8,
          value := some 50000 }
      = { revenuePerHour := 5
          affectedEmployees := 16
          hourlyWage := some 50
          equipmentValue := some 50000 } ∧
    (1000 : ℚ) ≠ 5 := by
  refine ⟨?_, ?_, by norm_num⟩
  · with_unfolding_all rfl
  · with_unfolding_all rfl

/-- The two base parameter sets of an equipment row agree in
`affectedEmployees` and `hourlyWage`; they agree in `revenuePerHour` when the
department has no (or a zero) hourly revenue estimate, and the sensitivity
analysis keeps a `null` equipment value where the simulation has 0. -/
theorem sensitivity_base_agreement (equipment : Equipment) (department : Department) :
    (sensitivityBaseParams
        { id := equipment.id
          name := equipment.name
          type := equipment.type
          criticality := equipment.criticality
          value := equipment.value }).affectedEmployees
      = (equipmentBaseParams equipment department).affectedEmployees ∧
    (sensitivityBaseParams
        { id := equipment.id
          name := equipment.name
          type := equipment.type
          criticality := equipment.criticality
          value := equipment.value }).hourlyWage
      = (equipmentBaseParams equipment department).hourlyWage ∧
    (orDefault department.estimated_revenue_hourly 0 = 0 →
      (sensitivityBaseParams
          { id := equipment.id
            name := equipment.name
            type := equipment.type
            criticality := equipment.criticality
            value := equipment.value }).revenuePerHour
        = (equipmentBaseParams equipment department).revenuePerHour) ∧
    (equipmentBaseParams equipment department).equipmentValue
      = some (nullToZero (sensitivityBaseParams
          { id := equipment.id
            name := equipment.name
            type := equipment.type
            criticality := equipment.criticality
            value := equipment.value }).equipmentValue) := by
  refine ⟨rfl, rfl, ?_, ?_⟩
  · intro h0
    simp only [sensitivityBaseParams, equipmentBaseParams]
    generalize department.estimated_revenue_hourly = est at h0
    cases est with
    | none => rfl
    | some e =>
      simp only [orDefault] at h0 ⊢
      split_ifs with he
      · rfl
      · rw [if_neg he] at h0
        exact absurd h0 he
  · simp only [sensitivityBaseParams, equipmentBaseParams, orDefault_zero]

/-! ## Uncertainty and risk level -/

theorem roundTo_three_half : roundTo 3 (1 / 2) = 1 / 2 := by
  have h := roundTo_int_div 3 500
  have e : ((500 : ℤ) : ℚ) / 10 ^ 3 = 1 / 2 := by norm_num
  rw [e] at h
  exact h

theorem mem_recommendations_gather (ra : RiskAssessment) (stats : Stats) :
    "Gather more data to reduce uncertainty in cost estimates"
        ∈ generateRecommendations ra stats
      ↔ JsNum.lt (JsNum.fin (1 / 2)) ra.uncertaintyRatio = true := by
  rw [generateRecommendations_eq]
  by_cases h1 : ra.riskLevel = RiskLevel.HIGH ∨ ra.riskLevel = RiskLevel.CRITICAL <;>
  by_cases h2 : JsNum.lt (JsNum.fin (1 / 2)) ra.uncertaintyRatio = true <;>
  by_cases h3 : JsNum.lt (JsNum.fin 3) (JsNum.div stats.max stats.mean) = true <;>
  simp [h1, h2, h3, mitigationGroup, dataGatheringGroup, worstCaseGroup]

theorem mem_recommendations_mitigation (ra : RiskAssessment) (stats : Stats) :
    "Implement immediate mitigation measures" ∈ generateRecommendations ra stats
      ↔ ra.riskLevel = RiskLevel.HIGH ∨ ra.riskLevel = RiskLevel.CRITICAL := by
  rw [generateRecommendations_eq]
  by_cases h1 : ra.riskLevel = RiskLevel.HIGH ∨ ra.riskLevel = RiskLevel.CRITICAL <;>
  by_cases h2 : JsNum.lt (JsNum.fin (1 / 2)) ra.uncertaintyRatio = true <;>
  by_cases h3 : JsNum.lt (JsNum.fin 3) (JsNum.div stats.max stats.mean) = true <;>
  simp [h1, h2, h3, mitigationGroup, dataGatheringGroup, worstCaseGroup]

/-- C28: for statistics with a positive (finite) mean, if the returned
`uncertaintyRatio` exceeds 0.5 then the returned `riskLevel` is HIGH or
CRITICAL; so whenever `generateRecommendations` emits the data-gathering
recommendations for such an assessment it also emits the immediate-mitigation
recommendations. -/
theorem high_uncertainty_is_high_risk (stats : Stats) (m : ℚ) (hm : stats.mean = JsNum.fin m)
    (hpos : 0 < m) :
    (JsNum.lt (JsNum.fin (1 / 2)) (generateRiskAssessment stats).uncertaintyRatio = true →
      (generateRiskAssessment stats).riskLevel = RiskLevel.HIGH ∨
      (generateRiskAssessment stats).riskLevel = RiskLevel.CRITICAL) ∧
    (∀ st : Stats,
      "Gather more data to reduce uncertainty in cost estimates"
          ∈ generateRecommendations (generateRiskAssessment stats) st →
        "Implement immediate mitigation measures"
          ∈ generateRecommendations (generateRiskAssessment stats) st) := by
  have hm0 : m ≠ 0 := ne_of_gt hpos
  have hmn : ¬ m < 0 := not_lt.mpr hpos.le
  have key : JsNum.lt (JsNum.fin (1 / 2)) (generateRiskAssessment stats).uncertaintyRatio = true →
      (generateRiskAssessment stats).riskLevel = RiskLevel.HIGH ∨
      (generateRiskAssessment stats).riskLevel = RiskLevel.CRITICAL := by
    rw [generateRiskAssessment_ratio, generateRiskAssessment_level]
    cases hsd : stats.stdDev with
    | fin sd =>
      rw [rawRiskScore_fin stats m sd hm hsd hm0, hm]
      simp only [JsNum.div, if_neg hm0, JsNum.toFixed, jsLt_fin]
      intro hlt
      have hratio : 1 / 2 < sd / m := by
        by_contra hle
        have := roundTo_mono 3 (not_lt.mp hle)
        rw [roundTo_three_half] at this
        linarith
      have hraw : (50 : ℚ) ≤ min 100 (max 0 (sd / m * 100)) := by
        apply le_min
        · norm_num
        · apply le_max_of_le_right
          linarith
      obtain ⟨-, -, hH, hC⟩ := riskLevelOf_fin_iff (min 100 (max 0 (sd / m * 100)))
      by_cases h80 : min 100 (max 0 (sd / m * 100)) < 80
      · exact Or.inl (hH.mpr ⟨hraw, h80⟩)
      · exact Or.inr (hC.mpr (not_lt.mp h80))
    | posInf =>
      intro _
      right
      have h100a : ¬ ((100 : ℚ) < 20) := by norm_num
      have h100b : ¬ ((100 : ℚ) < 50) := by norm_num
      have h100c : ¬ ((100 : ℚ) < 80) := by norm_num
      simp [rawRiskScore, hm, hsd, JsNum.div, hmn, JsNum.mul, JsNum.max, JsNum.min, JsNum.lt,
        riskLevelOf, h100a, h100b, h100c]
    | negInf =>
      intro hlt
      simp [hm, JsNum.div, hmn, JsNum.toFixed, JsNum.lt] at hlt
    | nan =>
      intro hlt
      simp [JsNum.div, JsNum.toFixed, JsNum.lt] at hlt
  refine ⟨key, ?_⟩
  intro st hg
  exact (mem_recommendations_mitigation _ st).mpr
    (key ((mem_recommendations_gather _ st).mp hg))

/-- C28, at standard deviation 60 and mean 100 (ratio 0.6, level HIGH). -/
theorem high_uncertainty_is_high_risk_witness :
    ((statsOf (JsNum.fin 100) (JsNum.fin 60)).mean = JsNum.fin 100 ∧ (0 : ℚ) < 100) ∧
    JsNum.lt (JsNum.fin (1 / 2))
      (generateRiskAssessment (statsOf (JsNum.fin 100) (JsNum.fin 60))).uncertaintyRatio
        = true ∧
    ((generateRiskAssessment (statsOf (JsNum.fin 100) (JsNum.fin 60))).riskLevel
        = RiskLevel.HIGH ∨
      (generateRiskAssessment (statsOf (JsNum.fin 100) (JsNum.fin 60))).riskLevel
        = RiskLevel.CRITICAL) :=
  ⟨⟨rfl, by norm_num⟩, by with_unfolding_all decide,
    (high_uncertainty_is_high_risk (statsOf (JsNum.fin 100) (JsNum.fin 60)) 100 rfl
      (by norm_num)).1 (by with_unfolding_all decide)⟩

/-! ## Order of the confidence bounds -/

/-- A key of at most 50 selects `p10`, `p25` or `p50` (or the fallback
`p10`). -/
theorem lower_bound_choice (P : Percentiles) (a10 a25 a50 a75 a90 a95 a99 : ℚ)
    (hP : P = { p10 := JsNum.fin a10, p25 := JsNum.fin a25, p50 := JsNum.fin a50,
                p75 := JsNum.fin a75, p90 := JsNum.fin a90, p95 := JsNum.fin a95,
                p99 := JsNum.fin a99 })
    (k : ℤ) (hk : k ≤ 50) :
    ∃ l, orDefaultNum (P.lookup k) P.p10 = JsNum.fin l ∧ (l = a10 ∨ l = a25 ∨ l = a50) := by
  subst hP
  unfold Percentiles.lookup
  by_cases h10 : k = 10
  · simp only [if_pos h10, orDefaultNum]
    split_ifs
    · exact ⟨a10, rfl, Or.inl rfl⟩
    · exact ⟨a10, rfl, Or.inl rfl⟩
  · by_cases h25 : k = 25
    · simp only [if_neg h10, if_pos h25, orDefaultNum]
      split_ifs
      · exact ⟨a25, rfl, Or.inr (Or.inl rfl)⟩
      · exact ⟨a10, rfl, Or.inl rfl⟩
    · by_cases h50 : k = 50
      · simp only [if_neg h10, if_neg h25, if_pos h50, orDefaultNum]
        split_ifs
        · exact ⟨a50, rfl, Or.inr (Or.inr rfl)⟩
        · exact ⟨a10, rfl, Or.inl rfl⟩
      · have h75 : k ≠ 75 := by omega
        have h90 : k ≠ 90 := by omega
        have h95 : k ≠ 95 := by omega
        have h99 : k ≠ 99 := by omega
        simp only [if_neg h10, if_neg h25, if_neg h50, if_neg h75, if_neg h90, if_neg h95,
          if_neg h99, orDefaultNum]
        exact ⟨a10, rfl, Or.inl rfl⟩

/-- A key of at least 50 selects `p50`, `p75`, `p90`, `p95` or `p99` (or the
fallback `p90`). -/
theorem upper_bound_choice (P : Percentiles) (a10 a25 a50 a75 a90 a95 a99 : ℚ)
    (hP : P = { p10 := JsNum.fin a10, p25 := JsNum.fin a25, p50 := JsNum.fin a50,
                p75 := JsNum.fin a75, p90 := JsNum.fin a90, p95 := JsNum.fin a95,
                p99 := JsNum.fin a99 })
    (k : ℤ) (hk : 50 ≤ k) :
    ∃ u, orDefaultNum (P.lookup k) P.p90 = JsNum.fin u ∧
      (u = a50 ∨ u = a75 ∨ u = a90 ∨ u = a95 ∨ u = a99) := by
  subst hP
  unfold Percentiles.lookup
  have h10 : k ≠ 10 := by omega
  have h25 : k ≠ 25 := by omega
  by_cases h50 : k = 50
  · simp only [if_neg h10, if_neg h25, if_pos h50, orDefaultNum]
    split_ifs
    · exact ⟨a50, rfl, Or.inl rfl⟩
    · exact ⟨a90, rfl, Or.inr (Or.inr (Or.inl rfl))⟩
  · by_cases h75 : k = 75
    · simp only [if_neg h10, if_neg h25, if_neg h50, if_pos h75, orDefaultNum]
      split_ifs
      · exact ⟨a75, rfl, Or.inr (Or.inl rfl)⟩
      · exact ⟨a90, rfl, Or.inr (Or.inr (Or.inl rfl))⟩
    · by_cases h90 : k = 90
      · simp only [if_neg h10, if_neg h25, if_neg h50, if_neg h75, if_pos h90, orDefaultNum]
        split_ifs
        · exact ⟨a90, rfl, Or.inr (Or.inr (Or.inl rfl))⟩
        · exact ⟨a90, rfl, Or.inr (Or.inr (Or.inl rfl))⟩
      · by_cases h95 : k = 95
        · simp only [if_neg h10, if_neg h25, if_neg h50, if_neg h75, if_neg h90, if_pos h95,
            orDefaultNum]
          split_ifs
          · exact ⟨a95, rfl, Or.inr (Or.inr (Or.inr (Or.inl rfl)))⟩
          · exact ⟨a90, rfl, Or.inr (Or.inr (Or.inl rfl))⟩
        · by_cases h99 : k = 99
          · simp only [if_neg h10, if_neg h25, if_neg h50, if_neg h75, if_neg h90, if_neg h95,
              if_pos h99, orDefaultNum]
            split_ifs
            · exact ⟨a99, rfl, Or.inr (Or.inr (Or.inr (Or.inr rfl)))⟩
            · exact ⟨a90, rfl, Or.inr (Or.inr (Or.inl rfl))⟩
          · simp only [if_neg h10, if_neg h25, if_neg h50, if_neg h75, if_neg h90, if_neg h95,
              if_neg h99, orDefaultNum]
            exact ⟨a90, rfl, Or.inr (Or.inr (Or.inl rfl))⟩

/-- C29: for a confidence level `c >= 0` (in particular `0 <= c <= 1`) and a
table of finite percentiles with `p10 <= p25 <= p50 <= p75 <= p90 <= p95 <= p99`,
`calculateConfidenceIntervals` returns `lower <= upper` and an interval width
`>= 0`, whichever tabulated keys or fallbacks are selected. -/
theorem confidence_interval_ordered (stats : Stats) (c : ℚ)
    (a10 a25 a50 a75 a90 a95 a99 : ℚ)
    (hP : stats.percentiles
      = { p10 := JsNum.fin a10, p25 := JsNum.fin a25, p50 := JsNum.fin a50,
          p75 := JsNum.fin a75, p90 := JsNum.fin a90, p95 := JsNum.fin a95,
          p99 := JsNum.fin a99 })
    (hc0 : 0 ≤ c)
    (h1 : a10 ≤ a25) (h2 : a25 ≤ a50) (h3 : a50 ≤ a75) (h4 : a75 ≤ a90) (h5 : a90 ≤ a95)
    (h6 : a95 ≤ a99) :
    JsNum.le (calculateConfidenceIntervals stats c).lower
      (calculateConfidenceIntervals stats c).upper = true ∧
    JsNum.le (JsNum.fin 0) (calculateConfidenceIntervals stats c).interval = true := by
  have hkl : Int.floor ((1 - c) / 2 * 100) ≤ 50 := by
    have : Int.floor ((1 - c) / 2 * 100) ≤ Int.floor ((50 : ℚ)) :=
      Int.floor_mono (by linarith)
    simpa using this
  have hku : 50 ≤ Int.floor ((1 - (1 - c) / 2) * 100) := by
    have : Int.floor ((50 : ℚ)) ≤ Int.floor ((1 - (1 - c) / 2) * 100) :=
      Int.floor_mono (by linarith)
    simpa using this
  obtain ⟨l, hl, hlc⟩ := lower_bound_choice stats.percentiles a10 a25 a50 a75 a90 a95 a99 hP
    _ hkl
  obtain ⟨u, hu, huc⟩ := upper_bound_choice stats.percentiles a10 a25 a50 a75 a90 a95 a99 hP
    _ hku
  have hl50 : l ≤ a50 := by
    rcases hlc with rfl | rfl | rfl <;> linarith
  have hu50 : a50 ≤ u := by
    rcases huc with rfl | rfl | rfl | rfl | rfl <;> linarith
  have hlu : l ≤ u := le_trans hl50 hu50
  simp only [calculateConfidenceIntervals, hl, hu, JsNum.toFixed, JsNum.sub, JsNum.neg,
    JsNum.add, jsLe_fin]
  constructor
  · exact roundTo_mono 2 hlu
  · have h0 : (0 : ℚ) ≤ u + -l := by linarith
    have := roundTo_mono 2 h0
    rwa [roundTo_two_zero] at this

/-- C29, at confidence level 0.5 (keys `p25` and `p75`) on the percentile table
10, 20, 30, 40, 50, 60, 70. -/
theorem confidence_interval_ordered_witness :
    ((0 : ℚ) ≤ 1 / 2 ∧ (10 : ℚ) ≤ 20 ∧ (20 : ℚ) ≤ 30 ∧ (30 : ℚ) ≤ 40 ∧
      (40 : ℚ) ≤ 50 ∧ (50 : ℚ) ≤ 60 ∧ (60 : ℚ) ≤ 70) ∧
    JsNum.le (calculateConfidenceIntervals sampleTable (1 / 2)).lower
      (calculateConfidenceIntervals sampleTable (1 / 2)).upper = true ∧
    JsNum.le (JsNum.fin 0) (calculateConfidenceIntervals sampleTable (1 / 2)).interval = true :=
  ⟨⟨by norm_num, by norm_num, by norm_num, by norm_num, by norm_num, by norm_num,
      by norm_num⟩,
    confidence_interval_ordered sampleTable (1 / 2) 10 20 30 40 50 60 70 rfl
      (by norm_num) (by norm_num) (by norm_num) (by norm_num) (by norm_num) (by norm_num)
      (by norm_num)⟩

/-! ## The deterministic cost calculator -/

/-- Rounding to two decimals moves a value by at most 0.005. -/
theorem roundTo_two_error (q : ℚ) : |roundTo 2 q - q| ≤ 1 / 200 := by
  unfold roundTo
  by_cases hq : q < 0
  · rw [if_pos hq]
    have h1 := Int.floor_le (-q * 10 ^ 2 + 1 / 2)
    have h2 := Int.lt_floor_add_one (-q * 10 ^ 2 + 1 / 2)
    rw [abs_le]
    constructor
    · have : ((Int.floor (-q * 10 ^ 2 + 1 / 2) : ℤ) : ℚ) / 10 ^ 2 ≤ -q + 1 / 200 := by
        rw [div_le_iff₀ (by norm_num)]
        linarith
      linarith
    · have : -q - 1 / 200 < ((Int.floor (-q * 10 ^ 2 + 1 / 2) : ℤ) : ℚ) / 10 ^ 2 := by
        rw [lt_div_iff₀ (by norm_num)]
        linarith
      linarith
  · rw [if_neg hq]
    have h1 := Int.floor_le (q * 10 ^ 2 + 1 / 2)
    have h2 := Int.lt_floor_add_one (q * 10 ^ 2 + 1 / 2)
    rw [abs_le]
    constructor
    · have : q - 1 / 200 < ((Int.floor (q * 10 ^ 2 + 1 / 2) : ℤ) : ℚ) / 10 ^ 2 := by
        rw [lt_div_iff₀ (by norm_num)]
        linarith
      linarith
    · have : ((Int.floor (q * 10 ^ 2 + 1 / 2) : ℤ) : ℚ) / 10 ^ 2 ≤ q + 1 / 200 := by
        rw [div_le_iff₀ (by norm_num)]
        linarith
      linarith

/-- C30, as stated, fails: for one hour, one employee, revenue 1/256 per hour,
wage 1/256 and fixed costs 1/256 per hour, the returned `total_cost` is 0.01
(3/256 rounded) while the five returned breakdown entries are all 0. -/
theorem total_cost_is_not_sum_of_breakdown :
    calculateDowntimeCost 1 1 (1 / 256)
        { hourlyWage := some (1 / 256), equipmentValue := none, productionLoss := none,
          fixedCostsPerHour := some (1 / 256) }
      = { total_cost := 1 / 100
          breakdown :=
            { revenue_loss := 0
              labor_cost := 0
              production_loss := 0
              fixed_costs := 0
              depreciation := 0 } } ∧
    (1 / 100 : ℚ) ≠ 0 + 0 + 0 + 0 + 0 := by
  constructor
  · with_unfolding_all rfl
  · norm_num

/-- C30 (amended): the returned `total_cost` is the sum of the five unrounded
cost components rounded to two decimals, each returned breakdown entry is its
component rounded to two decimals, and `total_cost` differs from the sum of the
five returned entries by at most 0.03. -/
theorem downtime_cost_total (downtimeHours affectedEmployees revenuePerHour : ℚ)
    (options : CostOptions) :
    (calculateDowntimeCost downtimeHours affectedEmployees revenuePerHour options).total_cost
      = roundTo 2
          ((costComponents downtimeHours affectedEmployees revenuePerHour options).revenue_loss
            + (costComponents downtimeHours affectedEmployees revenuePerHour options).labor_cost
            + (costComponents downtimeHours affectedEmployees revenuePerHour
                options).production_loss
            + (costComponents downtimeHours affectedEmployees revenuePerHour options).fixed_costs
            + (costComponents downtimeHours affectedEmployees revenuePerHour
                options).depreciation) ∧
    (calculateDowntimeCost downtimeHours affectedEmployees revenuePerHour options).breakdown
      = { revenue_loss := roundTo 2
            (costComponents downtimeHours affectedEmployees revenuePerHour options).revenue_loss
          labor_cost := roundTo 2
            (costComponents downtimeHours affectedEmployees revenuePerHour options).labor_cost
          production_loss := roundTo 2
            (costComponents downtimeHours affectedEmployees revenuePerHour
              options).production_loss
          fixed_costs := roundTo 2
            (costComponents downtimeHours affectedEmployees revenuePerHour options).fixed_costs
          depreciation := roundTo 2
            (costComponents downtimeHours affectedEmployees revenuePerHour
              options).depreciation } ∧
    |(calculateDowntimeCost downtimeHours affectedEmployees revenuePerHour options).total_cost
      - ((calculateDowntimeCost downtimeHours affectedEmployees revenuePerHour
            options).breakdown.revenue_loss
        + (calculateDowntimeCost downtimeHours affectedEmployees revenuePerHour
            options).breakdown.labor_cost
        + (calculateDowntimeCost downtimeHours affectedEmployees revenuePerHour
            options).breakdown.production_loss
        + (calculateDowntimeCost downtimeHours affectedEmployees revenuePerHour
            options).breakdown.fixed_costs
        + (calculateDowntimeCost downtimeHours affectedEmployees revenuePerHour
            options).breakdown.depreciation)| ≤ 3 / 100 := by
  refine ⟨rfl, rfl, ?_⟩
  simp only [calculateDowntimeCost]
  generalize downtimeHours * revenuePerHour = a
  generalize downtimeHours * affectedEmployees * options.hourlyWage.getD 50 = b
  generalize options.productionLoss.getD 0 * (downtimeHours / 24) = c
  generalize downtimeHours * options.fixedCostsPerHour.getD 0 = e
  generalize options.equipmentValue.getD 0 * (1 / 1000) * (downtimeHours / 8760) = f
  have ht := abs_le.mp (roundTo_two_error (a + b + c + e + f))
  have ha := abs_le.mp (roundTo_two_error a)
  have hb := abs_le.mp (roundTo_two_error b)
  have hc := abs_le.mp (roundTo_two_error c)
  have he := abs_le.mp (roundTo_two_error e)
  have hf := abs_le.mp (roundTo_two_error f)
  rw [abs_le]
  constructor
  · linarith [ht.1, ha.2, hb.2, hc.2, he.2, hf.2]
  · linarith [ht.2, ha.1, hb.1, hc.1, he.1, hf.1]

end GearGuard
